import Mathlib

/-!
The ezDV Icom network protocol: packet codec and transport engine.

A shallow embedding of `IcomPacket.cpp` (packet factories, classification
predicates, credential obfuscation) and of the transport part of
`IcomStateMachine.cpp` (identifier derivation, send gate), followed by the
properties established about them.

Conventions of the embedding:

* a packet buffer is a `List Nat` of bytes (every stored value is reduced
  modulo 256); a pointer into a buffer is a byte offset;
* fixed-width integers are `Nat` (or `Int` for signed ones) with explicit
  reduction modulo `2 ^ w` where a store truncates;
* the target (ESP32) is little-endian: a native 16/32-bit store puts the
  least significant byte at the lowest address;
* a read through a typed view is fallible: it yields `none` when it touches a
  byte outside the buffer.
-/

namespace ezdv.network.icom

/-! ## Raw memory access -/

/-- Native store of one byte at offset `off`. -/
def writeU8 (buf : List Nat) (off v : Nat) : List Nat :=
  buf.set off (v % 256)

/-- Native (little-endian) store of a `uint16_t` at offset `off`. -/
def writeU16 (buf : List Nat) (off v : Nat) : List Nat :=
  (buf.set off (v % 256)).set (off + 1) (v / 256 % 256)

/-- Native (little-endian) store of a `uint32_t` at offset `off`. -/
def writeU32 (buf : List Nat) (off v : Nat) : List Nat :=
  (((buf.set off (v % 256)).set (off + 1) (v / 256 % 256)).set (off + 2)
    (v / 65536 % 256)).set (off + 3) (v / 16777216 % 256)

/-- Native load of one byte; `none` outside the buffer. -/
def readU8 (buf : List Nat) (off : Nat) : Option Nat :=
  buf[off]?

/-- Native (little-endian) load of a `uint16_t`; `none` outside the buffer. -/
def readU16 (buf : List Nat) (off : Nat) : Option Nat :=
  match buf[off]?, buf[off + 1]? with
  | some b0, some b1 => some (b0 + 256 * b1)
  | _, _ => none

/-- Native (little-endian) load of a `uint32_t`; `none` outside the buffer. -/
def readU32 (buf : List Nat) (off : Nat) : Option Nat :=
  match buf[off]?, buf[off + 1]?, buf[off + 2]?, buf[off + 3]? with
  | some b0, some b1, some b2, some b3 =>
      some (b0 + 256 * b1 + 65536 * b2 + 16777216 * b3)
  | _, _, _, _ => none

/-- The call `memcpy(buf + off, src, src.length)`: the bytes of `src` are
stored at `off`, `off + 1`, ...  Only copies that stay inside `buf` are
meaningful; a store past the end of the list has no effect here. -/
def memcpy : List Nat → Nat → List Nat → List Nat
  | buf, _, [] => buf
  | buf, off, b :: bs => memcpy (buf.set off (b % 256)) (off + 1) bs

/-- Modelled from the spec: `ToBigEndian` for `uint16_t` is declared in
`IcomPacket.h`, a header whose text is not available.  Big-endian
("network order") fields are produced by swapping the two bytes of the value on
the little-endian target, so that the native store of the result puts the most
significant byte first. -/
def ToBigEndian (v : Nat) : Nat :=
  (v % 256) * 256 + v / 256 % 256

/-- Modelled from the spec: `ToLittleEndian` for `uint16_t` is declared in
`IcomPacket.h`; on the little-endian target it leaves the 16-bit value as it
is. -/
def ToLittleEndian (v : Nat) : Nat :=
  v % 65536

/-! ## Packet sizes and typed views

Modelled from the spec: the size constants and the packed packet views
(`control_packet`, `ping_packet`/`data_packet`, `openclose_packet`,
`audio_packet`, `token_packet`, `login_packet`) are declared in `IcomPacket.h`,
a header whose text is not available.  Every view starts with the common
header: total length, type marker, sequence field, sender identifier (32-bit),
receiver identifier (32-bit), 16 bytes in all (`CONTROL_SIZE ==
sizeof(control_packet)` is asserted by the factories).  The offsets past the
header agree with the byte positions that `IcomPacket.cpp` spells out itself
(`0x10`..`0x17` in `CreateAudioPacket`, `0x12` in `CreateLoginPacket`, `0x15`
in `CreateCIVPacket`). -/

/-- Modelled from the spec: size of the control packet, the common header. -/
def CONTROL_SIZE : Nat := 0x10

/-- Modelled from the spec: size of a ping packet. -/
def PING_SIZE : Nat := 0x15

/-- Modelled from the spec: size of an open/close packet. -/
def OPENCLOSE_SIZE : Nat := 0x16

/-- Modelled from the spec: size of a token packet. -/
def TOKEN_SIZE : Nat := 0x40

/-- Modelled from the spec: size of a login packet. -/
def LOGIN_SIZE : Nat := 0x80

/-- Modelled from the spec: header field `len`, a `uint32_t` at `0x00`. -/
def off_len : Nat := 0x00

/-- Modelled from the spec: header field `type`, a `uint16_t` at `0x04`. -/
def off_type : Nat := 0x04

/-- Modelled from the spec: header field `seq`, a `uint16_t` at `0x06`. -/
def off_seq : Nat := 0x06

/-- Modelled from the spec: header field `sentid`, a `uint32_t` at `0x08`. -/
def off_sentid : Nat := 0x08

/-- Modelled from the spec: header field `rcvdid`, a `uint32_t` at `0x0c`. -/
def off_rcvdid : Nat := 0x0c

/-- Modelled from the spec: `ping_packet`/`data_packet` field `reply`, one
byte at `0x10`. -/
def off_reply : Nat := 0x10

/-- Modelled from the spec: `ping_packet` field `time`, a `uint32_t` at
`0x11`. -/
def off_time : Nat := 0x11

/-- Modelled from the spec: `data_packet` field `datalen`, a `uint16_t` at
`0x11`. -/
def off_data_datalen : Nat := 0x11

/-- Modelled from the spec: `data_packet` field `sendseq`, a `uint16_t` at
`0x13`. -/
def off_data_sendseq : Nat := 0x13

/-- Modelled from the spec: `openclose_packet` field `data`, a `uint16_t` at
`0x10`. -/
def off_oc_data : Nat := 0x10

/-- Modelled from the spec: `openclose_packet` field `sendseq`, a `uint16_t`
at `0x13`. -/
def off_oc_sendseq : Nat := 0x13

/-- Modelled from the spec: `openclose_packet` field `magic`, one byte at
`0x15`. -/
def off_oc_magic : Nat := 0x15

/-- Modelled from the spec: `token_packet`/`login_packet` field `payloadsize`,
a `uint16_t` at `0x12`. -/
def off_payloadsize : Nat := 0x12

/-- Modelled from the spec: `token_packet`/`login_packet` field
`requestreply`, one byte at `0x14`. -/
def off_requestreply : Nat := 0x14

/-- Modelled from the spec: `token_packet`/`login_packet` field `requesttype`,
one byte at `0x15`. -/
def off_requesttype : Nat := 0x15

/-- Modelled from the spec: `token_packet`/`login_packet` field `innerseq`, a
`uint16_t` at `0x16`. -/
def off_innerseq : Nat := 0x16

/-- Modelled from the spec: `token_packet`/`login_packet` field `tokrequest`,
a `uint16_t` at `0x1a`. -/
def off_tokrequest : Nat := 0x1a

/-- Modelled from the spec: `token_packet`/`login_packet` field `token`, a
`uint32_t` at `0x1c`. -/
def off_token : Nat := 0x1c

/-- Modelled from the spec: `login_packet` field `username`, 16 bytes at
`0x40`. -/
def off_username : Nat := 0x40

/-- Modelled from the spec: `login_packet` field `password`, 16 bytes at
`0x50`. -/
def off_password : Nat := 0x50

/-- Modelled from the spec: `login_packet` field `name`, 16 bytes at `0x60`
(followed by 16 unused bytes up to the end of the packet). -/
def off_name : Nat := 0x60

/-! ## The packet object -/

/-- An `IcomPacket`: the owned buffer `rawPacket_` (`none` is `nullptr`) and
its length `size_` (an `int` that is never negative in a constructed
packet). -/
structure IcomPacket where
  rawPacket_ : Option (List Nat)
  size_ : Nat
deriving DecidableEq, Repr

namespace IcomPacket

/-- Embedding of `IcomPacket::IcomPacket(int size)`: a zero-filled buffer of `size` bytes. -/
def zeroed (size : Nat) : IcomPacket :=
  { rawPacket_ := some (List.replicate size 0), size_ := size }

/-- Embedding of `IcomPacket::IcomPacket(char* existingPacket, int size)`: a copy of `size`
received bytes. -/
def ofBytes (existingPacket : List Nat) (size : Nat) : IcomPacket :=
  { rawPacket_ := some ((existingPacket.take size).map (fun b => b % 256)), size_ := size }

/-- Embedding of `IcomPacket::getSendLength`. -/
def getSendLength (p : IcomPacket) : Nat :=
  p.size_

/-- Embedding of `IcomPacket::getData`. -/
def getData (p : IcomPacket) : Option (List Nat) :=
  p.rawPacket_

/-- A store through `getTypedPacket<T>()` or `getData()`: it changes the bytes
of the buffer and nothing else. -/
def store (p : IcomPacket) (f : List Nat → List Nat) : IcomPacket :=
  { p with rawPacket_ := p.rawPacket_.map f }

/-- A 16-bit load through a typed view. -/
def loadU16 (p : IcomPacket) (off : Nat) : Option Nat :=
  p.rawPacket_.bind (fun b => readU16 b off)

/-- A 32-bit load through a typed view. -/
def loadU32 (p : IcomPacket) (off : Nat) : Option Nat :=
  p.rawPacket_.bind (fun b => readU32 b off)

/-- A byte load through a typed view. -/
def loadU8 (p : IcomPacket) (off : Nat) : Option Nat :=
  p.rawPacket_.bind (fun b => readU8 b off)

/-- The field `sentid` read through the generic control header
(`getTypedPacket<control_packet>()->sentid`). -/
def sentid (p : IcomPacket) : Option Nat :=
  p.loadU32 off_sentid

/-- The field `rcvdid` read through the generic control header
(`getTypedPacket<control_packet>()->rcvdid`). -/
def rcvdid (p : IcomPacket) : Option Nat :=
  p.loadU32 off_rcvdid

end IcomPacket

/-! ## Control-sized factories -/

/-- Embedding of `IcomPacket::CreateAreYouTherePacket`. -/
def CreateAreYouTherePacket (ourId theirId : Nat) : IcomPacket :=
  let packetType := 0x03
  let result := IcomPacket.zeroed CONTROL_SIZE
  let result := result.store (fun b => writeU32 b off_len CONTROL_SIZE)
  let result := result.store (fun b => writeU16 b off_type packetType)
  let result := result.store (fun b => writeU16 b off_seq 0)
  let result := result.store (fun b => writeU32 b off_sentid ourId)
  let result := result.store (fun b => writeU32 b off_rcvdid theirId)
  result

/-- Embedding of `IcomPacket::CreateAreYouReadyPacket`. -/
def CreateAreYouReadyPacket (ourId theirId : Nat) : IcomPacket :=
  let packetType := 0x06
  let result := IcomPacket.zeroed CONTROL_SIZE
  let result := result.store (fun b => writeU32 b off_len CONTROL_SIZE)
  let result := result.store (fun b => writeU16 b off_type packetType)
  let result := result.store (fun b => writeU16 b off_seq 1)
  let result := result.store (fun b => writeU32 b off_sentid ourId)
  let result := result.store (fun b => writeU32 b off_rcvdid theirId)
  result

/-- Embedding of `IcomPacket::CreateIdlePacket`. -/
def CreateIdlePacket (ourSeq ourId theirId : Nat) : IcomPacket :=
  let packetType := 0x00
  let result := IcomPacket.zeroed CONTROL_SIZE
  let result := result.store (fun b => writeU32 b off_len CONTROL_SIZE)
  let result := result.store (fun b => writeU16 b off_type packetType)
  let result := result.store (fun b => writeU16 b off_seq ourSeq)
  let result := result.store (fun b => writeU32 b off_sentid ourId)
  let result := result.store (fun b => writeU32 b off_rcvdid theirId)
  result

/-- Embedding of `IcomPacket::CreateDisconnectPacket`. -/
def CreateDisconnectPacket (ourId theirId : Nat) : IcomPacket :=
  let packetType := 0x05
  let result := IcomPacket.zeroed CONTROL_SIZE
  let result := result.store (fun b => writeU32 b off_len CONTROL_SIZE)
  let result := result.store (fun b => writeU16 b off_type packetType)
  let result := result.store (fun b => writeU16 b off_seq 0)
  let result := result.store (fun b => writeU32 b off_sentid ourId)
  let result := result.store (fun b => writeU32 b off_rcvdid theirId)
  result

/-- The loop `for (auto& id : packetIdsToRetransmit) *(pos++) = ToBigEndian(id)`
of `CreateRetransmitRequest`; `pos` is the byte offset of the `uint16_t*`. -/
def writeRetransmitIds : List Nat → Nat → List Nat → List Nat
  | buf, _, [] => buf
  | buf, pos, id :: ids => writeRetransmitIds (writeU16 buf pos (ToBigEndian id)) (pos + 2) ids

/-- Embedding of `IcomPacket::CreateRetransmitRequest`. -/
def CreateRetransmitRequest (ourId theirId : Nat) (packetIdsToRetransmit : List Nat) :
    IcomPacket :=
  let packetType := 0x01
  let numBytesAtEnd := 2 * packetIdsToRetransmit.length
  let result := IcomPacket.zeroed (CONTROL_SIZE + numBytesAtEnd)
  let result := result.store (fun b => writeU32 b off_len (CONTROL_SIZE + numBytesAtEnd))
  let result := result.store (fun b => writeU16 b off_type packetType)
  let result := result.store (fun b => writeU16 b off_seq 0)
  let result := result.store (fun b => writeU32 b off_sentid ourId)
  let result := result.store (fun b => writeU32 b off_rcvdid theirId)
  if packetIdsToRetransmit.length = 1 then
    result.store (fun b => writeU16 b off_seq (ToBigEndian (packetIdsToRetransmit.getD 0 0)))
  else
    result.store (fun b => writeRetransmitIds b CONTROL_SIZE packetIdsToRetransmit)

/-! ## Token, ping and login factories -/

/-- Embedding of `IcomPacket::CreateTokenAckPacket`. -/
def CreateTokenAckPacket (authSeq tokenRequest token ourId theirId : Nat) : IcomPacket :=
  let result := IcomPacket.zeroed TOKEN_SIZE
  let result := result.store (fun b => writeU32 b off_len TOKEN_SIZE)
  let result := result.store (fun b => writeU32 b off_sentid ourId)
  let result := result.store (fun b => writeU32 b off_rcvdid theirId)
  let result := result.store (fun b => writeU16 b off_payloadsize (ToBigEndian (TOKEN_SIZE - 0x10)))
  let result := result.store (fun b => writeU8 b off_requesttype 0x02)
  let result := result.store (fun b => writeU8 b off_requestreply 0x01)
  let result := result.store (fun b => writeU16 b off_innerseq (ToBigEndian authSeq))
  let result := result.store (fun b => writeU16 b off_tokrequest tokenRequest)
  let result := result.store (fun b => writeU32 b off_token token)
  result

/-- Embedding of `IcomPacket::CreateTokenRenewPacket`. -/
def CreateTokenRenewPacket (authSeq tokenRequest token ourId theirId : Nat) : IcomPacket :=
  let result := IcomPacket.zeroed TOKEN_SIZE
  let result := result.store (fun b => writeU32 b off_len TOKEN_SIZE)
  let result := result.store (fun b => writeU32 b off_sentid ourId)
  let result := result.store (fun b => writeU32 b off_rcvdid theirId)
  let result := result.store (fun b => writeU16 b off_payloadsize (ToBigEndian (TOKEN_SIZE - 0x10)))
  let result := result.store (fun b => writeU8 b off_requesttype 0x05)
  let result := result.store (fun b => writeU8 b off_requestreply 0x01)
  let result := result.store (fun b => writeU16 b off_innerseq (ToBigEndian authSeq))
  let result := result.store (fun b => writeU16 b off_tokrequest tokenRequest)
  let result := result.store (fun b => writeU32 b off_token token)
  result

/-- Embedding of `IcomPacket::CreateTokenRemovePacket`. -/
def CreateTokenRemovePacket (authSeq tokenRequest token ourId theirId : Nat) : IcomPacket :=
  let result := IcomPacket.zeroed TOKEN_SIZE
  let result := result.store (fun b => writeU32 b off_len TOKEN_SIZE)
  let result := result.store (fun b => writeU32 b off_sentid ourId)
  let result := result.store (fun b => writeU32 b off_rcvdid theirId)
  let result := result.store (fun b => writeU16 b off_payloadsize (ToBigEndian (TOKEN_SIZE - 0x10)))
  let result := result.store (fun b => writeU8 b off_requesttype 0x01)
  let result := result.store (fun b => writeU8 b off_requestreply 0x01)
  let result := result.store (fun b => writeU16 b off_innerseq (ToBigEndian authSeq))
  let result := result.store (fun b => writeU16 b off_tokrequest tokenRequest)
  let result := result.store (fun b => writeU32 b off_token token)
  result

/-- Embedding of `IcomPacket::CreatePingPacket`; `now` is the value of `time(NULL)`. -/
def CreatePingPacket (now pingSeq ourId theirId : Nat) : IcomPacket :=
  let packetType := 0x07
  let result := IcomPacket.zeroed PING_SIZE
  let result := result.store (fun b => writeU32 b off_len PING_SIZE)
  let result := result.store (fun b => writeU16 b off_type packetType)
  let result := result.store (fun b => writeU16 b off_seq pingSeq)
  let result := result.store (fun b => writeU32 b off_sentid ourId)
  let result := result.store (fun b => writeU32 b off_rcvdid theirId)
  let result := result.store (fun b => writeU32 b off_time now)
  result

/-- Embedding of `IcomPacket::CreatePingAckPacket`; `now` is the value of `time(NULL)`. -/
def CreatePingAckPacket (now theirPingSeq ourId theirId : Nat) : IcomPacket :=
  let packetType := 0x07
  let result := IcomPacket.zeroed PING_SIZE
  let result := result.store (fun b => writeU32 b off_len PING_SIZE)
  let result := result.store (fun b => writeU16 b off_type packetType)
  let result := result.store (fun b => writeU16 b off_seq theirPingSeq)
  let result := result.store (fun b => writeU32 b off_sentid ourId)
  let result := result.store (fun b => writeU32 b off_rcvdid theirId)
  let result := result.store (fun b => writeU32 b off_time now)
  let result := result.store (fun b => writeU8 b off_reply 0x1)
  result

/-- The table `sequence` of `IcomPacket::EncodePassword_`. -/
def sequence : List Nat :=
  [0,0,0,0,0,0,0,0,0,0,0,0,0,0,0,0,0,0,0,0,0,0,0,0,0,0,0,0,0,0,0,0,
   0x47,0x5d,0x4c,0x42,0x66,0x20,0x23,0x46,0x4e,0x57,0x45,0x3d,0x67,0x76,0x60,0x41,0x62,0x39,0x59,0x2d,0x68,0x7e,
   0x7c,0x65,0x7d,0x49,0x29,0x72,0x73,0x78,0x21,0x6e,0x5a,0x5e,0x4a,0x3e,0x71,0x2c,0x2a,0x54,0x3c,0x3a,0x63,0x4f,
   0x43,0x75,0x27,0x79,0x5b,0x35,0x70,0x48,0x6b,0x56,0x6f,0x34,0x32,0x6c,0x30,0x61,0x6d,0x7b,0x2f,0x4b,0x64,0x38,
   0x2b,0x2e,0x50,0x40,0x3f,0x55,0x33,0x37,0x25,0x77,0x24,0x26,0x74,0x6a,0x28,0x53,0x4d,0x69,0x22,0x5c,0x44,0x31,
   0x36,0x58,0x3b,0x7a,0x51,0x5f,0x52,0,0,0,0,0,0,0,0,0,0,0,0,0,0,0,0,0,0,0,0,0,0,0,0,0,0,0,0,0,0,0,0]

/-- The lookup index `p` that `EncodePassword_` computes for the character
`c = ascii[i]` at position `i`. -/
def passwordIndex (c i : Nat) : Nat :=
  let p := c + i
  if p > 126 then 32 + p % 127 else p

/-- The loop of `EncodePassword_`: the first argument holds the characters
from position `i` on, `output` is the offset of the output pointer.  The table
is read at `passwordIndex`, which stays inside the table for byte input. -/
def encodePasswordLoop : List Nat → Nat → List Nat → Nat → List Nat
  | [], _, buf, _ => buf
  | c :: rest, i, buf, output =>
      if i < 16 then
        encodePasswordLoop rest (i + 1)
          (buf.set output (sequence.getD (passwordIndex c i) 0 % 256)) (output + 1)
      else buf

/-- Embedding of `IcomPacket::EncodePassword_(str, output)`, the output pointer being the
offset `output` of the buffer `buf`; the result is the buffer afterwards. -/
def EncodePassword_ (str : List Nat) (buf : List Nat) (output : Nat) : List Nat :=
  encodePasswordLoop str 0 buf output

/-- Embedding of `std::minstd_rand`: the default-constructed engine starts from seed 1. -/
def minstd_rand_default_seed : Nat := 1

/-- Embedding of `IcomPacket::CreateLoginPacket`.  `uniform_dist` stands for
`std::uniform_int_distribution<uint16_t>(0, UINT16_MAX)` of the C++ library: it
maps the state of the generator it is applied to, to the value drawn. -/
def CreateLoginPacket (uniform_dist : Nat → Nat) (authSeq ourId theirId : Nat)
    (username password computerName : List Nat) : IcomPacket :=
  let generator := minstd_rand_default_seed
  let tokRequest := uniform_dist generator % 65536
  let result := IcomPacket.zeroed LOGIN_SIZE
  let result := result.store (fun b => writeU32 b off_len LOGIN_SIZE)
  let result := result.store (fun b => writeU32 b off_sentid ourId)
  let result := result.store (fun b => writeU32 b off_rcvdid theirId)
  let tmp := ToBigEndian (LOGIN_SIZE - 0x10)
  let result := result.store (fun b => writeU8 b 0x12 (tmp % 256))
  let result := result.store (fun b => writeU8 b 0x13 (tmp / 256))
  let result := result.store (fun b => writeU8 b off_requesttype 0x00)
  let result := result.store (fun b => writeU8 b off_requestreply 0x01)
  let result := result.store (fun b => writeU16 b off_innerseq (ToBigEndian authSeq))
  let result := result.store (fun b => writeU16 b off_tokrequest tokRequest)
  let result := result.store (fun b => EncodePassword_ username b off_username)
  let result := result.store (fun b => EncodePassword_ password b off_password)
  let result := result.store (fun b => memcpy b off_name computerName)
  result

/-! ## CIV, open/close and audio factories -/

/-- Embedding of `IcomPacket::CreateCIVPacket`; `civData` is the memory at the pointer, of
which `civLength` bytes are copied. -/
def CreateCIVPacket (ourId theirId sendSeq : Nat) (civData : List Nat) (civLength : Nat) :
    IcomPacket :=
  let result := IcomPacket.zeroed (0x15 + civLength)
  let result := result.store (fun b => writeU32 b off_len (0x15 + civLength))
  let result := result.store (fun b => writeU32 b off_sentid ourId)
  let result := result.store (fun b => writeU32 b off_rcvdid theirId)
  let result := result.store (fun b => writeU8 b off_reply 0xc1)
  let result := result.store (fun b => writeU16 b off_data_datalen civLength)
  let result := result.store (fun b => writeU16 b off_data_sendseq (ToBigEndian sendSeq))
  let result := result.store (fun b => memcpy b 0x15 (civData.take civLength))
  result

/-- Embedding of `IcomPacket::CreateCIVOpenClosePacket`. -/
def CreateCIVOpenClosePacket (civSeq ourId theirId : Nat) (close : Bool) : IcomPacket :=
  let result := IcomPacket.zeroed OPENCLOSE_SIZE
  let result := result.store (fun b => writeU32 b off_len OPENCLOSE_SIZE)
  let result := result.store (fun b => writeU32 b off_sentid ourId)
  let result := result.store (fun b => writeU32 b off_rcvdid theirId)
  let result := result.store (fun b => writeU16 b off_oc_data 0x01c0)
  let result := result.store (fun b => writeU8 b off_oc_magic (if close then 0x00 else 0x04))
  let result := result.store (fun b => writeU16 b off_oc_sendseq (ToBigEndian civSeq))
  result

/-- The two bytes a `short` occupies in memory (two's complement,
little-endian). -/
def shortBytes (s : Int) : List Nat :=
  let u := (s % 65536).toNat
  [u % 256, u / 256]

/-- The memory image of an array of `short`. -/
def audioBytes (audio : List Int) : List Nat :=
  audio.flatMap shortBytes

/-- Embedding of `IcomPacket::CreateAudioPacket`; `audio` is the array at the pointer, of
which `len` samples (`len * sizeof(short)` bytes) are copied. -/
def CreateAudioPacket (audioSeq ourId theirId : Nat) (audio : List Int) (len : Nat) :
    IcomPacket :=
  let result := IcomPacket.zeroed (0x18 + len * 2)
  let result := result.store (fun b => writeU32 b off_len (0x18 + len * 2))
  let result := result.store (fun b => writeU32 b off_sentid ourId)
  let result := result.store (fun b => writeU32 b off_rcvdid theirId)
  let result := result.store (fun b => writeU8 b 0x10 0x80)
  let result := result.store (fun b => writeU8 b 0x11 0x00)
  let tmp := ToBigEndian audioSeq
  let result := result.store (fun b => writeU8 b 0x12 (tmp % 256))
  let result := result.store (fun b => writeU8 b 0x13 (tmp / 256))
  let tmp := (len * 2) % 65536
  let tmp := ToBigEndian tmp
  let result := result.store (fun b => writeU8 b 0x16 (tmp % 256))
  let result := result.store (fun b => writeU8 b 0x17 (tmp / 256))
  let result := result.store (fun b => memcpy b 0x18 ((audioBytes audio).take (len * 2)))
  result

/-! ## Classification predicates -/

/-- The value of `isAudioPacket` together with its two output parameters. -/
structure AudioClassification where
  result : Bool
  seq : Nat
  dataStart : Nat
deriving DecidableEq, Repr

/-- Embedding of `IcomPacket::isAudioPacket(seq, dataStart)`; `seq` and `dataStart` are the
output parameters as they stand before the call, `dataStart` being an offset
from `getData()`.  The header is read without a size check, so the result is
`none` when a read falls outside the buffer. -/
def isAudioPacket (p : IcomPacket) (seq dataStart : Nat) : Option AudioClassification := do
  let type ← p.loadU16 off_type
  if type ≠ 0x01 then
    let len ← p.loadU32 off_len
    if len ≥ 0x20 then
      let s ← p.loadU16 off_seq
      pure { result := true, seq := ToLittleEndian s, dataStart := 0x18 }
    else pure { result := false, seq := seq, dataStart := dataStart }
  else pure { result := false, seq := seq, dataStart := dataStart }

/-- The value of `isCivPacket` together with its two output parameters. -/
structure CivClassification where
  result : Bool
  civPacket : Nat
  civPacketLength : Nat
deriving DecidableEq, Repr

/-- Embedding of `IcomPacket::isCivPacket(civPacket, civPacketLength)`; the arguments are the
output parameters as they stand before the call, `civPacket` being an offset
from `getData()`.  The view is read without a size check, so the result is
`none` when a read falls outside the buffer. -/
def isCivPacket (p : IcomPacket) (civPacket civPacketLength : Nat) :
    Option CivClassification := do
  let len ← p.loadU32 off_len
  if len > 0x15 then
    let type ← p.loadU16 off_type
    if type ≠ 0x01 then
      let datalen ← p.loadU16 off_data_datalen
      if datalen + 0x15 = len then
        pure { result := true, civPacket := 0x15, civPacketLength := datalen }
      else pure { result := false, civPacket := civPacket, civPacketLength := civPacketLength }
    else pure { result := false, civPacket := civPacket, civPacketLength := civPacketLength }
  else pure { result := false, civPacket := civPacket, civPacketLength := civPacketLength }

/-! ## Transport engine (`IcomStateMachine`) -/

/-- The messages of `IcomMessage.h` that the engine posts to its owning task. -/
inductive IcomMessage where
  | DISCONNECTED_RADIO
  | RECEIVE_PACKET (packet : IcomPacket)
  | CLOSE_SOCKET
deriving DecidableEq, Repr

/-- Embedding of `SendPacketMessage`: the packet and the time at which the message was
built (`esp_timer_get_time()`, microseconds). -/
structure SendPacketMessage where
  packet : IcomPacket
  sendTime : Int
deriving DecidableEq, Repr

/-- The fields of `IcomStateMachine` that the transport code reads and writes.
`currentState` is the value of `getCurrentState()` of the `StateMachine` base
class (`none` is `nullptr`), `posted` the messages posted to the owning task,
oldest first. -/
structure IcomStateMachine where
  socket_ : Int
  ourIdentifier_ : Nat
  theirIdentifier_ : Nat
  port_ : Nat
  localPort_ : Int
  currentState : Option Nat
  posted : List IcomMessage
  packetReadTimerRunning : Bool
deriving DecidableEq, Repr

/-- Embedding of `IcomStateMachine::IcomStateMachine`: the state right after construction. -/
def IcomStateMachine.init : IcomStateMachine :=
  { socket_ := 0, ourIdentifier_ := 0, theirIdentifier_ := 0, port_ := 0, localPort_ := 0,
    currentState := none, posted := [], packetReadTimerRunning := false }

/-- The value `inet_addr` gives for the dotted quad `o1.o2.o3.o4`: the address
in network byte order, that is the bytes `o1 o2 o3 o4` in memory, which the
little-endian target reads as this 32-bit number. -/
def inet_addr (o1 o2 o3 o4 : Nat) : Nat :=
  o1 % 256 + 256 * (o2 % 256) + 65536 * (o3 % 256) + 16777216 * (o4 % 256)

/-- Embedding of `IcomStateMachine::openSocket_`.  `s_addr` is `radioAddress.sin_addr.s_addr`
(the result of `inet_addr(ip_.c_str())`), `fd` the descriptor `socket()`
returns; `bind` and `connect` succeed (the code asserts it). -/
def openSocket_ (sm : IcomStateMachine) (s_addr : Nat) (fd : Int) : IcomStateMachine :=
  let localIp := s_addr % 4294967296
  { sm with
    socket_ := fd
    ourIdentifier_ :=
      ((((localIp >>> 8) &&& 0xFF) <<< 24) |||
        ((localIp &&& 0xFF) <<< 16) |||
        ((sm.localPort_ % 65536).toNat &&& 0xFFFF)) % 4294967296 }

/-- Embedding of `IcomStateMachine::readPendingPackets_`: `buffer` and `rv` are what
`recv` delivers. -/
def readPendingPackets_ (sm : IcomStateMachine) (buffer : List Nat) (rv : Int) :
    IcomStateMachine :=
  if sm.currentState = none then sm
  else if rv > 0 then
    { sm with posted := sm.posted ++ [IcomMessage.RECEIVE_PACKET (IcomPacket.ofBytes buffer rv.toNat)] }
  else sm

/-- What the surroundings answer during one run of `onSendPacket_`:
`now k` is the value of the `k`-th call of `esp_timer_get_time()` (counted from
0, microseconds), `sendRv k` and `sendErrno k` the return value of the `k`-th
call of `send` and the `errno` it leaves, `recvBuffer` and `recvRv` the outcome
of the `recv` of the final poll. -/
structure SendEnv where
  now : Nat → Int
  sendRv : Nat → Int
  sendErrno : Nat → Int
  recvBuffer : List Nat
  recvRv : Int

/-- Embedding of `MAX_RETRY_TIME_MS` of `onSendPacket_`. -/
def MAX_RETRY_TIME_MS : Int := 25

/-- Embedding of `EXPIRE_TIME_MS` of `onSendPacket_`. -/
def EXPIRE_TIME_MS : Int := 500

/-- The `errno` value `ENOMEM`. -/
def ENOMEM : Int := 12

/-- The state of the retry loop of `onSendPacket_`; `finished` is false when
the loop was cut off by the iteration bound of the model. -/
structure RetryOutcome where
  tries : Nat
  rv : Int
  totalTimeMs : Int
  finished : Bool
deriving DecidableEq, Repr

/-- The `while (rv == -1 && totalTimeMs < MAX_RETRY_TIME_MS)` loop of
`onSendPacket_`, run for at most `fuel` iterations.  `tries` calls of `send`
have been made so far. -/
def retryLoop (env : SendEnv) (startTime : Int) :
    Nat → Nat → Int → Int → RetryOutcome
  | 0, tries, rv, totalTimeMs =>
      { tries := tries, rv := rv, totalTimeMs := totalTimeMs,
        finished := !(decide (rv = -1 ∧ totalTimeMs < MAX_RETRY_TIME_MS)) }
  | fuel + 1, tries, rv, totalTimeMs =>
      if rv = -1 ∧ totalTimeMs < MAX_RETRY_TIME_MS then
        let err := env.sendErrno (tries - 1)
        if err = ENOMEM then
          retryLoop env startTime fuel (tries + 1) (env.sendRv tries)
            (Int.tdiv (env.now (tries + 2) - startTime) 1000)
        else
          { tries := tries, rv := rv, totalTimeMs := totalTimeMs, finished := true }
      else
        { tries := tries, rv := rv, totalTimeMs := totalTimeMs, finished := true }

/-- What one run of `onSendPacket_` did: the number of calls of `send`, whether
the handler ran to its end within the iteration bound, and how often the packet
was deleted. -/
structure SendReport where
  sends : Nat
  finished : Bool
  deleted : Nat
deriving DecidableEq, Repr

/-- Embedding of `IcomStateMachine::onSendPacket_`, with at most `fuel` iterations of the
retry loop. -/
def onSendPacket_ (sm : IcomStateMachine) (env : SendEnv) (fuel : Nat)
    (message : SendPacketMessage) : SendReport × IcomStateMachine :=
  if sm.socket_ > 0 ∧ Int.tdiv (env.now 0 - message.sendTime) 1000 ≤ EXPIRE_TIME_MS then
    let startTime := env.now 1
    let rv := env.sendRv 0
    let totalTimeMs := Int.tdiv (env.now 2 - startTime) 1000
    let r := retryLoop env startTime fuel 1 rv totalTimeMs
    let sm := readPendingPackets_ sm env.recvBuffer env.recvRv
    ({ sends := r.tries, finished := r.finished, deleted := 1 }, sm)
  else
    ({ sends := 0, finished := true, deleted := 1 }, sm)

/-! ## More classification predicates -/

/-- Modelled from the spec: size of the fixed part of a capabilities packet,
a constant of `IcomPacket.h`, a header whose text is not available. -/
def CAPABILITIES_SIZE : Nat := 0x42

/-- Modelled from the spec: size of one radio entry of a capabilities packet,
a constant of `IcomPacket.h`, a header whose text is not available. -/
def RADIO_CAP_SIZE : Nat := 0x66

/-- The value of a predicate with one numeric output parameter, together with
that parameter as it stands after the call. -/
structure IdClassification where
  result : Bool
  value : Nat
deriving DecidableEq, Repr

/-- Embedding of `IcomPacket::isIAmHere(theirId)`; `theirId` is the output parameter as
it stands before the call. -/
def isIAmHere (p : IcomPacket) (theirId : Nat) : Option IdClassification :=
  if p.size_ = CONTROL_SIZE then do
    let sentid ← p.loadU32 off_sentid
    let type ← p.loadU16 off_type
    pure { result := decide (type = 0x04), value := sentid }
  else pure { result := false, value := theirId }

/-- Embedding of `IcomPacket::isPingRequest(pingSequence)`; `pingSequence` is the output
parameter as it stands before the call. -/
def isPingRequest (p : IcomPacket) (pingSequence : Nat) : Option IdClassification :=
  if p.size_ = PING_SIZE then do
    let reply ← p.loadU8 off_reply
    let seq ← p.loadU16 off_seq
    pure { result := decide (reply = 0), value := seq }
  else pure { result := false, value := pingSequence }

/-- Embedding of `IcomPacket::isPingResponse(pingSequence)`; `pingSequence` is the output
parameter as it stands before the call. -/
def isPingResponse (p : IcomPacket) (pingSequence : Nat) : Option IdClassification :=
  if p.size_ = PING_SIZE then do
    let reply ← p.loadU8 off_reply
    let seq ← p.loadU16 off_seq
    pure { result := decide (reply = 1), value := seq }
  else pure { result := false, value := pingSequence }

/-- The value of `isRetransmitPacket` together with the vector `retryPackets`
as it stands after the call. -/
structure RetransmitClassification where
  result : Bool
  retryPackets : List Nat
deriving DecidableEq, Repr

/-- The loop `for (int sz = CONTROL_SIZE; sz < size_; sz += sizeof(uint16_t))`
of `isRetransmitPacket`: the pointer `ids` is at byte offset `sz`.  The first
argument bounds the number of iterations; `size_` iterations always suffice,
since `sz` grows by 2 each time. -/
def retransmitLoop (p : IcomPacket) : Nat → Nat → List Nat → Option (List Nat)
  | 0, _, retryPackets => some retryPackets
  | fuel + 1, sz, retryPackets =>
      if sz < p.size_ then do
        let id ← p.loadU16 sz
        retransmitLoop p fuel (sz + 2) (retryPackets ++ [id])
      else some retryPackets

/-- Embedding of `IcomPacket::isRetransmitPacket(retryPackets)`; `retryPackets` is the
vector as it stands before the call.  The result is `none` when a read falls
outside the buffer. -/
def isRetransmitPacket (p : IcomPacket) (retryPackets : List Nat) :
    Option RetransmitClassification :=
  if p.size_ ≥ CONTROL_SIZE then do
    let type ← p.loadU16 off_type
    if type = 0x01 then
      if p.size_ = CONTROL_SIZE then do
        let seq ← p.loadU16 off_seq
        pure { result := true, retryPackets := retryPackets ++ [seq] }
      else do
        let ids ← retransmitLoop p p.size_ CONTROL_SIZE retryPackets
        pure { result := true, retryPackets := ids }
    else pure { result := false, retryPackets := retryPackets }
  else pure { result := false, retryPackets := retryPackets }

/-- The loop `for (int index = CAPABILITIES_SIZE; index < size_; index +=
RADIO_CAP_SIZE)` of `isCapabilitiesPacket`; a radio entry is the offset of the
pointer `rawData + index`.  The first argument bounds the number of
iterations; `size_` iterations always suffice. -/
def capabilitiesLoop (size_ : Nat) : Nat → Nat → List Nat → List Nat
  | 0, _, radios => radios
  | fuel + 1, index, radios =>
      if index < size_ then capabilitiesLoop size_ fuel (index + RADIO_CAP_SIZE) (radios ++ [index])
      else radios

/-- The value of `isCapabilitiesPacket` together with the vector `radios` as it
stands after the call. -/
structure CapabilitiesClassification where
  result : Bool
  radios : List Nat
deriving DecidableEq, Repr

/-- Embedding of `IcomPacket::isCapabilitiesPacket(radios)`; `radios` is the vector as
it stands before the call.  The test is done in `int` arithmetic, where `%`
rounds towards zero. -/
def isCapabilitiesPacket (p : IcomPacket) (radios : List Nat) : CapabilitiesClassification :=
  if Int.tmod ((p.size_ : Int) - (CAPABILITIES_SIZE : Int)) (RADIO_CAP_SIZE : Int) = 0 then
    { result := true, radios := capabilitiesLoop p.size_ p.size_ CAPABILITIES_SIZE radios }
  else { result := false, radios := radios }

/-! ## Moving a packet -/

/-- An empty packet: what `IcomPacket::IcomPacket()` builds and what a move
leaves behind. -/
def IcomPacket.empty : IcomPacket :=
  { rawPacket_ := none, size_ := 0 }

/-- Embedding of `IcomPacket::IcomPacket(IcomPacket&& packet)`: the new packet and the
source as it stands afterwards. -/
def IcomPacket.moveConstruct (packet : IcomPacket) : IcomPacket × IcomPacket :=
  let self : IcomPacket := { rawPacket_ := packet.rawPacket_, size_ := packet.size_ }
  let packet : IcomPacket := { packet with rawPacket_ := none }
  let packet : IcomPacket := { packet with size_ := 0 }
  (self, packet)

/-- Embedding of `IcomPacket::operator=(IcomPacket&& packet)` for a source that is
another object than the target: the target (whose old buffer is freed) and the
source as they stand afterwards. -/
def IcomPacket.moveAssign (self packet : IcomPacket) : IcomPacket × IcomPacket :=
  let self : IcomPacket := { self with rawPacket_ := none }
  let self : IcomPacket := { self with rawPacket_ := packet.rawPacket_ }
  let self : IcomPacket := { self with size_ := packet.size_ }
  let packet : IcomPacket := { packet with rawPacket_ := none }
  let packet : IcomPacket := { packet with size_ := 0 }
  (self, packet)

/-! ## Dispatch and teardown -/

/-- Embedding of `IcomStateMachine::getOurIdentifier`. -/
def getOurIdentifier (sm : IcomStateMachine) : Nat :=
  sm.ourIdentifier_

/-- Embedding of `IcomStateMachine::getTheirIdentifier`. -/
def getTheirIdentifier (sm : IcomStateMachine) : Nat :=
  sm.theirIdentifier_

/-- Embedding of `IcomStateMachine::setTheirIdentifier`. -/
def setTheirIdentifier (sm : IcomStateMachine) (id : Nat) : IcomStateMachine :=
  { sm with theirIdentifier_ := id % 4294967296 }

/-- Embedding of `IcomStateMachine::onTransitionComplete_`. -/
def onTransitionComplete_ (sm : IcomStateMachine) : IcomStateMachine :=
  if sm.currentState = none ∧ sm.socket_ ≠ 0 then
    let sm := { sm with posted := sm.posted ++ [IcomMessage.CLOSE_SOCKET] }
    { sm with posted := sm.posted ++ [IcomMessage.DISCONNECTED_RADIO] }
  else sm

/-- Embedding of `IcomStateMachine::onCloseSocket_`. -/
def onCloseSocket_ (sm : IcomStateMachine) : IcomStateMachine :=
  { sm with socket_ := 0, packetReadTimerRunning := false }

/-- Modelled from the spec: the end of a transition of the `StateMachine` base
class, whose text is not available: the active state is switched to `newState`
(`none` is the terminal state) and `onTransitionComplete_` is called.  The exit
and entry actions of the protocol states are not part of this model. -/
def completeTransition (sm : IcomStateMachine) (newState : Option Nat) : IcomStateMachine :=
  onTransitionComplete_ { sm with currentState := newState }

/-- What one run of `onReceivePacket_` did: the number of calls of a state
handler and how often the packet was deleted. -/
structure ReceiveReport where
  handlerCalls : Nat
  deleted : Nat
deriving DecidableEq, Repr

/-- Embedding of `IcomStateMachine::onReceivePacket_`.  `onReceivePacket state` stands
for the virtual method `IcomProtocolState::onReceivePacket` of the handler of
the state `state`; whatever it does to the machine is its result. -/
def onReceivePacket_ (onReceivePacket : Nat → IcomPacket → IcomStateMachine → IcomStateMachine)
    (sm : IcomStateMachine) (packet : IcomPacket) : ReceiveReport × IcomStateMachine :=
  match sm.currentState with
  | some state => ({ handlerCalls := 1, deleted := 1 }, onReceivePacket state packet sm)
  | none => ({ handlerCalls := 0, deleted := 1 }, sm)

/-- The events of a session that matter for teardown. -/
inductive SessionEvent where
  | transitionDone (newState : Option Nat)
  | closeSocket
  | receive (packet : IcomPacket)
deriving DecidableEq, Repr

/-- One event handled by the owning task. -/
def handleEvent (onReceivePacket : Nat → IcomPacket → IcomStateMachine → IcomStateMachine)
    (sm : IcomStateMachine) : SessionEvent → IcomStateMachine
  | SessionEvent.transitionDone newState => completeTransition sm newState
  | SessionEvent.closeSocket => onCloseSocket_ sm
  | SessionEvent.receive packet => (onReceivePacket_ onReceivePacket sm packet).2

/-- A sequence of events handled one after the other. -/
def runEvents (onReceivePacket : Nat → IcomPacket → IcomStateMachine → IcomStateMachine)
    (sm : IcomStateMachine) (events : List SessionEvent) : IcomStateMachine :=
  events.foldl (handleEvent onReceivePacket) sm

/-! ## Populated fields of the factories

The fields each factory assigns, as pairs of offset and width in bytes. -/

/-- Whether byte `j` lies in one of the fields. -/
def inFields (fields : List (Nat × Nat)) (j : Nat) : Bool :=
  fields.any (fun f => decide (f.1 ≤ j ∧ j < f.1 + f.2))

/-- The fields assigned by the control-sized factories: the whole header. -/
def controlFields : List (Nat × Nat) :=
  [(off_len, 4), (off_type, 2), (off_seq, 2), (off_sentid, 4), (off_rcvdid, 4)]

/-- The fields assigned by `CreateRetransmitRequest`: the header and, unless
exactly one id is given, the list of ids. -/
def retransmitFields (ids : List Nat) : List (Nat × Nat) :=
  controlFields ++ (if ids.length = 1 then [] else [(CONTROL_SIZE, 2 * ids.length)])

/-- The fields assigned by the three token factories. -/
def tokenFields : List (Nat × Nat) :=
  [(off_len, 4), (off_sentid, 4), (off_rcvdid, 4), (off_payloadsize, 2), (off_requesttype, 1),
    (off_requestreply, 1), (off_innerseq, 2), (off_tokrequest, 2), (off_token, 4)]

/-- The fields assigned by `CreatePingPacket`. -/
def pingFields : List (Nat × Nat) :=
  controlFields ++ [(off_time, 4)]

/-- The fields assigned by `CreatePingAckPacket`. -/
def pingAckFields : List (Nat × Nat) :=
  controlFields ++ [(off_time, 4), (off_reply, 1)]

/-- The fields assigned by `CreateLoginPacket`: of `username` and `password`
only the bytes `EncodePassword_` writes, of `name` the bytes copied. -/
def loginFields (username password computerName : List Nat) : List (Nat × Nat) :=
  [(off_len, 4), (off_sentid, 4), (off_rcvdid, 4), (0x12, 1), (0x13, 1), (off_requesttype, 1),
    (off_requestreply, 1), (off_innerseq, 2), (off_tokrequest, 2),
    (off_username, min username.length 16), (off_password, min password.length 16),
    (off_name, computerName.length)]

/-- The fields assigned by `CreateCIVPacket`. -/
def civFields (civLength : Nat) : List (Nat × Nat) :=
  [(off_len, 4), (off_sentid, 4), (off_rcvdid, 4), (off_reply, 1), (off_data_datalen, 2),
    (off_data_sendseq, 2), (0x15, civLength)]

/-- The fields assigned by `CreateCIVOpenClosePacket`. -/
def openCloseFields : List (Nat × Nat) :=
  [(off_len, 4), (off_sentid, 4), (off_rcvdid, 4), (off_oc_data, 2), (off_oc_magic, 1),
    (off_oc_sendseq, 2)]

/-- The fields assigned by `CreateAudioPacket`. -/
def audioFields (len : Nat) : List (Nat × Nat) :=
  [(off_len, 4), (off_sentid, 4), (off_rcvdid, 4), (0x10, 1), (0x11, 1), (0x12, 1), (0x13, 1),
    (0x16, 1), (0x17, 1), (0x18, len * 2)]

/-- Byte `j` of the buffer of a packet, `none` outside the buffer. -/
def IcomPacket.byteAt (p : IcomPacket) (j : Nat) : Option Nat :=
  p.rawPacket_.bind (fun b => b[j]?)

/-- Byte `j` of the all-zero buffer `IcomPacket::IcomPacket(int size)` builds. -/
def zeroByteAt (size j : Nat) : Option Nat :=
  (IcomPacket.zeroed size).byteAt j

/-- The buffer of `p` is an all-zero buffer of `p.size_` bytes in which only
bytes of the given fields are overwritten: it has `p.size_` bytes, and each
byte outside the fields is as in the all-zero buffer. -/
def zeroOutside (p : IcomPacket) (fields : List (Nat × Nat)) : Prop :=
  p.rawPacket_.map List.length = some p.size_ ∧
  ∀ j, inFields fields j = false → p.byteAt j = zeroByteAt p.size_ j

/-! ## Starting a session -/

/-- Modelled from the spec: the identifier of the initial protocol state
(`IcomProtocolState::ARE_YOU_THERE`), declared in `IcomProtocolState.h`, a
header whose text is not available.  Its numeric value plays no role. -/
def ARE_YOU_THERE : Nat := 1

/-- Embedding of `IcomStateMachine::start(ip, port, username, password, localPort)`.
`s_addr` stands for `inet_addr(ip_.c_str())` and `fd` for the descriptor
`socket()` returns; the strings `ip_`, `username_` and `password_` that `start`
stores are not part of the state kept here.  `port` is a `uint16_t`, `localPort`
an `int`.  The transition to the first state is taken at its end, as in
`completeTransition`. -/
def start (sm : IcomStateMachine) (s_addr : Nat) (fd : Int) (port : Nat) (localPort : Int) :
    IcomStateMachine :=
  let sm := { sm with port_ := port % 65536 }
  let sm := if localPort = 0 then { sm with localPort_ := (sm.port_ : Int) }
            else { sm with localPort_ := localPort }
  let sm := openSocket_ sm s_addr fd
  let sm := completeTransition sm (some ARE_YOU_THERE)
  { sm with packetReadTimerRunning := true }

end ezdv.network.icom

namespace ezdv.task

/-! ## The timer `DVTimer` -/

/-- The state of the ESP timer behind a `DVTimer`: not armed, armed to fire
once after the given interval, or armed to fire periodically. -/
inductive EspTimer where
  | idle
  | once (intervalInMicroseconds : Nat)
  | periodic (intervalInMicroseconds : Nat)
deriving DecidableEq, Repr

/-- The fields of `DVTimer` that `start`, `stop` and `changeInterval` read and
write, with the state of the ESP timer `timerHandle_`.  The interval, a
`uint64_t`, is only stored and handed to the ESP timer, never computed with. -/
structure DVTimer where
  intervalInMicroseconds_ : Nat
  running_ : Bool
  once_ : Bool
  timerHandle_ : EspTimer
deriving DecidableEq, Repr

namespace DVTimer

/-- Embedding of `DVTimer::start(once)`. -/
def start (t : DVTimer) (once : Bool) : DVTimer :=
  if !t.running_ then
    let t :=
      if once then
        let t := { t with once_ := true }
        { t with timerHandle_ := EspTimer.once t.intervalInMicroseconds_ }
      else
        { t with timerHandle_ := EspTimer.periodic t.intervalInMicroseconds_ }
    { t with running_ := true }
  else t

/-- Embedding of `DVTimer::stop()`. -/
def stop (t : DVTimer) : DVTimer :=
  if t.running_ then
    let t := { t with timerHandle_ := EspTimer.idle }
    let t := { t with running_ := false }
    { t with once_ := false }
  else t

/-- Embedding of `DVTimer::changeInterval(intervalInMicroseconds)`. -/
def changeInterval (t : DVTimer) (intervalInMicroseconds : Nat) : DVTimer :=
  let isRunning := t.running_
  let t := if isRunning then t.stop else t
  let t := { t with intervalInMicroseconds_ := intervalInMicroseconds }
  if isRunning then t.start t.once_ else t

end DVTimer

end ezdv.task

namespace ezdv.network.icom

/-! ## Memory lemmas -/

@[simp]
theorem length_writeU8 (buf : List Nat) (off v : Nat) :
    (writeU8 buf off v).length = buf.length := by
  simp [writeU8]

@[simp]
theorem length_writeU16 (buf : List Nat) (off v : Nat) :
    (writeU16 buf off v).length = buf.length := by
  simp [writeU16]

@[simp]
theorem length_writeU32 (buf : List Nat) (off v : Nat) :
    (writeU32 buf off v).length = buf.length := by
  simp [writeU32]

@[simp]
theorem length_memcpy (src : List Nat) : ∀ (buf : List Nat) (off : Nat),
    (memcpy buf off src).length = buf.length := by
  induction src with
  | nil => intro buf off; rfl
  | cons b bs ih => intro buf off; simp [memcpy, ih]

theorem ToBigEndian_low (v : Nat) : ToBigEndian v % 256 = v / 256 % 256 := by
  unfold ToBigEndian
  omega

theorem ToBigEndian_high (v : Nat) : ToBigEndian v / 256 % 256 = v % 256 := by
  unfold ToBigEndian
  have hs : v / 256 % 256 < 256 := Nat.mod_lt _ (by decide)
  have h : (v % 256 * 256 + v / 256 % 256) / 256 = v % 256 := by
    rw [Nat.add_comm, Nat.add_mul_div_right _ _ (by decide : 0 < 256), Nat.div_eq_of_lt hs]
    simp
  rw [h]
  exact Nat.mod_mod _ _

theorem writeU8_append_left (pre suf : List Nat) (off v : Nat) (h : off + 1 ≤ pre.length) :
    writeU8 (pre ++ suf) off v = writeU8 pre off v ++ suf := by
  have h0 : off < pre.length := by omega
  simp [writeU8, List.set_append, h0]

theorem writeU16_append_left (pre suf : List Nat) (off v : Nat) (h : off + 2 ≤ pre.length) :
    writeU16 (pre ++ suf) off v = writeU16 pre off v ++ suf := by
  have h0 : off < pre.length := by omega
  have h1 : off + 1 < pre.length := by omega
  simp [writeU16, List.set_append, h0, h1]

theorem writeU32_append_left (pre suf : List Nat) (off v : Nat) (h : off + 4 ≤ pre.length) :
    writeU32 (pre ++ suf) off v = writeU32 pre off v ++ suf := by
  have h0 : off < pre.length := by omega
  have h1 : off + 1 < pre.length := by omega
  have h2 : off + 2 < pre.length := by omega
  have h3 : off + 3 < pre.length := by omega
  simp [writeU32, List.set_append, h0, h1, h2, h3]

theorem memcpy_append (src : List Nat) : ∀ (pre old suf : List Nat),
    old.length = src.length →
    memcpy (pre ++ old ++ suf) pre.length src = pre ++ src.map (fun b => b % 256) ++ suf := by
  induction src with
  | nil =>
      intro pre old suf h
      have : old = [] := List.length_eq_zero.mp h
      simp [memcpy, this]
  | cons b bs ih =>
      intro pre old suf h
      match old, h with
      | a :: old', h =>
        have h' : old'.length = bs.length := by simpa using h
        have e1 : (pre ++ a :: old' ++ suf).set pre.length (b % 256)
            = (pre ++ [b % 256]) ++ old' ++ suf := by
          simp [List.set_append]
        have e2 : (pre ++ [b % 256]).length = pre.length + 1 := by simp
        rw [memcpy, e1, ← e2, ih (pre ++ [b % 256]) old' suf h']
        simp

theorem writeRetransmitIds_append (ids : List Nat) : ∀ (pre suf : List Nat),
    suf.length = 2 * ids.length →
    writeRetransmitIds (pre ++ suf) pre.length ids
      = pre ++ ids.flatMap (fun id => [id / 256 % 256, id % 256]) := by
  induction ids with
  | nil =>
      intro pre suf h
      have : suf = [] := List.length_eq_zero.mp (by simpa using h)
      simp [writeRetransmitIds, this]
  | cons id ids ih =>
      intro pre suf h
      match suf, h with
      | a :: b :: suf', h =>
        have h' : suf'.length = 2 * ids.length := by
          simp at h; omega
        have e1 : writeU16 (pre ++ a :: b :: suf') pre.length (ToBigEndian id)
            = (pre ++ [id / 256 % 256, id % 256]) ++ suf' := by
          simp [writeU16, List.set_append, ToBigEndian_low, ToBigEndian_high]
        have e2 : (pre ++ [id / 256 % 256, id % 256]).length = pre.length + 2 := by simp
        rw [writeRetransmitIds, e1, ← e2, ih _ suf' h']
        simp

theorem replicate_add_zero (m n : Nat) :
    List.replicate (m + n) (0 : Nat) = List.replicate m 0 ++ List.replicate n 0 :=
  List.replicate_add m n 0

theorem map_mod_of_lt (l : List Nat) (h : ∀ b ∈ l, b < 256) :
    l.map (fun b => b % 256) = l := by
  induction l with
  | nil => rfl
  | cons a t ih =>
      have ha : a % 256 = a := Nat.mod_eq_of_lt (h a (by simp))
      simp only [List.map_cons, ha, ih (fun b hb => h b (by simp [hb]))]

theorem u16_bytes (v : Nat) (h : v < 65536) : v % 256 + 256 * (v / 256 % 256) = v := by
  omega

theorem u32_bytes (v : Nat) (h : v < 4294967296) :
    v % 256 + 256 * (v / 256 % 256) + 65536 * (v / 65536 % 256)
      + 16777216 * (v / 16777216 % 256) = v := by
  omega

theorem readU8_append_left (pre suf : List Nat) (off : Nat) (h : off + 1 ≤ pre.length) :
    readU8 (pre ++ suf) off = readU8 pre off := by
  unfold readU8
  rw [List.getElem?_append_left (by omega)]

theorem readU16_append_left (pre suf : List Nat) (off : Nat) (h : off + 2 ≤ pre.length) :
    readU16 (pre ++ suf) off = readU16 pre off := by
  unfold readU16
  rw [List.getElem?_append_left (by omega), List.getElem?_append_left (by omega)]

theorem readU32_append_left (pre suf : List Nat) (off : Nat) (h : off + 4 ≤ pre.length) :
    readU32 (pre ++ suf) off = readU32 pre off := by
  unfold readU32
  rw [List.getElem?_append_left (by omega), List.getElem?_append_left (by omega),
    List.getElem?_append_left (by omega), List.getElem?_append_left (by omega)]

theorem memcpy_at_end (src pre : List Nat) (off : Nat) (h : pre.length = off) :
    memcpy (pre ++ List.replicate src.length 0) off src
      = pre ++ src.map (fun b => b % 256) := by
  have hm := memcpy_append src pre (List.replicate src.length 0) [] (by simp)
  simp only [List.append_nil] at hm
  rw [← h]
  exact hm

theorem flatMap_be16 (ids : List Nat) (hid : ∀ id ∈ ids, id < 65536) :
    ids.flatMap (fun id => [id / 256 % 256, id % 256])
      = ids.flatMap (fun id => [id / 256, id % 256]) := by
  induction ids with
  | nil => rfl
  | cons id ids ih =>
      have h1 : id < 65536 := hid id (by simp)
      have h2 : id / 256 % 256 = id / 256 := by omega
      have h3 := ih (fun x hx => hid x (by simp [hx]))
      simp only [List.flatMap_cons, h2, h3]

theorem length_flatMap_be16 (ids : List Nat) :
    (ids.flatMap (fun id => [id / 256, id % 256])).length = 2 * ids.length := by
  induction ids with
  | nil => rfl
  | cons a t ih =>
      simp only [List.flatMap_cons, List.length_append, ih, List.length_cons, List.length_nil]
      omega

/-! ## Retransmit requests -/

/-- The buffer of `CreateRetransmitRequest` for a one-element list: the header
stores applied to 16 zero bytes, then two bytes that stay zero. -/
theorem CreateRetransmitRequest_single_bytes (ourId theirId id : Nat) :
    (CreateRetransmitRequest ourId theirId [id]).rawPacket_
      = some (writeU16 (writeU32 (writeU32 (writeU16 (writeU16 (writeU32
          (List.replicate 16 0) off_len (CONTROL_SIZE + 2)) off_type 0x01) off_seq 0)
          off_sentid ourId) off_rcvdid theirId) off_seq (ToBigEndian id) ++ [0, 0]) := by
  have h2 : List.replicate (16 + 2) (0 : Nat) = List.replicate 16 0 ++ [0, 0] := rfl
  simp only [CreateRetransmitRequest, IcomPacket.store, IcomPacket.zeroed, CONTROL_SIZE,
    List.length_singleton, if_true, Option.map_some', List.getD_cons_zero, Nat.mul_one, h2]
  rw [writeU32_append_left _ _ _ _ (by simp [off_len]),
    writeU16_append_left _ _ _ _ (by simp [off_type]),
    writeU16_append_left _ _ _ _ (by simp [off_seq]),
    writeU32_append_left _ _ _ _ (by simp [off_sentid]),
    writeU32_append_left _ _ _ _ (by simp [off_rcvdid]),
    writeU16_append_left _ _ _ _ (by simp [off_seq])]

/-- The buffer of `CreateRetransmitRequest` for a list that does not have
exactly one element: the header stores applied to 16 zero bytes, then every id
as two bytes, most significant first. -/
theorem CreateRetransmitRequest_list_bytes (ourId theirId : Nat) (ids : List Nat)
    (hne : ids.length ≠ 1) :
    (CreateRetransmitRequest ourId theirId ids).rawPacket_
      = some (writeU32 (writeU32 (writeU16 (writeU16 (writeU32
          (List.replicate 16 0) off_len (CONTROL_SIZE + 2 * ids.length)) off_type 0x01)
          off_seq 0) off_sentid ourId) off_rcvdid theirId
          ++ ids.flatMap (fun id => [id / 256 % 256, id % 256])) := by
  have hw := writeRetransmitIds_append ids
    (writeU32 (writeU32 (writeU16 (writeU16 (writeU32
          (List.replicate 16 0) off_len (CONTROL_SIZE + 2 * ids.length)) off_type 0x01)
          off_seq 0) off_sentid ourId) off_rcvdid theirId)
    (List.replicate (2 * ids.length) 0) (by simp)
  have hl : (writeU32 (writeU32 (writeU16 (writeU16 (writeU32
          (List.replicate 16 0) off_len (CONTROL_SIZE + 2 * ids.length)) off_type 0x01)
          off_seq 0) off_sentid ourId) off_rcvdid theirId).length = 16 := by simp
  rw [hl] at hw
  simp only [CreateRetransmitRequest, IcomPacket.store, IcomPacket.zeroed, CONTROL_SIZE,
    hne, if_false, Option.map_some', replicate_add_zero]
  rw [writeU32_append_left _ _ _ _ (by simp [off_len]),
    writeU16_append_left _ _ _ _ (by simp [off_type]),
    writeU16_append_left _ _ _ _ (by simp [off_seq]),
    writeU32_append_left _ _ _ _ (by simp [off_sentid]),
    writeU32_append_left _ _ _ _ (by simp [off_rcvdid])]
  exact congrArg some hw

/-- C1: what `CreateRetransmitRequest` returns for a one-element list `[id]`.
The sequence field (bytes 6 and 7) holds `id` in big-endian order, but the
packet is `CONTROL_SIZE + 2` bytes long, not `CONTROL_SIZE`: two zero bytes
follow the header, because the buffer is sized for the list before the
one-element case is singled out. -/
theorem CreateRetransmitRequest_single_id (ourId theirId id : Nat) :
    (CreateRetransmitRequest ourId theirId [id]).size_ = CONTROL_SIZE + 2 ∧
    (CreateRetransmitRequest ourId theirId [id]).rawPacket_.map List.length
      = some (CONTROL_SIZE + 2) ∧
    (CreateRetransmitRequest ourId theirId [id]).loadU8 off_seq = some (id / 256 % 256) ∧
    (CreateRetransmitRequest ourId theirId [id]).loadU8 (off_seq + 1) = some (id % 256) ∧
    (CreateRetransmitRequest ourId theirId [id]).rawPacket_.map (List.drop CONTROL_SIZE)
      = some [0, 0] := by
  have hb := CreateRetransmitRequest_single_bytes ourId theirId id
  refine ⟨rfl, ?_, ?_, ?_, ?_⟩
  · rw [hb]; simp [CONTROL_SIZE]
  · rw [IcomPacket.loadU8, hb, Option.some_bind, readU8_append_left _ _ _ (by simp [off_seq])]
    simp [readU8, writeU32, writeU16, List.getElem?_set, off_len, off_type, off_seq,
      off_sentid, off_rcvdid, ToBigEndian_low]
  · rw [IcomPacket.loadU8, hb, Option.some_bind, readU8_append_left _ _ _ (by simp [off_seq])]
    simp [readU8, writeU32, writeU16, List.getElem?_set, off_len, off_type, off_seq,
      off_sentid, off_rcvdid, ToBigEndian_high]
  · rw [hb, Option.map_some', List.drop_left' (by simp [CONTROL_SIZE])]

/-- C2: for a list of `n ≥ 2` 16-bit ids, `CreateRetransmitRequest` returns a
packet of `CONTROL_SIZE + 2 * n` bytes whose type field is `0x01`, whose
sequence field is 0 and whose bytes after the control header are the ids in
list order, each as two bytes, most significant first. -/
theorem CreateRetransmitRequest_list (ourId theirId : Nat) (ids : List Nat)
    (hn : 2 ≤ ids.length) (hid : ∀ id ∈ ids, id < 65536) :
    (CreateRetransmitRequest ourId theirId ids).size_ = CONTROL_SIZE + 2 * ids.length ∧
    (CreateRetransmitRequest ourId theirId ids).rawPacket_.map List.length
      = some (CONTROL_SIZE + 2 * ids.length) ∧
    (CreateRetransmitRequest ourId theirId ids).loadU16 off_type = some 0x01 ∧
    (CreateRetransmitRequest ourId theirId ids).loadU16 off_seq = some 0 ∧
    (CreateRetransmitRequest ourId theirId ids).rawPacket_.map (List.drop CONTROL_SIZE)
      = some (ids.flatMap (fun id => [id / 256, id % 256])) := by
  have hne : ids.length ≠ 1 := by omega
  have hb := CreateRetransmitRequest_list_bytes ourId theirId ids hne
  rw [flatMap_be16 ids hid] at hb
  refine ⟨?_, ?_, ?_, ?_, ?_⟩
  · simp [CreateRetransmitRequest, IcomPacket.store, IcomPacket.zeroed, hne]
  · rw [hb, Option.map_some', List.length_append, length_flatMap_be16]
    simp [CONTROL_SIZE]
  · rw [IcomPacket.loadU16, hb, Option.some_bind,
      readU16_append_left _ _ _ (by simp [off_type])]
    simp [readU16, writeU32, writeU16, List.getElem?_set, off_len, off_type, off_seq,
      off_sentid, off_rcvdid]
  · rw [IcomPacket.loadU16, hb, Option.some_bind,
      readU16_append_left _ _ _ (by simp [off_seq])]
    simp [readU16, writeU32, writeU16, List.getElem?_set, off_len, off_type, off_seq,
      off_sentid, off_rcvdid]
  · rw [hb, Option.map_some', List.drop_left' (by simp [CONTROL_SIZE])]

/-- C2, at the list `[7, 9, 11]`. -/
theorem CreateRetransmitRequest_list_witness :
    (CreateRetransmitRequest 0x0A0B0C0D 0x01020304 [7, 9, 11]).size_
        = CONTROL_SIZE + 2 * [7, 9, 11].length ∧
    (CreateRetransmitRequest 0x0A0B0C0D 0x01020304 [7, 9, 11]).rawPacket_.map List.length
      = some (CONTROL_SIZE + 2 * [7, 9, 11].length) ∧
    (CreateRetransmitRequest 0x0A0B0C0D 0x01020304 [7, 9, 11]).loadU16 off_type = some 0x01 ∧
    (CreateRetransmitRequest 0x0A0B0C0D 0x01020304 [7, 9, 11]).loadU16 off_seq = some 0 ∧
    (CreateRetransmitRequest 0x0A0B0C0D 0x01020304 [7, 9, 11]).rawPacket_.map
        (List.drop CONTROL_SIZE)
      = some ([7, 9, 11].flatMap (fun id => [id / 256, id % 256])) :=
  CreateRetransmitRequest_list 0x0A0B0C0D 0x01020304 [7, 9, 11] (by decide) (by decide)

/-! ## CIV packets -/

/-- The header part of the buffer `CreateCIVPacket` builds: the stores of the
factory applied to 21 zero bytes. -/
theorem CreateCIVPacket_bytes (ourId theirId sendSeq : Nat) (civData : List Nat)
    (civLength : Nat) (hlen : civLength ≤ civData.length) :
    (CreateCIVPacket ourId theirId sendSeq civData civLength).rawPacket_
      = some (writeU16 (writeU16 (writeU8 (writeU32 (writeU32 (writeU32
            (List.replicate 21 0) off_len (0x15 + civLength)) off_sentid ourId)
            off_rcvdid theirId) off_reply 0xc1) off_data_datalen civLength)
            off_data_sendseq (ToBigEndian sendSeq)
          ++ (civData.take civLength).map (fun b => b % 256)) := by
  have hl : (civData.take civLength).length = civLength := by simp [hlen]
  have hm := memcpy_at_end (civData.take civLength)
    (writeU16 (writeU16 (writeU8 (writeU32 (writeU32 (writeU32
            (List.replicate 21 0) off_len (0x15 + civLength)) off_sentid ourId)
            off_rcvdid theirId) off_reply 0xc1) off_data_datalen civLength)
            off_data_sendseq (ToBigEndian sendSeq)) 0x15 (by simp)
  rw [hl] at hm
  simp only [CreateCIVPacket, IcomPacket.store, IcomPacket.zeroed, Option.map_some',
    replicate_add_zero]
  rw [writeU32_append_left _ _ _ _ (by simp [off_len]),
    writeU32_append_left _ _ _ _ (by simp [off_sentid]),
    writeU32_append_left _ _ _ _ (by simp [off_rcvdid]),
    writeU8_append_left _ _ _ _ (by simp [off_reply]),
    writeU16_append_left _ _ _ _ (by simp [off_data_datalen]),
    writeU16_append_left _ _ _ _ (by simp [off_data_sendseq])]
  exact congrArg some hm

theorem CreateCIVPacket_len (ourId theirId sendSeq : Nat) (civData : List Nat)
    (civLength : Nat) (hlen : civLength ≤ civData.length) (hmax : civLength ≤ 65535) :
    (CreateCIVPacket ourId theirId sendSeq civData civLength).loadU32 off_len
      = some (0x15 + civLength) := by
  have h1 := u32_bytes (21 + civLength) (by omega)
  rw [IcomPacket.loadU32, CreateCIVPacket_bytes _ _ _ _ _ hlen, Option.some_bind,
    readU32_append_left _ _ _ (by simp [off_len])]
  simp [readU32, writeU32, writeU16, writeU8, List.getElem?_set, off_len, off_sentid,
    off_rcvdid, off_reply, off_data_datalen, off_data_sendseq]
  omega

theorem CreateCIVPacket_type (ourId theirId sendSeq : Nat) (civData : List Nat)
    (civLength : Nat) (hlen : civLength ≤ civData.length) :
    (CreateCIVPacket ourId theirId sendSeq civData civLength).loadU16 off_type = some 0 := by
  rw [IcomPacket.loadU16, CreateCIVPacket_bytes _ _ _ _ _ hlen, Option.some_bind,
    readU16_append_left _ _ _ (by simp [off_type])]
  simp [readU16, writeU32, writeU16, writeU8, List.getElem?_set, off_len, off_sentid,
    off_rcvdid, off_reply, off_data_datalen, off_data_sendseq, off_type]

theorem CreateCIVPacket_datalen (ourId theirId sendSeq : Nat) (civData : List Nat)
    (civLength : Nat) (hlen : civLength ≤ civData.length) (hmax : civLength ≤ 65535) :
    (CreateCIVPacket ourId theirId sendSeq civData civLength).loadU16 off_data_datalen
      = some civLength := by
  rw [IcomPacket.loadU16, CreateCIVPacket_bytes _ _ _ _ _ hlen, Option.some_bind,
    readU16_append_left _ _ _ (by simp [off_data_datalen])]
  simp [readU16, writeU32, writeU16, writeU8, List.getElem?_set, off_len, off_sentid,
    off_rcvdid, off_reply, off_data_datalen, off_data_sendseq]
  omega

/-- C3, counterexample: for the empty payload (`civLength = 0`) the buffer of
`CreateCIVPacket` is not classified as a CIV packet; `isCivPacket` returns false
and leaves its output parameters as they were. -/
theorem isCivPacket_CreateCIVPacket_empty :
    isCivPacket (CreateCIVPacket 0x0A0B0C0D 0x01020304 1 [] 0) 0 0
      = some { result := false, civPacket := 0, civPacketLength := 0 } := by
  decide

/-- C3, amended: for a CIV payload of `civLength` bytes with
`1 ≤ civLength ≤ 65535`, and every `ourId`, `theirId` and `sendSeq`,
`isCivPacket` applied to the buffer returned by `CreateCIVPacket` returns true
and reports the payload at offset `0x15` with length `civLength`; the bytes
there are the input payload. -/
theorem isCivPacket_CreateCIVPacket (ourId theirId sendSeq : Nat) (civData : List Nat)
    (civLength : Nat) (hpos : 1 ≤ civLength) (hmax : civLength ≤ 65535)
    (hlen : civLength ≤ civData.length) (hbytes : ∀ b ∈ civData, b < 256)
    (civPacket civPacketLength : Nat) :
    isCivPacket (CreateCIVPacket ourId theirId sendSeq civData civLength)
        civPacket civPacketLength
      = some { result := true, civPacket := 0x15, civPacketLength := civLength } ∧
    (CreateCIVPacket ourId theirId sendSeq civData civLength).rawPacket_.map
        (fun b => (b.drop 0x15).take civLength) = some (civData.take civLength) := by
  constructor
  · have h1 := CreateCIVPacket_len ourId theirId sendSeq civData civLength hlen hmax
    have h2 := CreateCIVPacket_type ourId theirId sendSeq civData civLength hlen
    have h3 := CreateCIVPacket_datalen ourId theirId sendSeq civData civLength hlen hmax
    have h4 : 0x15 + civLength > 0x15 := by omega
    have h5 : civLength + 0x15 = 0x15 + civLength := by omega
    simp only [isCivPacket, h1, h2, h3, Option.bind_eq_bind, Option.some_bind, h4, h5,
      if_true, ne_eq]
    rfl
  · have hb := CreateCIVPacket_bytes ourId theirId sendSeq civData civLength hlen
    have hm : (civData.take civLength).map (fun b => b % 256) = civData.take civLength :=
      map_mod_of_lt _ (fun b hb => hbytes b (List.mem_of_mem_take hb))
    rw [hb, hm, Option.map_some', List.drop_left' (by simp)]
    simp

/-- C3, amended, at the three-byte payload `[0xFE, 0xFE, 0xFD]`. -/
theorem isCivPacket_CreateCIVPacket_witness :
    isCivPacket (CreateCIVPacket 0x0A0B0C0D 0x01020304 7 [0xFE, 0xFE, 0xFD] 3) 0 0
      = some { result := true, civPacket := 0x15, civPacketLength := 3 } ∧
    (CreateCIVPacket 0x0A0B0C0D 0x01020304 7 [0xFE, 0xFE, 0xFD] 3).rawPacket_.map
        (fun b => (b.drop 0x15).take 3) = some ([0xFE, 0xFE, 0xFD].take 3) :=
  isCivPacket_CreateCIVPacket 0x0A0B0C0D 0x01020304 7 [0xFE, 0xFE, 0xFD] 3
    (by decide) (by decide) (by decide) (by decide) 0 0

/-! ## Audio packets -/

theorem length_audioBytes (audio : List Int) : (audioBytes audio).length = 2 * audio.length := by
  induction audio with
  | nil => rfl
  | cons a t ih =>
      simp only [audioBytes, List.flatMap_cons, List.length_append, List.length_cons] at ih ⊢
      rw [ih]
      simp [shortBytes]
      omega

theorem audioBytes_lt (audio : List Int) : ∀ b ∈ audioBytes audio, b < 256 := by
  induction audio with
  | nil => intro b hb; simp [audioBytes] at hb
  | cons a t ih =>
      intro b hb
      simp only [audioBytes, List.flatMap_cons, List.mem_append] at hb ih
      rcases hb with hb | hb
      · have hu : (a % 65536).toNat < 65536 := by
          have h1 : a % 65536 < 65536 := Int.emod_lt_of_pos a (by decide)
          have h2 : 0 ≤ a % 65536 := Int.emod_nonneg a (by decide)
          omega
        simp only [shortBytes, List.mem_cons, List.mem_singleton, List.not_mem_nil,
          or_false] at hb
        rcases hb with hb | hb <;> omega
      · exact ih b hb

/-- The buffer `CreateAudioPacket` returns: the header stores of the factory
applied to 24 zero bytes, then the bytes of the first `len` samples. -/
theorem CreateAudioPacket_bytes (audioSeq ourId theirId : Nat) (audio : List Int)
    (len : Nat) (hlen : len ≤ audio.length) :
    (CreateAudioPacket audioSeq ourId theirId audio len).rawPacket_
      = some (writeU8 (writeU8 (writeU8 (writeU8 (writeU8 (writeU8 (writeU32 (writeU32
            (writeU32 (List.replicate 24 0) off_len (0x18 + len * 2)) off_sentid ourId)
            off_rcvdid theirId) 0x10 0x80) 0x11 0x00) 0x12 (ToBigEndian audioSeq % 256))
            0x13 (ToBigEndian audioSeq / 256)) 0x16 (ToBigEndian ((len * 2) % 65536) % 256))
            0x17 (ToBigEndian ((len * 2) % 65536) / 256)
          ++ (audioBytes audio).take (len * 2)) := by
  have hl : ((audioBytes audio).take (len * 2)).length = len * 2 := by
    simp [length_audioBytes]; omega
  have hm := memcpy_at_end ((audioBytes audio).take (len * 2))
    (writeU8 (writeU8 (writeU8 (writeU8 (writeU8 (writeU8 (writeU32 (writeU32
            (writeU32 (List.replicate 24 0) off_len (0x18 + len * 2)) off_sentid ourId)
            off_rcvdid theirId) 0x10 0x80) 0x11 0x00) 0x12 (ToBigEndian audioSeq % 256))
            0x13 (ToBigEndian audioSeq / 256)) 0x16 (ToBigEndian ((len * 2) % 65536) % 256))
            0x17 (ToBigEndian ((len * 2) % 65536) / 256)) 0x18 (by simp)
  rw [hl, map_mod_of_lt _ (fun b hb => audioBytes_lt audio b (List.mem_of_mem_take hb))] at hm
  simp only [CreateAudioPacket, IcomPacket.store, IcomPacket.zeroed, Option.map_some',
    replicate_add_zero]
  rw [writeU32_append_left _ _ _ _ (by simp [off_len]),
    writeU32_append_left _ _ _ _ (by simp [off_sentid]),
    writeU32_append_left _ _ _ _ (by simp [off_rcvdid]),
    writeU8_append_left _ _ _ _ (by simp),
    writeU8_append_left _ _ _ _ (by simp),
    writeU8_append_left _ _ _ _ (by simp),
    writeU8_append_left _ _ _ _ (by simp),
    writeU8_append_left _ _ _ _ (by simp),
    writeU8_append_left _ _ _ _ (by simp)]
  exact congrArg some hm

theorem CreateAudioPacket_len (audioSeq ourId theirId : Nat) (audio : List Int)
    (len : Nat) (hlen : len ≤ audio.length) (hmax : len ≤ 65535) :
    (CreateAudioPacket audioSeq ourId theirId audio len).loadU32 off_len
      = some (0x18 + len * 2) := by
  have h1 := u32_bytes (24 + len * 2) (by omega)
  rw [IcomPacket.loadU32, CreateAudioPacket_bytes _ _ _ _ _ hlen, Option.some_bind,
    readU32_append_left _ _ _ (by simp [off_len])]
  simp [readU32, writeU32, writeU8, List.getElem?_set, off_len, off_sentid, off_rcvdid]
  omega

theorem CreateAudioPacket_type (audioSeq ourId theirId : Nat) (audio : List Int)
    (len : Nat) (hlen : len ≤ audio.length) :
    (CreateAudioPacket audioSeq ourId theirId audio len).loadU16 off_type = some 0 := by
  rw [IcomPacket.loadU16, CreateAudioPacket_bytes _ _ _ _ _ hlen, Option.some_bind,
    readU16_append_left _ _ _ (by simp [off_type])]
  simp [readU16, writeU32, writeU8, List.getElem?_set, off_len, off_sentid, off_rcvdid,
    off_type]

theorem CreateAudioPacket_seq (audioSeq ourId theirId : Nat) (audio : List Int)
    (len : Nat) (hlen : len ≤ audio.length) :
    (CreateAudioPacket audioSeq ourId theirId audio len).loadU16 off_seq = some 0 := by
  rw [IcomPacket.loadU16, CreateAudioPacket_bytes _ _ _ _ _ hlen, Option.some_bind,
    readU16_append_left _ _ _ (by simp [off_seq])]
  simp [readU16, writeU32, writeU8, List.getElem?_set, off_len, off_sentid, off_rcvdid,
    off_seq]

/-- C4, counterexample: for 3 samples, and for none, the buffer of
`CreateAudioPacket` is not classified as an audio packet; `isAudioPacket`
returns false and leaves its output parameters as they were. -/
theorem isAudioPacket_CreateAudioPacket_short :
    isAudioPacket (CreateAudioPacket 5 0x0A0B0C0D 0x01020304 [1, -2, 3] 3) 0 0
      = some { result := false, seq := 0, dataStart := 0 } ∧
    isAudioPacket (CreateAudioPacket 5 0x0A0B0C0D 0x01020304 [] 0) 0 0
      = some { result := false, seq := 0, dataStart := 0 } := by
  decide

/-- C4, amended: for a sample count `len` with `4 ≤ len ≤ 65535`, and every
`audioSeq`, `ourId` and `theirId`, `isAudioPacket` applied to the buffer
returned by `CreateAudioPacket` returns true and reports the data start at byte
offset `0x18`, where the bytes of the `len` samples begin (the sequence number
it reports is the header field, which the factory leaves at 0). -/
theorem isAudioPacket_CreateAudioPacket (audioSeq ourId theirId : Nat) (audio : List Int)
    (len : Nat) (hmin : 4 ≤ len) (hmax : len ≤ 65535) (hlen : len ≤ audio.length)
    (seq dataStart : Nat) :
    isAudioPacket (CreateAudioPacket audioSeq ourId theirId audio len) seq dataStart
      = some { result := true, seq := 0, dataStart := 0x18 } ∧
    (CreateAudioPacket audioSeq ourId theirId audio len).rawPacket_.map (List.drop 0x18)
      = some ((audioBytes audio).take (len * 2)) := by
  constructor
  · have h1 := CreateAudioPacket_len audioSeq ourId theirId audio len hlen hmax
    have h2 := CreateAudioPacket_type audioSeq ourId theirId audio len hlen
    have h3 := CreateAudioPacket_seq audioSeq ourId theirId audio len hlen
    have h4 : 0x18 + len * 2 ≥ 0x20 := by omega
    simp only [isAudioPacket, h1, h2, h3, Option.bind_eq_bind, Option.some_bind, h4,
      if_true, ne_eq]
    rfl
  · rw [CreateAudioPacket_bytes _ _ _ _ _ hlen, Option.map_some', List.drop_left' (by simp)]

/-- C4, amended, at four samples. -/
theorem isAudioPacket_CreateAudioPacket_witness :
    isAudioPacket (CreateAudioPacket 5 0x0A0B0C0D 0x01020304 [1, -2, 3, 4] 4) 0 0
      = some { result := true, seq := 0, dataStart := 0x18 } ∧
    (CreateAudioPacket 5 0x0A0B0C0D 0x01020304 [1, -2, 3, 4] 4).rawPacket_.map (List.drop 0x18)
      = some ((audioBytes [1, -2, 3, 4]).take (4 * 2)) :=
  isAudioPacket_CreateAudioPacket 5 0x0A0B0C0D 0x01020304 [1, -2, 3, 4] 4
    (by decide) (by decide) (by decide) 0 0

/-! ## Session identifiers in the header -/

theorem getElem?_memcpy_of_lt (src : List Nat) : ∀ (buf : List Nat) (off j : Nat),
    j < off → (memcpy buf off src)[j]? = buf[j]? := by
  induction src with
  | nil => intro buf off j _; rfl
  | cons b bs ih =>
      intro buf off j h
      rw [memcpy, ih _ _ _ (by omega), List.getElem?_set]
      have : ¬ off = j := by omega
      simp [this]

theorem length_encodePasswordLoop (str : List Nat) : ∀ (i : Nat) (buf : List Nat) (output : Nat),
    (encodePasswordLoop str i buf output).length = buf.length := by
  induction str with
  | nil => intro i buf output; rfl
  | cons c rest ih =>
      intro i buf output
      unfold encodePasswordLoop
      split
      · rw [ih]; simp
      · rfl

theorem getElem?_encodePasswordLoop_of_lt (str : List Nat) :
    ∀ (i : Nat) (buf : List Nat) (output j : Nat),
    j < output → (encodePasswordLoop str i buf output)[j]? = buf[j]? := by
  induction str with
  | nil => intro i buf output j _; rfl
  | cons c rest ih =>
      intro i buf output j h
      unfold encodePasswordLoop
      split
      · rw [ih _ _ _ _ (by omega), List.getElem?_set]
        have : ¬ output = j := by omega
        simp [this]
      · rfl

theorem readU32_memcpy_of_le (buf src : List Nat) (off o : Nat) (h : o + 4 ≤ off) :
    readU32 (memcpy buf off src) o = readU32 buf o := by
  unfold readU32
  rw [getElem?_memcpy_of_lt _ _ _ _ (by omega), getElem?_memcpy_of_lt _ _ _ _ (by omega),
    getElem?_memcpy_of_lt _ _ _ _ (by omega), getElem?_memcpy_of_lt _ _ _ _ (by omega)]

theorem readU32_EncodePassword_of_le (buf str : List Nat) (output o : Nat)
    (h : o + 4 ≤ output) :
    readU32 (EncodePassword_ str buf output) o = readU32 buf o := by
  unfold readU32 EncodePassword_
  rw [getElem?_encodePasswordLoop_of_lt _ _ _ _ _ (by omega),
    getElem?_encodePasswordLoop_of_lt _ _ _ _ _ (by omega),
    getElem?_encodePasswordLoop_of_lt _ _ _ _ _ (by omega),
    getElem?_encodePasswordLoop_of_lt _ _ _ _ _ (by omega)]

theorem CreateAreYouTherePacket_ids (ourId theirId : Nat)
    (h1 : ourId < 4294967296) (h2 : theirId < 4294967296) :
    (CreateAreYouTherePacket ourId theirId).sentid = some ourId ∧
    (CreateAreYouTherePacket ourId theirId).rcvdid = some theirId := by
  constructor <;>
  · simp only [CreateAreYouTherePacket, IcomPacket.sentid, IcomPacket.rcvdid, IcomPacket.store,
      IcomPacket.zeroed, IcomPacket.loadU32, Option.map_some', Option.some_bind, CONTROL_SIZE]
    simp only [readU32, writeU32, writeU16, writeU8, List.getElem?_set, List.length_set,
      List.length_replicate, List.getElem?_replicate, off_len, off_type, off_seq, off_sentid,
      off_rcvdid, off_payloadsize, off_requesttype, off_requestreply, off_innerseq,
      off_tokrequest, off_token, off_time, off_reply]
    simp
    omega

theorem CreateAreYouReadyPacket_ids (ourId theirId : Nat)
    (h1 : ourId < 4294967296) (h2 : theirId < 4294967296) :
    (CreateAreYouReadyPacket ourId theirId).sentid = some ourId ∧
    (CreateAreYouReadyPacket ourId theirId).rcvdid = some theirId := by
  constructor <;>
  · simp only [CreateAreYouReadyPacket, IcomPacket.sentid, IcomPacket.rcvdid, IcomPacket.store,
      IcomPacket.zeroed, IcomPacket.loadU32, Option.map_some', Option.some_bind, CONTROL_SIZE]
    simp only [readU32, writeU32, writeU16, writeU8, List.getElem?_set, List.length_set,
      List.length_replicate, List.getElem?_replicate, off_len, off_type, off_seq, off_sentid,
      off_rcvdid, off_payloadsize, off_requesttype, off_requestreply, off_innerseq,
      off_tokrequest, off_token, off_time, off_reply]
    simp
    omega

theorem CreateIdlePacket_ids (ourSeq ourId theirId : Nat)
    (h1 : ourId < 4294967296) (h2 : theirId < 4294967296) :
    (CreateIdlePacket ourSeq ourId theirId).sentid = some ourId ∧
    (CreateIdlePacket ourSeq ourId theirId).rcvdid = some theirId := by
  constructor <;>
  · simp only [CreateIdlePacket, IcomPacket.sentid, IcomPacket.rcvdid, IcomPacket.store,
      IcomPacket.zeroed, IcomPacket.loadU32, Option.map_some', Option.some_bind, CONTROL_SIZE]
    simp only [readU32, writeU32, writeU16, writeU8, List.getElem?_set, List.length_set,
      List.length_replicate, List.getElem?_replicate, off_len, off_type, off_seq, off_sentid,
      off_rcvdid, off_payloadsize, off_requesttype, off_requestreply, off_innerseq,
      off_tokrequest, off_token, off_time, off_reply]
    simp
    omega

theorem CreateDisconnectPacket_ids (ourId theirId : Nat)
    (h1 : ourId < 4294967296) (h2 : theirId < 4294967296) :
    (CreateDisconnectPacket ourId theirId).sentid = some ourId ∧
    (CreateDisconnectPacket ourId theirId).rcvdid = some theirId := by
  constructor <;>
  · simp only [CreateDisconnectPacket, IcomPacket.sentid, IcomPacket.rcvdid, IcomPacket.store,
      IcomPacket.zeroed, IcomPacket.loadU32, Option.map_some', Option.some_bind, CONTROL_SIZE]
    simp only [readU32, writeU32, writeU16, writeU8, List.getElem?_set, List.length_set,
      List.length_replicate, List.getElem?_replicate, off_len, off_type, off_seq, off_sentid,
      off_rcvdid, off_payloadsize, off_requesttype, off_requestreply, off_innerseq,
      off_tokrequest, off_token, off_time, off_reply]
    simp
    omega

theorem CreateTokenAckPacket_ids (authSeq tokenRequest token ourId theirId : Nat)
    (h1 : ourId < 4294967296) (h2 : theirId < 4294967296) :
    (CreateTokenAckPacket authSeq tokenRequest token ourId theirId).sentid = some ourId ∧
    (CreateTokenAckPacket authSeq tokenRequest token ourId theirId).rcvdid = some theirId := by
  constructor <;>
  · simp only [CreateTokenAckPacket, IcomPacket.sentid, IcomPacket.rcvdid, IcomPacket.store,
      IcomPacket.zeroed, IcomPacket.loadU32, Option.map_some', Option.some_bind, TOKEN_SIZE]
    simp only [readU32, writeU32, writeU16, writeU8, List.getElem?_set, List.length_set,
      List.length_replicate, List.getElem?_replicate, off_len, off_type, off_seq, off_sentid,
      off_rcvdid, off_payloadsize, off_requesttype, off_requestreply, off_innerseq,
      off_tokrequest, off_token, off_time, off_reply]
    simp
    omega

theorem CreateTokenRenewPacket_ids (authSeq tokenRequest token ourId theirId : Nat)
    (h1 : ourId < 4294967296) (h2 : theirId < 4294967296) :
    (CreateTokenRenewPacket authSeq tokenRequest token ourId theirId).sentid = some ourId ∧
    (CreateTokenRenewPacket authSeq tokenRequest token ourId theirId).rcvdid = some theirId := by
  constructor <;>
  · simp only [CreateTokenRenewPacket, IcomPacket.sentid, IcomPacket.rcvdid, IcomPacket.store,
      IcomPacket.zeroed, IcomPacket.loadU32, Option.map_some', Option.some_bind, TOKEN_SIZE]
    simp only [readU32, writeU32, writeU16, writeU8, List.getElem?_set, List.length_set,
      List.length_replicate, List.getElem?_replicate, off_len, off_type, off_seq, off_sentid,
      off_rcvdid, off_payloadsize, off_requesttype, off_requestreply, off_innerseq,
      off_tokrequest, off_token, off_time, off_reply]
    simp
    omega

theorem CreateTokenRemovePacket_ids (authSeq tokenRequest token ourId theirId : Nat)
    (h1 : ourId < 4294967296) (h2 : theirId < 4294967296) :
    (CreateTokenRemovePacket authSeq tokenRequest token ourId theirId).sentid = some ourId ∧
    (CreateTokenRemovePacket authSeq tokenRequest token ourId theirId).rcvdid = some theirId := by
  constructor <;>
  · simp only [CreateTokenRemovePacket, IcomPacket.sentid, IcomPacket.rcvdid, IcomPacket.store,
      IcomPacket.zeroed, IcomPacket.loadU32, Option.map_some', Option.some_bind, TOKEN_SIZE]
    simp only [readU32, writeU32, writeU16, writeU8, List.getElem?_set, List.length_set,
      List.length_replicate, List.getElem?_replicate, off_len, off_type, off_seq, off_sentid,
      off_rcvdid, off_payloadsize, off_requesttype, off_requestreply, off_innerseq,
      off_tokrequest, off_token, off_time, off_reply]
    simp
    omega

theorem CreatePingPacket_ids (now pingSeq ourId theirId : Nat)
    (h1 : ourId < 4294967296) (h2 : theirId < 4294967296) :
    (CreatePingPacket now pingSeq ourId theirId).sentid = some ourId ∧
    (CreatePingPacket now pingSeq ourId theirId).rcvdid = some theirId := by
  constructor <;>
  · simp only [CreatePingPacket, IcomPacket.sentid, IcomPacket.rcvdid, IcomPacket.store,
      IcomPacket.zeroed, IcomPacket.loadU32, Option.map_some', Option.some_bind, PING_SIZE]
    simp only [readU32, writeU32, writeU16, writeU8, List.getElem?_set, List.length_set,
      List.length_replicate, List.getElem?_replicate, off_len, off_type, off_seq, off_sentid,
      off_rcvdid, off_payloadsize, off_requesttype, off_requestreply, off_innerseq,
      off_tokrequest, off_token, off_time, off_reply]
    simp
    omega

theorem CreatePingAckPacket_ids (now theirPingSeq ourId theirId : Nat)
    (h1 : ourId < 4294967296) (h2 : theirId < 4294967296) :
    (CreatePingAckPacket now theirPingSeq ourId theirId).sentid = some ourId ∧
    (CreatePingAckPacket now theirPingSeq ourId theirId).rcvdid = some theirId := by
  constructor <;>
  · simp only [CreatePingAckPacket, IcomPacket.sentid, IcomPacket.rcvdid, IcomPacket.store,
      IcomPacket.zeroed, IcomPacket.loadU32, Option.map_some', Option.some_bind, PING_SIZE]
    simp only [readU32, writeU32, writeU16, writeU8, List.getElem?_set, List.length_set,
      List.length_replicate, List.getElem?_replicate, off_len, off_type, off_seq, off_sentid,
      off_rcvdid, off_payloadsize, off_requesttype, off_requestreply, off_innerseq,
      off_tokrequest, off_token, off_time, off_reply]
    simp
    omega

theorem CreateCIVOpenClosePacket_ids (civSeq ourId theirId : Nat) (close : Bool)
    (h1 : ourId < 4294967296) (h2 : theirId < 4294967296) :
    (CreateCIVOpenClosePacket civSeq ourId theirId close).sentid = some ourId ∧
    (CreateCIVOpenClosePacket civSeq ourId theirId close).rcvdid = some theirId := by
  constructor <;>
  · simp only [CreateCIVOpenClosePacket, IcomPacket.sentid, IcomPacket.rcvdid,
      IcomPacket.store, IcomPacket.zeroed, IcomPacket.loadU32, Option.map_some',
      Option.some_bind, OPENCLOSE_SIZE]
    simp only [readU32, writeU32, writeU16, writeU8, List.getElem?_set, List.length_set,
      List.length_replicate, List.getElem?_replicate, off_len, off_sentid, off_rcvdid,
      off_oc_data, off_oc_magic, off_oc_sendseq]
    simp
    omega

theorem CreateLoginPacket_ids (uniform_dist : Nat → Nat) (authSeq ourId theirId : Nat)
    (username password computerName : List Nat)
    (h1 : ourId < 4294967296) (h2 : theirId < 4294967296) :
    (CreateLoginPacket uniform_dist authSeq ourId theirId username password
      computerName).sentid = some ourId ∧
    (CreateLoginPacket uniform_dist authSeq ourId theirId username password
      computerName).rcvdid = some theirId := by
  constructor <;>
  · simp only [CreateLoginPacket, IcomPacket.sentid, IcomPacket.rcvdid, IcomPacket.store,
      IcomPacket.zeroed, IcomPacket.loadU32, Option.map_some', Option.some_bind]
    rw [readU32_memcpy_of_le _ _ _ _ (by decide),
      readU32_EncodePassword_of_le _ _ _ _ (by decide),
      readU32_EncodePassword_of_le _ _ _ _ (by decide)]
    simp only [readU32, writeU32, writeU16, writeU8, List.getElem?_set, List.length_set,
      List.length_replicate, List.getElem?_replicate, LOGIN_SIZE, off_len, off_sentid,
      off_rcvdid, off_requesttype, off_requestreply, off_innerseq, off_tokrequest]
    simp
    omega

theorem CreateRetransmitRequest_ids (ourId theirId : Nat) (ids : List Nat)
    (h1 : ourId < 4294967296) (h2 : theirId < 4294967296) :
    (CreateRetransmitRequest ourId theirId ids).sentid = some ourId ∧
    (CreateRetransmitRequest ourId theirId ids).rcvdid = some theirId := by
  by_cases hne : ids.length = 1
  · obtain ⟨id, rfl⟩ := List.length_eq_one.mp hne
    constructor <;>
    · simp only [IcomPacket.sentid, IcomPacket.rcvdid]
      rw [IcomPacket.loadU32, CreateRetransmitRequest_single_bytes, Option.some_bind,
        readU32_append_left _ _ _ (by simp [off_sentid, off_rcvdid])]
      simp [readU32, writeU32, writeU16, List.getElem?_set, off_len, off_type, off_seq,
        off_sentid, off_rcvdid]
      omega
  · constructor <;>
    · simp only [IcomPacket.sentid, IcomPacket.rcvdid]
      rw [IcomPacket.loadU32, CreateRetransmitRequest_list_bytes _ _ _ hne, Option.some_bind,
        readU32_append_left _ _ _ (by simp [off_sentid, off_rcvdid])]
      simp [readU32, writeU32, writeU16, List.getElem?_set, off_len, off_type, off_seq,
        off_sentid, off_rcvdid]
      omega

theorem CreateCIVPacket_ids (ourId theirId sendSeq : Nat) (civData : List Nat)
    (civLength : Nat) (hlen : civLength ≤ civData.length)
    (h1 : ourId < 4294967296) (h2 : theirId < 4294967296) :
    (CreateCIVPacket ourId theirId sendSeq civData civLength).sentid = some ourId ∧
    (CreateCIVPacket ourId theirId sendSeq civData civLength).rcvdid = some theirId := by
  constructor
  · rw [IcomPacket.sentid, IcomPacket.loadU32, CreateCIVPacket_bytes _ _ _ _ _ hlen,
      Option.some_bind, readU32_append_left _ _ _ (by simp [off_sentid])]
    simp [readU32, writeU32, writeU16, writeU8, List.getElem?_set, off_len, off_sentid,
      off_rcvdid, off_reply, off_data_datalen, off_data_sendseq]
    omega
  · rw [IcomPacket.rcvdid, IcomPacket.loadU32, CreateCIVPacket_bytes _ _ _ _ _ hlen,
      Option.some_bind, readU32_append_left _ _ _ (by simp [off_rcvdid])]
    simp [readU32, writeU32, writeU16, writeU8, List.getElem?_set, off_len, off_sentid,
      off_rcvdid, off_reply, off_data_datalen, off_data_sendseq]
    omega

theorem CreateAudioPacket_ids (audioSeq ourId theirId : Nat) (audio : List Int)
    (len : Nat) (hlen : len ≤ audio.length)
    (h1 : ourId < 4294967296) (h2 : theirId < 4294967296) :
    (CreateAudioPacket audioSeq ourId theirId audio len).sentid = some ourId ∧
    (CreateAudioPacket audioSeq ourId theirId audio len).rcvdid = some theirId := by
  constructor
  · rw [IcomPacket.sentid, IcomPacket.loadU32, CreateAudioPacket_bytes _ _ _ _ _ hlen,
      Option.some_bind, readU32_append_left _ _ _ (by simp [off_sentid])]
    simp [readU32, writeU32, writeU8, List.getElem?_set, off_len, off_sentid, off_rcvdid]
    omega
  · rw [IcomPacket.rcvdid, IcomPacket.loadU32, CreateAudioPacket_bytes _ _ _ _ _ hlen,
      Option.some_bind, readU32_append_left _ _ _ (by simp [off_rcvdid])]
    simp [readU32, writeU32, writeU8, List.getElem?_set, off_len, off_sentid, off_rcvdid]
    omega

/-- C5: every packet factory of the codec puts `ourId` into the header field
`sentid` and `theirId` into the header field `rcvdid`: reading the produced
buffer through the generic control header gives these two values back, whatever
the other arguments are (the copies made by the factories staying inside their
source and target buffers). -/
theorem factories_carry_session_identifiers (ourId theirId : Nat)
    (h1 : ourId < 4294967296) (h2 : theirId < 4294967296)
    (uniform_dist : Nat → Nat)
    (authSeq tokenRequest token now pingSeq ourSeq sendSeq civSeq audioSeq : Nat)
    (username password computerName ids civData : List Nat) (civLength : Nat)
    (close : Bool) (audio : List Int) (len : Nat)
    (_hname : computerName.length ≤ 32) (hciv : civLength ≤ civData.length)
    (haud : len ≤ audio.length) :
    [CreateAreYouTherePacket ourId theirId,
      CreateAreYouReadyPacket ourId theirId,
      CreateLoginPacket uniform_dist authSeq ourId theirId username password computerName,
      CreateTokenAckPacket authSeq tokenRequest token ourId theirId,
      CreateTokenRenewPacket authSeq tokenRequest token ourId theirId,
      CreateTokenRemovePacket authSeq tokenRequest token ourId theirId,
      CreatePingPacket now pingSeq ourId theirId,
      CreatePingAckPacket now pingSeq ourId theirId,
      CreateIdlePacket ourSeq ourId theirId,
      CreateRetransmitRequest ourId theirId ids,
      CreateDisconnectPacket ourId theirId,
      CreateCIVPacket ourId theirId sendSeq civData civLength,
      CreateCIVOpenClosePacket civSeq ourId theirId close,
      CreateAudioPacket audioSeq ourId theirId audio len].map
        (fun p => (p.sentid, p.rcvdid))
      = List.replicate 14 (some ourId, some theirId) := by
  simp only [List.map_cons, List.map_nil,
    (CreateAreYouTherePacket_ids ourId theirId h1 h2).1,
    (CreateAreYouTherePacket_ids ourId theirId h1 h2).2,
    (CreateAreYouReadyPacket_ids ourId theirId h1 h2).1,
    (CreateAreYouReadyPacket_ids ourId theirId h1 h2).2,
    (CreateLoginPacket_ids uniform_dist authSeq ourId theirId username password computerName
      h1 h2).1,
    (CreateLoginPacket_ids uniform_dist authSeq ourId theirId username password computerName
      h1 h2).2,
    (CreateTokenAckPacket_ids authSeq tokenRequest token ourId theirId h1 h2).1,
    (CreateTokenAckPacket_ids authSeq tokenRequest token ourId theirId h1 h2).2,
    (CreateTokenRenewPacket_ids authSeq tokenRequest token ourId theirId h1 h2).1,
    (CreateTokenRenewPacket_ids authSeq tokenRequest token ourId theirId h1 h2).2,
    (CreateTokenRemovePacket_ids authSeq tokenRequest token ourId theirId h1 h2).1,
    (CreateTokenRemovePacket_ids authSeq tokenRequest token ourId theirId h1 h2).2,
    (CreatePingPacket_ids now pingSeq ourId theirId h1 h2).1,
    (CreatePingPacket_ids now pingSeq ourId theirId h1 h2).2,
    (CreatePingAckPacket_ids now pingSeq ourId theirId h1 h2).1,
    (CreatePingAckPacket_ids now pingSeq ourId theirId h1 h2).2,
    (CreateIdlePacket_ids ourSeq ourId theirId h1 h2).1,
    (CreateIdlePacket_ids ourSeq ourId theirId h1 h2).2,
    (CreateRetransmitRequest_ids ourId theirId ids h1 h2).1,
    (CreateRetransmitRequest_ids ourId theirId ids h1 h2).2,
    (CreateDisconnectPacket_ids ourId theirId h1 h2).1,
    (CreateDisconnectPacket_ids ourId theirId h1 h2).2,
    (CreateCIVPacket_ids ourId theirId sendSeq civData civLength hciv h1 h2).1,
    (CreateCIVPacket_ids ourId theirId sendSeq civData civLength hciv h1 h2).2,
    (CreateCIVOpenClosePacket_ids civSeq ourId theirId close h1 h2).1,
    (CreateCIVOpenClosePacket_ids civSeq ourId theirId close h1 h2).2,
    (CreateAudioPacket_ids audioSeq ourId theirId audio len haud h1 h2).1,
    (CreateAudioPacket_ids audioSeq ourId theirId audio len haud h1 h2).2]
  rfl

/-- C5, at `ourId = 0x0A0B0C0D` and `theirId = 0x01020304`. -/
theorem factories_carry_session_identifiers_witness :
    [CreateAreYouTherePacket 0x0A0B0C0D 0x01020304,
      CreateAreYouReadyPacket 0x0A0B0C0D 0x01020304,
      CreateLoginPacket (fun s => 48271 * s) 4 0x0A0B0C0D 0x01020304 [97, 100, 109, 105, 110]
        [115, 101, 99, 114, 101, 116] [101, 122, 68, 86],
      CreateTokenAckPacket 4 5 6 0x0A0B0C0D 0x01020304,
      CreateTokenRenewPacket 4 5 6 0x0A0B0C0D 0x01020304,
      CreateTokenRemovePacket 4 5 6 0x0A0B0C0D 0x01020304,
      CreatePingPacket 1700000000 9 0x0A0B0C0D 0x01020304,
      CreatePingAckPacket 1700000000 9 0x0A0B0C0D 0x01020304,
      CreateIdlePacket 10 0x0A0B0C0D 0x01020304,
      CreateRetransmitRequest 0x0A0B0C0D 0x01020304 [7, 9, 11],
      CreateDisconnectPacket 0x0A0B0C0D 0x01020304,
      CreateCIVPacket 0x0A0B0C0D 0x01020304 11 [0xFE, 0xFE, 0xFD] 3,
      CreateCIVOpenClosePacket 12 0x0A0B0C0D 0x01020304 false,
      CreateAudioPacket 13 0x0A0B0C0D 0x01020304 [1, -2, 3, 4] 4].map
        (fun p => (p.sentid, p.rcvdid))
      = List.replicate 14 (some 0x0A0B0C0D, some 0x01020304) :=
  factories_carry_session_identifiers 0x0A0B0C0D 0x01020304 (by decide) (by decide)
    (fun s => 48271 * s) 4 5 6 1700000000 9 10 11 12 13 [97, 100, 109, 105, 110]
    [115, 101, 99, 114, 101, 116] [101, 122, 68, 86] [7, 9, 11] [0xFE, 0xFE, 0xFD] 3
    false [1, -2, 3, 4] 4 (by decide) (by decide) (by decide)

/-! ## Credential obfuscation -/

theorem set_split (buf : List Nat) (output v : Nat) (h : output < buf.length) :
    buf.set output v = (buf.take output ++ [v]) ++ buf.drop (output + 1) := by
  rw [List.set_eq_take_append_cons_drop, if_pos h]
  simp

/-- What the loop of `EncodePassword_` does to memory, from position `i` on:
it stores a run of bytes that is fixed by the characters and `i` alone, starting
at the output pointer, and nothing else. -/
theorem encodePasswordLoop_spec (str : List Nat) : ∀ (i : Nat),
    ∃ bytes : List Nat, bytes.length = min str.length (16 - i) ∧
      ∀ (buf : List Nat) (output : Nat), output + bytes.length ≤ buf.length →
        encodePasswordLoop str i buf output
          = buf.take output ++ bytes ++ buf.drop (output + bytes.length) := by
  induction str with
  | nil =>
      intro i
      exact ⟨[], by simp, by intro buf output _; simp [encodePasswordLoop]⟩
  | cons c rest ih =>
      intro i
      by_cases hi : i < 16
      · obtain ⟨bs, hlen, hspec⟩ := ih (i + 1)
        refine ⟨sequence.getD (passwordIndex c i) 0 % 256 :: bs, ?_, ?_⟩
        · simp only [List.length_cons, hlen]
          omega
        · intro buf output hroom
          simp only [List.length_cons] at hroom
          have ho : output < buf.length := by omega
          have hs := set_split buf output (sequence.getD (passwordIndex c i) 0 % 256) ho
          have hl : (buf.take output ++ [sequence.getD (passwordIndex c i) 0 % 256]).length
              = output + 1 := by
            simp; omega
          rw [encodePasswordLoop, if_pos hi,
            hspec _ (output + 1) (by simp; omega), hs, List.take_left' hl,
            ← List.drop_drop, List.drop_left' hl, List.drop_drop]
          simp only [List.length_cons, List.append_assoc, List.singleton_append]
          rw [show output + 1 + bs.length = output + (bs.length + 1) by omega]
      · refine ⟨[], ?_, ?_⟩
        · simp only [List.length_nil, List.length_cons]
          omega
        · intro buf output _
          simp [encodePasswordLoop, hi]

/-- C6: for every input string, `EncodePassword_` writes exactly
`min(length, 16)` bytes, hence never more than 16, at the output pointer and
leaves the rest of memory as it was; the bytes written are fixed by the input
string alone (the same for every target buffer and output position). -/
theorem EncodePassword_writes (str : List Nat) :
    ∃ bytes : List Nat, bytes.length = min str.length 16 ∧ bytes.length ≤ 16 ∧
      ∀ (buf : List Nat) (output : Nat), output + bytes.length ≤ buf.length →
        EncodePassword_ str buf output
          = buf.take output ++ bytes ++ buf.drop (output + bytes.length) := by
  obtain ⟨bytes, hlen, hspec⟩ := encodePasswordLoop_spec str 0
  refine ⟨bytes, by simpa using hlen, ?_, ?_⟩
  · rw [hlen]; omega
  · intro buf output h
    exact hspec buf output h

/-- The byte the loop of `EncodePassword_` stores for the character at
position `j` of the remaining string. -/
theorem getElem?_encodePasswordLoop (str : List Nat) :
    ∀ (i : Nat) (buf : List Nat) (output j : Nat),
    j < min str.length (16 - i) → output + j < buf.length →
    (encodePasswordLoop str i buf output)[output + j]?
      = some (sequence.getD (passwordIndex (str.getD j 0) (i + j)) 0 % 256) := by
  induction str with
  | nil =>
      intro i buf output j hj _
      simp at hj
  | cons c rest ih =>
      intro i buf output j hj hroom
      have hi : i < 16 := by omega
      rw [encodePasswordLoop, if_pos hi]
      cases j with
      | zero =>
          rw [Nat.add_zero, getElem?_encodePasswordLoop_of_lt _ _ _ _ _ (by omega),
            List.getElem?_set]
          simp
          omega
      | succ j =>
          have hj' : j < min rest.length (16 - (i + 1)) := by
            simp only [List.length_cons] at hj
            omega
          have h := ih (i + 1) (buf.set output (sequence.getD (passwordIndex c i) 0 % 256))
            (output + 1) j hj' (by simp; omega)
          rw [show output + (j + 1) = output + 1 + j by omega, h]
          simp only [List.getD_cons_succ]
          rw [show i + 1 + j = i + (j + 1) by omega]

theorem passwordIndex_eq (c i : Nat) :
    passwordIndex c i = (if c + i ≤ 126 then c + i else 32 + (c + i) % 127) := by
  unfold passwordIndex
  simp only
  split <;> split <;> omega

theorem sequence_length : sequence.length = 159 := by
  rfl

theorem sequence_printable :
    ∀ p < 127, 32 ≤ p → (32 ≤ sequence.getD p 0 ∧ sequence.getD p 0 ≤ 126) := by
  decide

/-- C7: for an input string of printable ASCII characters (`0x20`..`0x7E`),
the byte `EncodePassword_` writes at position `i` is `sequence[p]` with
`p = c_i + i` when that sum is at most 126 and `p = 32 + ((c_i + i) mod 127)`
otherwise; `p` lies in 32..126 and the byte written is again printable. -/
theorem EncodePassword_printable (str buf : List Nat) (output i : Nat)
    (hp : ∀ c ∈ str, 0x20 ≤ c ∧ c ≤ 0x7E)
    (hroom : output + min str.length 16 ≤ buf.length) (hi : i < min str.length 16) :
    passwordIndex (str.getD i 0) i
      = (if str.getD i 0 + i ≤ 126 then str.getD i 0 + i
         else 32 + (str.getD i 0 + i) % 127) ∧
    32 ≤ passwordIndex (str.getD i 0) i ∧ passwordIndex (str.getD i 0) i ≤ 126 ∧
    (EncodePassword_ str buf output)[output + i]?
      = some (sequence.getD (passwordIndex (str.getD i 0) i) 0) ∧
    0x20 ≤ sequence.getD (passwordIndex (str.getD i 0) i) 0 ∧
    sequence.getD (passwordIndex (str.getD i 0) i) 0 ≤ 0x7E := by
  have hil : i < str.length := by omega
  have hc : 0x20 ≤ str.getD i 0 ∧ str.getD i 0 ≤ 0x7E := by
    have hg : str.getD i 0 = str[i] := by
      simp [List.getD_eq_getElem?_getD, List.getElem?_eq_getElem hil]
    rw [hg]
    exact hp _ (List.getElem_mem hil)
  have hdef := passwordIndex_eq (str.getD i 0) i
  have hlo : 32 ≤ passwordIndex (str.getD i 0) i := by
    rw [hdef]; split <;> omega
  have hhi : passwordIndex (str.getD i 0) i ≤ 126 := by
    rw [hdef]; split <;> omega
  have ht := sequence_printable (passwordIndex (str.getD i 0) i) (by omega) hlo
  have hb := getElem?_encodePasswordLoop str 0 buf output i (by simpa using hi) (by omega)
  rw [Nat.zero_add, Nat.mod_eq_of_lt (by omega)] at hb
  exact ⟨hdef, hlo, hhi, hb, ht.1, ht.2⟩

/-- C7, at the string `"~~ "`, position 1, where the index wraps. -/
theorem EncodePassword_printable_witness :
    passwordIndex ([0x7E, 0x7E, 0x20].getD 1 0) 1
      = (if [0x7E, 0x7E, 0x20].getD 1 0 + 1 ≤ 126 then [0x7E, 0x7E, 0x20].getD 1 0 + 1
         else 32 + ([0x7E, 0x7E, 0x20].getD 1 0 + 1) % 127) ∧
    32 ≤ passwordIndex ([0x7E, 0x7E, 0x20].getD 1 0) 1 ∧
    passwordIndex ([0x7E, 0x7E, 0x20].getD 1 0) 1 ≤ 126 ∧
    (EncodePassword_ [0x7E, 0x7E, 0x20] (List.replicate 16 0) 0)[0 + 1]?
      = some (sequence.getD (passwordIndex ([0x7E, 0x7E, 0x20].getD 1 0) 1) 0) ∧
    0x20 ≤ sequence.getD (passwordIndex ([0x7E, 0x7E, 0x20].getD 1 0) 1) 0 ∧
    sequence.getD (passwordIndex ([0x7E, 0x7E, 0x20].getD 1 0) 1) 0 ≤ 0x7E :=
  EncodePassword_printable [0x7E, 0x7E, 0x20] (List.replicate 16 0) 0 1
    (by decide) (by decide) (by decide)

/-- C8, counterexample: the table of `EncodePassword_` has 159 entries, not
128, and for the character `0xFD` at position 0 the lookup index is 158, which
is not below 128. -/
theorem passwordIndex_exceeds_128 :
    sequence.length = 159 ∧ passwordIndex 0xFD 0 = 158 ∧ ¬ passwordIndex 0xFD 0 < 128 :=
  ⟨by rfl, by decide, by decide⟩

/-- C8, amended: the table of `EncodePassword_` has 159 entries and, for an
input string of arbitrary byte values 0..255, the lookup index computed at
every position 0..15 is less than 159, so no lookup falls outside the table. -/
theorem passwordIndex_in_table (str : List Nat) (i : Nat)
    (hb : ∀ c ∈ str, c < 256) (hi : i < min str.length 16) :
    sequence.length = 159 ∧ passwordIndex (str.getD i 0) i < sequence.length := by
  have hil : i < str.length := by omega
  have hc : str.getD i 0 < 256 := by
    have hg : str.getD i 0 = str[i] := by
      simp [List.getD_eq_getElem?_getD, List.getElem?_eq_getElem hil]
    rw [hg]
    exact hb _ (List.getElem_mem hil)
  have hl : sequence.length = 159 := sequence_length
  refine ⟨hl, ?_⟩
  rw [hl]
  unfold passwordIndex
  simp only
  split <;> omega

/-- C8, amended, at the string `[0xFD, 0xFF]`, position 0. -/
theorem passwordIndex_in_table_witness :
    sequence.length = 159 ∧ passwordIndex ([0xFD, 0xFF].getD 0 0) 0 < sequence.length :=
  passwordIndex_in_table [0xFD, 0xFF] 0 (by decide) (by decide)

/-! ## Transport engine -/

theorem tdiv_1000_le_500_iff (x : Int) : Int.tdiv x 1000 ≤ 500 ↔ x < 501000 := by
  by_cases h : 0 ≤ x
  · rw [Int.tdiv_eq_ediv h (by decide)]
    omega
  · have h1 : 0 ≤ (-x).tdiv 1000 := Int.tdiv_nonneg (by omega) (by decide)
    have h2 : x.tdiv 1000 = -((-x).tdiv 1000) := by
      rw [← Int.neg_tdiv, Int.neg_neg]
    constructor
    · intro _; omega
    · intro _; omega

theorem retryLoop_tries_ge (env : SendEnv) (startTime : Int) :
    ∀ (fuel tries : Nat) (rv totalTimeMs : Int),
      tries ≤ (retryLoop env startTime fuel tries rv totalTimeMs).tries := by
  intro fuel
  induction fuel with
  | zero => intro tries rv t; simp [retryLoop]
  | succ n ih =>
      intro tries rv t
      unfold retryLoop
      split
      · simp only
        split
        · exact Nat.le_trans (Nat.le_succ tries) (ih _ _ _)
        · exact Nat.le_refl _
      · exact Nat.le_refl _

/-- C9, counterexample: with an open socket, a message whose age is 500500
microseconds, which exceeds the 500 ms threshold, is not dropped: `send` is
called once. -/
theorem onSendPacket_sends_at_500500_us :
    (500 * 1000 : Int) < 500500 - 0 ∧
    (onSendPacket_ { IcomStateMachine.init with socket_ := 1 }
      { now := fun _ => 500500, sendRv := fun _ => 16, sendErrno := fun _ => 0,
        recvBuffer := [], recvRv := -1 }
      8 { packet := CreateIdlePacket 1 2 3, sendTime := 0 }).1.sends = 1 := by
  decide

/-- C9, amended: in `onSendPacket_` with an open socket (`socket_ > 0`), the age
of the message is taken in whole milliseconds, `(now - sendTime) / 1000`
rounded towards zero.  When that exceeds 500, that is from an age of 501 ms on,
`send` is not called; for every smaller age, 0 ms included, `send` is called at
least once.  The packet is deleted once either way. -/
theorem onSendPacket_send_gate (sm : IcomStateMachine) (env : SendEnv) (fuel : Nat)
    (message : SendPacketMessage) (hsock : 0 < sm.socket_) :
    (EXPIRE_TIME_MS < Int.tdiv (env.now 0 - message.sendTime) 1000 →
      (onSendPacket_ sm env fuel message).1.sends = 0) ∧
    (env.now 0 - message.sendTime = 0 → 1 ≤ (onSendPacket_ sm env fuel message).1.sends) ∧
    (1 ≤ (onSendPacket_ sm env fuel message).1.sends
      ↔ env.now 0 - message.sendTime < 501000) ∧
    (onSendPacket_ sm env fuel message).1.deleted = 1 := by
  have hiff := tdiv_1000_le_500_iff (env.now 0 - message.sendTime)
  have key : (1 ≤ (onSendPacket_ sm env fuel message).1.sends
      ↔ env.now 0 - message.sendTime < 501000) ∧
      (¬ env.now 0 - message.sendTime < 501000 →
        (onSendPacket_ sm env fuel message).1.sends = 0) ∧
      (onSendPacket_ sm env fuel message).1.deleted = 1 := by
    by_cases hage : env.now 0 - message.sendTime < 501000
    · have hg : sm.socket_ > 0 ∧
          Int.tdiv (env.now 0 - message.sendTime) 1000 ≤ EXPIRE_TIME_MS :=
        ⟨hsock, hiff.mpr hage⟩
      have ht := retryLoop_tries_ge env (env.now 1) fuel 1 (env.sendRv 0)
        (Int.tdiv (env.now 2 - env.now 1) 1000)
      simp only [onSendPacket_, hg, and_self, if_true]
      exact ⟨⟨fun _ => hage, fun _ => ht⟩, fun h => absurd hage h, trivial⟩
    · have hg : ¬ (sm.socket_ > 0 ∧
          Int.tdiv (env.now 0 - message.sendTime) 1000 ≤ EXPIRE_TIME_MS) :=
        fun h => hage (hiff.mp h.2)
      simp only [onSendPacket_, hg, if_false]
      exact ⟨⟨fun h => absurd h (by decide), fun h => absurd h hage⟩, fun _ => trivial, trivial⟩
  refine ⟨?_, ?_, key.1, key.2.2⟩
  · intro h
    apply key.2.1
    intro hlt
    have := hiff.mpr hlt
    unfold EXPIRE_TIME_MS at h
    omega
  · intro h
    exact key.1.mpr (by omega)

/-- C9, amended, at a message of age 0 on socket 1. -/
theorem onSendPacket_send_gate_witness :
    ((0 : Int) < ({ IcomStateMachine.init with socket_ := 1 } : IcomStateMachine).socket_) ∧
    (1 ≤ (onSendPacket_ { IcomStateMachine.init with socket_ := 1 }
        { now := fun _ => 0, sendRv := fun _ => 16, sendErrno := fun _ => 0,
          recvBuffer := [], recvRv := -1 }
        8 { packet := CreateIdlePacket 1 2 3, sendTime := 0 }).1.sends
      ↔ (0 : Int) - 0 < 501000) :=
  ⟨by decide,
    (onSendPacket_send_gate { IcomStateMachine.init with socket_ := 1 }
      { now := fun _ => 0, sendRv := fun _ => 16, sendErrno := fun _ => 0,
        recvBuffer := [], recvRv := -1 }
      8 { packet := CreateIdlePacket 1 2 3, sendTime := 0 } (by decide)).2.2.1⟩

theorem or_fields_eq_sum (a b p : Nat) (ha : a < 256) (hp : p < 65536) :
    (b <<< 24) ||| (a <<< 16) ||| p = b * 16777216 + a * 65536 + p := by
  rw [Nat.shiftLeft_eq, Nat.shiftLeft_eq, Nat.or_assoc]
  have h1 : a * 2 ^ 16 ||| p = 2 ^ 16 * a + p := by
    rw [Nat.mul_comm]; exact (Nat.mul_add_lt_is_or (by omega) a).symm
  rw [h1]
  have h2 : 2 ^ 16 * a + p < 2 ^ 24 := by omega
  rw [Nat.mul_comm b, ← Nat.mul_add_lt_is_or h2 b]
  omega

/-- C10: for the radio address `192.168.1.5` and local port 50001 `openSocket_`
gives the identifier `0xA8C0C351`: the second octet, then the first octet of
the address of the radio, which `inet_addr` returns in network byte order, then
the port.  The last two octets of the address, which the expression of the
code yields on the word in host order, would give `0x0105C351`; the second and
the fourth octet with the port are `(168 << 24) | (5 << 16) | 50001`, that is
`0xA805C351`.  The identifier computed is neither. -/
theorem openSocket_ourIdentifier_192_168_1_5 :
    (openSocket_ { IcomStateMachine.init with localPort_ := 50001 }
        (inet_addr 192 168 1 5) 3).ourIdentifier_ = 0xA8C0C351 ∧
    (openSocket_ { IcomStateMachine.init with localPort_ := 50001 }
        0xC0A80105 3).ourIdentifier_ = 0x0105C351 ∧
    ((168 <<< 24) ||| (5 <<< 16) ||| (50001 &&& 0xFFFF)) = 0xA805C351 ∧
    (0xA8C0C351 : Nat) ≠ 0xA805C351 ∧ (0x0105C351 : Nat) ≠ 0xA805C351 := by
  decide

/-- The identifier `ourIdentifier_` computed by `openSocket_` is made of three
fields that do not overlap: bits 8..15 of the 32-bit address word the code
reads (`s_addr` of the radio address) in the top byte, bits 0..7 of that word
in the next byte, and the bound local port modulo `2 ^ 16` in the low 16
bits. -/
theorem openSocket_ourIdentifier (sm : IcomStateMachine) (s_addr : Nat) (fd : Int) :
    (openSocket_ sm s_addr fd).ourIdentifier_
      = (s_addr / 256 % 256) * 16777216 + (s_addr % 256) * 65536
        + (sm.localPort_ % 65536).toNat ∧
    (openSocket_ sm s_addr fd).ourIdentifier_ / 16777216 = s_addr / 256 % 256 ∧
    (openSocket_ sm s_addr fd).ourIdentifier_ / 65536 % 256 = s_addr % 256 ∧
    (openSocket_ sm s_addr fd).ourIdentifier_ % 65536 = (sm.localPort_ % 65536).toNat := by
  have hp : (sm.localPort_ % 65536).toNat < 65536 := by
    have h1 : sm.localPort_ % 65536 < 65536 := Int.emod_lt_of_pos _ (by decide)
    have h2 : 0 ≤ sm.localPort_ % 65536 := Int.emod_nonneg _ (by decide)
    omega
  have e1 : ((s_addr % 4294967296) >>> 8) &&& 0xFF = s_addr / 256 % 256 := by
    rw [Nat.shiftRight_eq_div_pow]
    have := Nat.and_pow_two_sub_one_eq_mod (s_addr % 4294967296 / 2 ^ 8) 8
    simp only [Nat.reducePow, Nat.reduceSub] at this ⊢
    rw [this]
    omega
  have e2 : (s_addr % 4294967296) &&& 0xFF = s_addr % 256 := by
    have := Nat.and_pow_two_sub_one_eq_mod (s_addr % 4294967296) 8
    simp only [Nat.reducePow, Nat.reduceSub] at this ⊢
    rw [this]
    omega
  have e3 : (sm.localPort_ % 65536).toNat &&& 0xFFFF = (sm.localPort_ % 65536).toNat := by
    have := Nat.and_pow_two_sub_one_eq_mod (sm.localPort_ % 65536).toNat 16
    simp only [Nat.reducePow, Nat.reduceSub] at this ⊢
    rw [this]
    exact Nat.mod_eq_of_lt hp
  have hsum : (openSocket_ sm s_addr fd).ourIdentifier_
      = (s_addr / 256 % 256) * 16777216 + (s_addr % 256) * 65536
        + (sm.localPort_ % 65536).toNat := by
    simp only [openSocket_, e1, e2, e3]
    rw [or_fields_eq_sum _ _ _ (by omega) hp]
    omega
  rw [hsum]
  refine ⟨rfl, ?_, ?_, ?_⟩ <;> omega

/-! ## Frame conditions and bounds of the classification predicates -/

/-- C11: three received buffers on which a predicate returns false and has
nevertheless overwritten its output parameter.  On an are-you-there packet
(type `0x03`) `isIAmHere` returns false and `theirId`, 0 before the call, holds
the sender identifier of the packet; on a ping request `isPingResponse`
returns false and `pingSequence` holds the sequence number of the packet; on a
ping reply `isPingRequest` does the same. -/
theorem predicates_overwrite_outputs_on_false :
    isIAmHere (CreateAreYouTherePacket 0x0A0B0C0D 0x01020304) 0
      = some { result := false, value := 0x0A0B0C0D } ∧
    isPingResponse (CreatePingPacket 1700000000 9 0x0A0B0C0D 0x01020304) 0
      = some { result := false, value := 9 } ∧
    isPingRequest (CreatePingAckPacket 1700000000 9 0x0A0B0C0D 0x01020304) 0
      = some { result := false, value := 9 } := by
  decide

/-- C12: two received buffers shorter than the control header.  On the 8-byte
buffer `20 00 00 00 00 00 00 00` `isAudioPacket` returns true and reports the
data start `0x18`, which lies outside the buffer; on the 6-byte buffer
`20 00 00 00 00 00` `isCivPacket` reads the field `datalen` at `0x11`, outside
the buffer (the embedding yields `none` there).  On the empty buffer both read
the header outside the buffer. -/
theorem short_buffers_are_read_as_headers :
    isAudioPacket (IcomPacket.ofBytes [0x20, 0, 0, 0, 0, 0, 0, 0] 8) 0 0
      = some { result := true, seq := 0, dataStart := 0x18 } ∧
    isCivPacket (IcomPacket.ofBytes [0x20, 0, 0, 0, 0, 0] 6) 0 0 = none ∧
    isAudioPacket (IcomPacket.ofBytes [] 0) 0 0 = none ∧
    isCivPacket (IcomPacket.ofBytes [] 0) 0 0 = none := by
  decide

/-- C13: a received buffer of 19 bytes whose header announces a length of 121
and a payload of 100 bytes: `isCivPacket` returns true and reports 100 payload
bytes from offset `0x15`, although the buffer ends at 19 and
`19 ≠ 0x15 + 100`. -/
theorem isCivPacket_trusts_header_length :
    isCivPacket
        (IcomPacket.ofBytes
          [121, 0, 0, 0, 0, 0, 0, 0, 1, 2, 3, 4, 5, 6, 7, 8, 0xc1, 100, 0] 19) 0 0
      = some { result := true, civPacket := 0x15, civPacketLength := 100 } ∧
    (IcomPacket.ofBytes
        [121, 0, 0, 0, 0, 0, 0, 0, 1, 2, 3, 4, 5, 6, 7, 8, 0xc1, 100, 0] 19).size_ = 19 ∧
    (19 : Nat) ≠ 0x15 + 100 := by
  decide

/-- C14: a received buffer of 17 bytes with type `0x01`.  Its size exceeds
`CONTROL_SIZE` by 1, which is not a multiple of 2, and `isRetransmitPacket`
does not reject it: it sets its result to true and reads a 16-bit id at offset
16, whose second byte lies outside the buffer (the embedding yields `none`
there).  With one more byte the same header is accepted and the id is read
inside the buffer. -/
theorem isRetransmitPacket_odd_size :
    isRetransmitPacket
        (IcomPacket.ofBytes [17, 0, 0, 0, 1, 0, 0, 0, 1, 2, 3, 4, 5, 6, 7, 8, 9] 17) []
      = none ∧
    (17 - CONTROL_SIZE) % 2 = 1 ∧
    (IcomPacket.ofBytes [17, 0, 0, 0, 1, 0, 0, 0, 1, 2, 3, 4, 5, 6, 7, 8, 9] 17).loadU16 off_type
      = some 0x01 ∧
    (IcomPacket.ofBytes [17, 0, 0, 0, 1, 0, 0, 0, 1, 2, 3, 4, 5, 6, 7, 8, 9] 17).loadU8 16
      = some 9 ∧
    (IcomPacket.ofBytes [17, 0, 0, 0, 1, 0, 0, 0, 1, 2, 3, 4, 5, 6, 7, 8, 9] 17).loadU8 17
      = none ∧
    isRetransmitPacket
        (IcomPacket.ofBytes [18, 0, 0, 0, 1, 0, 0, 0, 1, 2, 3, 4, 5, 6, 7, 8, 9, 10] 18) []
      = some { result := true, retryPackets := [9 + 256 * 10] } := by
  decide

/-! ## Capabilities packets -/

theorem capabilitiesLoop_spec (k : Nat) : ∀ (fuel index : Nat) (radios : List Nat),
    k ≤ fuel →
    capabilitiesLoop (index + k * RADIO_CAP_SIZE) fuel index radios
      = radios ++ (List.range k).map (fun j => index + j * RADIO_CAP_SIZE) := by
  induction k with
  | zero =>
      intro fuel index radios _
      cases fuel with
      | zero => simp [capabilitiesLoop]
      | succ f => simp [capabilitiesLoop]
  | succ k ih =>
      intro fuel index radios hk
      cases fuel with
      | zero => omega
      | succ f =>
          have hlt : index < index + (k + 1) * RADIO_CAP_SIZE := by
            simp only [RADIO_CAP_SIZE]; omega
          have hsz : index + (k + 1) * RADIO_CAP_SIZE
              = (index + RADIO_CAP_SIZE) + k * RADIO_CAP_SIZE := by
            rw [Nat.add_mul]; omega
          rw [capabilitiesLoop, if_pos hlt, hsz, ih f (index + RADIO_CAP_SIZE) _ (by omega)]
          rw [List.range_succ_eq_map, List.map_cons, List.map_map, List.append_assoc]
          congr 2
          simp
          intro j _
          rw [Nat.add_mul]
          omega

theorem capabilities_size_test (s : Nat) :
    Int.tmod ((s : Int) - (CAPABILITIES_SIZE : Int)) (RADIO_CAP_SIZE : Int) = 0 ↔
      ∃ k : Nat, s = CAPABILITIES_SIZE + k * RADIO_CAP_SIZE := by
  rw [← Int.dvd_iff_tmod_eq_zero]
  simp only [CAPABILITIES_SIZE, RADIO_CAP_SIZE]
  constructor
  · rintro ⟨c, hc⟩
    refine ⟨c.toNat, ?_⟩
    have hc0 : 0 ≤ c := by omega
    have : (c.toNat : Int) = c := Int.toNat_of_nonneg hc0
    omega
  · rintro ⟨k, hk⟩
    exact ⟨(k : Int), by omega⟩

/-- C15: for every buffer of size `s`, `isCapabilitiesPacket` returns true if
and only if `s = CAPABILITIES_SIZE + k * RADIO_CAP_SIZE` for some natural number
`k`; in that case it appends exactly `k` radio entries, entry `j` pointing at
offset `CAPABILITIES_SIZE + j * RADIO_CAP_SIZE`; when it returns false it
appends none. -/
theorem isCapabilitiesPacket_iff (p : IcomPacket) (radios : List Nat) :
    ((isCapabilitiesPacket p radios).result = true ↔
      ∃ k : Nat, p.size_ = CAPABILITIES_SIZE + k * RADIO_CAP_SIZE) ∧
    (∀ k : Nat, p.size_ = CAPABILITIES_SIZE + k * RADIO_CAP_SIZE →
      (isCapabilitiesPacket p radios).radios
        = radios ++ (List.range k).map (fun j => CAPABILITIES_SIZE + j * RADIO_CAP_SIZE)) ∧
    ((isCapabilitiesPacket p radios).result = false →
      (isCapabilitiesPacket p radios).radios = radios) := by
  have ht := capabilities_size_test p.size_
  by_cases h : Int.tmod ((p.size_ : Int) - (CAPABILITIES_SIZE : Int)) (RADIO_CAP_SIZE : Int) = 0
  · refine ⟨?_, ?_, ?_⟩
    · simp only [isCapabilitiesPacket, h, if_true, true_iff]
      exact ht.mp h
    · intro k hk
      have hfuel : k ≤ p.size_ := by
        rw [hk]; simp only [CAPABILITIES_SIZE, RADIO_CAP_SIZE]; omega
      simp only [isCapabilitiesPacket, h, if_true]
      have := capabilitiesLoop_spec k p.size_ CAPABILITIES_SIZE radios hfuel
      rw [← hk] at this
      exact this
    · simp [isCapabilitiesPacket, h]
  · refine ⟨?_, ?_, ?_⟩
    · simp only [isCapabilitiesPacket, h, if_false, Bool.false_eq_true, false_iff]
      exact fun hk => h (ht.mpr hk)
    · intro k hk
      exact absurd (ht.mpr ⟨k, hk⟩) h
    · simp [isCapabilitiesPacket, h]

/-! ## Dispatch, teardown and moves -/

/-- C16: in the terminal state (no current state) `onReceivePacket_` calls no
state handler, whatever the packet: the machine, with its current state, its
session identifiers and the messages posted so far, is as before; the packet
is deleted. -/
theorem onReceivePacket_terminal
    (onReceivePacket : Nat → IcomPacket → IcomStateMachine → IcomStateMachine)
    (sm : IcomStateMachine) (packet : IcomPacket) (h : sm.currentState = none) :
    onReceivePacket_ onReceivePacket sm packet = ({ handlerCalls := 0, deleted := 1 }, sm) := by
  simp [onReceivePacket_, h]

/-- C16, at a machine in the terminal state whose handlers, were they called,
would change the identifiers and post a message. -/
theorem onReceivePacket_terminal_witness :
    onReceivePacket_
        (fun _ _ sm => { sm with theirIdentifier_ := 99,
                                 posted := sm.posted ++ [IcomMessage.DISCONNECTED_RADIO] })
        { IcomStateMachine.init with socket_ := 3, ourIdentifier_ := 7, theirIdentifier_ := 8 }
        (CreateIdlePacket 1 2 3)
      = ({ handlerCalls := 0, deleted := 1 },
         { IcomStateMachine.init with socket_ := 3, ourIdentifier_ := 7,
                                      theirIdentifier_ := 8 }) :=
  onReceivePacket_terminal _ _ _ rfl

/-- C17: a session with an open socket in which the terminal state is reached
twice before the queued `CloseSocketMessage` is handled: both transitions post
`CloseSocketMessage` and `DisconnectedRadioMessage`, so two disconnected
notifications are emitted.  When the second transition completes after
`onCloseSocket_`, it posts nothing. -/
theorem second_terminal_transition_posts_again :
    (runEvents (fun _ _ sm => sm)
        { IcomStateMachine.init with socket_ := 3, currentState := some 2 }
        [SessionEvent.transitionDone none, SessionEvent.transitionDone none,
          SessionEvent.closeSocket]).posted
      = [IcomMessage.CLOSE_SOCKET, IcomMessage.DISCONNECTED_RADIO,
          IcomMessage.CLOSE_SOCKET, IcomMessage.DISCONNECTED_RADIO] ∧
    (runEvents (fun _ _ sm => sm)
        { IcomStateMachine.init with socket_ := 3, currentState := some 2 }
        [SessionEvent.transitionDone none, SessionEvent.closeSocket,
          SessionEvent.transitionDone none]).posted
      = [IcomMessage.CLOSE_SOCKET, IcomMessage.DISCONNECTED_RADIO] := by
  decide

/-- C18, counterexample: a machine whose socket was opened towards
`192.168.1.5` from local port 50001 and which learnt the peer identifier
`0x01020304`; after the terminal state is reached and `onCloseSocket_` has run,
both identifiers still have their session values. -/
theorem identifiers_survive_teardown_example :
    getOurIdentifier
        (onCloseSocket_ (completeTransition
          (setTheirIdentifier
            (openSocket_ { IcomStateMachine.init with localPort_ := 50001 }
              (inet_addr 192 168 1 5) 3) 0x01020304) none)) = 0xA8C0C351 ∧
    getTheirIdentifier
        (onCloseSocket_ (completeTransition
          (setTheirIdentifier
            (openSocket_ { IcomStateMachine.init with localPort_ := 50001 }
              (inet_addr 192 168 1 5) 3) 0x01020304) none)) = 0x01020304 := by
  decide

/-- C18, amended: teardown does not touch the session identifiers.  After the
terminal state is reached and `onCloseSocket_` has handled the
`CloseSocketMessage`, `getOurIdentifier()` and `getTheirIdentifier()` return
what they returned before; the socket is 0 and the read timer is stopped. -/
theorem identifiers_unchanged_by_teardown (sm : IcomStateMachine) :
    getOurIdentifier (onCloseSocket_ (completeTransition sm none)) = getOurIdentifier sm ∧
    getTheirIdentifier (onCloseSocket_ (completeTransition sm none))
      = getTheirIdentifier sm ∧
    (onCloseSocket_ (completeTransition sm none)).socket_ = 0 ∧
    (onCloseSocket_ (completeTransition sm none)).packetReadTimerRunning = false := by
  unfold onCloseSocket_ completeTransition onTransitionComplete_ getOurIdentifier
    getTheirIdentifier
  refine ⟨?_, ?_, rfl, rfl⟩ <;>
  · simp only
    split <;> rfl

/-- C19: move-constructing or move-assigning from a source packet gives the
destination the length and the buffer of the source and leaves the source with
size 0 and no buffer, whatever the destination of the assignment held
before. -/
theorem move_transfers_buffer (self packet : IcomPacket) :
    (IcomPacket.moveConstruct packet).1.getSendLength = packet.getSendLength ∧
    (IcomPacket.moveConstruct packet).1.getData = packet.getData ∧
    (IcomPacket.moveConstruct packet).2.size_ = 0 ∧
    (IcomPacket.moveConstruct packet).2.rawPacket_ = none ∧
    (IcomPacket.moveAssign self packet).1.getSendLength = packet.getSendLength ∧
    (IcomPacket.moveAssign self packet).1.getData = packet.getData ∧
    (IcomPacket.moveAssign self packet).2.size_ = 0 ∧
    (IcomPacket.moveAssign self packet).2.rawPacket_ = none :=
  ⟨rfl, rfl, rfl, rfl, rfl, rfl, rfl, rfl⟩

/-! ## Bytes outside the populated fields -/

theorem inFields_nil (j : Nat) : inFields [] j = false := rfl

theorem inFields_cons (o w : Nat) (fs : List (Nat × Nat)) (j : Nat) :
    inFields ((o, w) :: fs) j = false ↔ (j < o ∨ o + w ≤ j) ∧ inFields fs j = false := by
  simp only [inFields, List.any_cons, Bool.or_eq_false_iff, decide_eq_false_iff_not]
  constructor
  · rintro ⟨h1, h2⟩
    exact ⟨by omega, h2⟩
  · rintro ⟨h1, h2⟩
    exact ⟨by omega, h2⟩

theorem getElem?_writeU8_out (buf : List Nat) (off v j : Nat) (h : j < off ∨ off + 1 ≤ j) :
    (writeU8 buf off v)[j]? = buf[j]? := by
  have h0 : ¬ off = j := by omega
  simp [writeU8, List.getElem?_set, h0]

theorem getElem?_writeU16_out (buf : List Nat) (off v j : Nat) (h : j < off ∨ off + 2 ≤ j) :
    (writeU16 buf off v)[j]? = buf[j]? := by
  have h0 : ¬ off = j := by omega
  have h1 : ¬ off + 1 = j := by omega
  simp [writeU16, List.getElem?_set, h0, h1]

theorem getElem?_writeU32_out (buf : List Nat) (off v j : Nat) (h : j < off ∨ off + 4 ≤ j) :
    (writeU32 buf off v)[j]? = buf[j]? := by
  have h0 : ¬ off = j := by omega
  have h1 : ¬ off + 1 = j := by omega
  have h2 : ¬ off + 2 = j := by omega
  have h3 : ¬ off + 3 = j := by omega
  simp [writeU32, List.getElem?_set, h0, h1, h2, h3]

theorem getElem?_memcpy_out (src : List Nat) : ∀ (buf : List Nat) (off j : Nat),
    j < off ∨ off + src.length ≤ j → (memcpy buf off src)[j]? = buf[j]? := by
  induction src with
  | nil => intro buf off j _; rfl
  | cons b bs ih =>
      intro buf off j h
      simp only [List.length_cons] at h
      have h0 : ¬ off = j := by omega
      rw [memcpy, ih _ _ _ (by omega), List.getElem?_set]
      simp [h0]

theorem getElem?_encodePasswordLoop_out (str : List Nat) :
    ∀ (i : Nat) (buf : List Nat) (output j : Nat),
    j < output ∨ output + min str.length (16 - i) ≤ j →
    (encodePasswordLoop str i buf output)[j]? = buf[j]? := by
  induction str with
  | nil => intro i buf output j _; rfl
  | cons c rest ih =>
      intro i buf output j h
      simp only [List.length_cons] at h
      unfold encodePasswordLoop
      split
      · have h0 : ¬ output = j := by omega
        rw [ih _ _ _ _ (by omega), List.getElem?_set]
        simp [h0]
      · rfl

theorem getElem?_EncodePassword_out (str buf : List Nat) (output j : Nat)
    (h : j < output ∨ output + min str.length 16 ≤ j) :
    (EncodePassword_ str buf output)[j]? = buf[j]? :=
  getElem?_encodePasswordLoop_out str 0 buf output j (by simpa using h)

theorem getElem?_writeRetransmitIds_out (ids : List Nat) : ∀ (buf : List Nat) (pos j : Nat),
    j < pos ∨ pos + 2 * ids.length ≤ j → (writeRetransmitIds buf pos ids)[j]? = buf[j]? := by
  induction ids with
  | nil => intro buf pos j _; rfl
  | cons id ids ih =>
      intro buf pos j h
      simp only [List.length_cons] at h
      rw [writeRetransmitIds, ih _ _ _ (by omega), getElem?_writeU16_out _ _ _ _ (by omega)]

@[simp]
theorem length_writeRetransmitIds (ids : List Nat) : ∀ (buf : List Nat) (pos : Nat),
    (writeRetransmitIds buf pos ids).length = buf.length := by
  induction ids with
  | nil => intro buf pos; rfl
  | cons id ids ih => intro buf pos; rw [writeRetransmitIds, ih, length_writeU16]

@[simp]
theorem length_EncodePassword_ (str buf : List Nat) (output : Nat) :
    (EncodePassword_ str buf output).length = buf.length :=
  length_encodePasswordLoop str 0 buf output


theorem CreateAreYouTherePacket_zeroOutside (ourId theirId : Nat) :
    zeroOutside (CreateAreYouTherePacket ourId theirId) controlFields := by
  constructor
  · simp [CreateAreYouTherePacket, IcomPacket.store, IcomPacket.zeroed]
  · intro j h
    simp only [controlFields, List.cons_append, List.nil_append, inFields_cons,
      inFields_nil, off_len, off_type, off_seq, off_sentid, off_rcvdid, off_reply, off_time, off_data_datalen,
      off_data_sendseq, off_oc_data, off_oc_sendseq, off_oc_magic, off_payloadsize,
      off_requestreply, off_requesttype, off_innerseq, off_tokrequest, off_token, off_username,
      off_password, off_name, CONTROL_SIZE] at h
    simp only [CreateAreYouTherePacket, IcomPacket.store, IcomPacket.zeroed, IcomPacket.byteAt,
      zeroByteAt, Option.map_some', Option.some_bind,
      off_len, off_type, off_seq, off_sentid, off_rcvdid, off_reply, off_time, off_data_datalen,
      off_data_sendseq, off_oc_data, off_oc_sendseq, off_oc_magic, off_payloadsize,
      off_requestreply, off_requesttype, off_innerseq, off_tokrequest, off_token, off_username,
      off_password, off_name, CONTROL_SIZE]
    simp (disch := omega) only [getElem?_writeU32_out, getElem?_writeU16_out,
      getElem?_writeU8_out, getElem?_memcpy_out, getElem?_EncodePassword_out]

theorem CreateAreYouReadyPacket_zeroOutside (ourId theirId : Nat) :
    zeroOutside (CreateAreYouReadyPacket ourId theirId) controlFields := by
  constructor
  · simp [CreateAreYouReadyPacket, IcomPacket.store, IcomPacket.zeroed]
  · intro j h
    simp only [controlFields, List.cons_append, List.nil_append, inFields_cons,
      inFields_nil, off_len, off_type, off_seq, off_sentid, off_rcvdid, off_reply, off_time, off_data_datalen,
      off_data_sendseq, off_oc_data, off_oc_sendseq, off_oc_magic, off_payloadsize,
      off_requestreply, off_requesttype, off_innerseq, off_tokrequest, off_token, off_username,
      off_password, off_name, CONTROL_SIZE] at h
    simp only [CreateAreYouReadyPacket, IcomPacket.store, IcomPacket.zeroed, IcomPacket.byteAt,
      zeroByteAt, Option.map_some', Option.some_bind,
      off_len, off_type, off_seq, off_sentid, off_rcvdid, off_reply, off_time, off_data_datalen,
      off_data_sendseq, off_oc_data, off_oc_sendseq, off_oc_magic, off_payloadsize,
      off_requestreply, off_requesttype, off_innerseq, off_tokrequest, off_token, off_username,
      off_password, off_name, CONTROL_SIZE]
    simp (disch := omega) only [getElem?_writeU32_out, getElem?_writeU16_out,
      getElem?_writeU8_out, getElem?_memcpy_out, getElem?_EncodePassword_out]

theorem CreateIdlePacket_zeroOutside (ourSeq ourId theirId : Nat) :
    zeroOutside (CreateIdlePacket ourSeq ourId theirId) controlFields := by
  constructor
  · simp [CreateIdlePacket, IcomPacket.store, IcomPacket.zeroed]
  · intro j h
    simp only [controlFields, List.cons_append, List.nil_append, inFields_cons,
      inFields_nil, off_len, off_type, off_seq, off_sentid, off_rcvdid, off_reply, off_time, off_data_datalen,
      off_data_sendseq, off_oc_data, off_oc_sendseq, off_oc_magic, off_payloadsize,
      off_requestreply, off_requesttype, off_innerseq, off_tokrequest, off_token, off_username,
      off_password, off_name, CONTROL_SIZE] at h
    simp only [CreateIdlePacket, IcomPacket.store, IcomPacket.zeroed, IcomPacket.byteAt,
      zeroByteAt, Option.map_some', Option.some_bind,
      off_len, off_type, off_seq, off_sentid, off_rcvdid, off_reply, off_time, off_data_datalen,
      off_data_sendseq, off_oc_data, off_oc_sendseq, off_oc_magic, off_payloadsize,
      off_requestreply, off_requesttype, off_innerseq, off_tokrequest, off_token, off_username,
      off_password, off_name, CONTROL_SIZE]
    simp (disch := omega) only [getElem?_writeU32_out, getElem?_writeU16_out,
      getElem?_writeU8_out, getElem?_memcpy_out, getElem?_EncodePassword_out]

theorem CreateDisconnectPacket_zeroOutside (ourId theirId : Nat) :
    zeroOutside (CreateDisconnectPacket ourId theirId) controlFields := by
  constructor
  · simp [CreateDisconnectPacket, IcomPacket.store, IcomPacket.zeroed]
  · intro j h
    simp only [controlFields, List.cons_append, List.nil_append, inFields_cons,
      inFields_nil, off_len, off_type, off_seq, off_sentid, off_rcvdid, off_reply, off_time, off_data_datalen,
      off_data_sendseq, off_oc_data, off_oc_sendseq, off_oc_magic, off_payloadsize,
      off_requestreply, off_requesttype, off_innerseq, off_tokrequest, off_token, off_username,
      off_password, off_name, CONTROL_SIZE] at h
    simp only [CreateDisconnectPacket, IcomPacket.store, IcomPacket.zeroed, IcomPacket.byteAt,
      zeroByteAt, Option.map_some', Option.some_bind,
      off_len, off_type, off_seq, off_sentid, off_rcvdid, off_reply, off_time, off_data_datalen,
      off_data_sendseq, off_oc_data, off_oc_sendseq, off_oc_magic, off_payloadsize,
      off_requestreply, off_requesttype, off_innerseq, off_tokrequest, off_token, off_username,
      off_password, off_name, CONTROL_SIZE]
    simp (disch := omega) only [getElem?_writeU32_out, getElem?_writeU16_out,
      getElem?_writeU8_out, getElem?_memcpy_out, getElem?_EncodePassword_out]

theorem CreateTokenAckPacket_zeroOutside (authSeq tokenRequest token ourId theirId : Nat) :
    zeroOutside (CreateTokenAckPacket authSeq tokenRequest token ourId theirId) tokenFields := by
  constructor
  · simp [CreateTokenAckPacket, IcomPacket.store, IcomPacket.zeroed]
  · intro j h
    simp only [tokenFields, List.cons_append, List.nil_append, inFields_cons,
      inFields_nil, off_len, off_type, off_seq, off_sentid, off_rcvdid, off_reply, off_time, off_data_datalen,
      off_data_sendseq, off_oc_data, off_oc_sendseq, off_oc_magic, off_payloadsize,
      off_requestreply, off_requesttype, off_innerseq, off_tokrequest, off_token, off_username,
      off_password, off_name, CONTROL_SIZE] at h
    simp only [CreateTokenAckPacket, IcomPacket.store, IcomPacket.zeroed, IcomPacket.byteAt,
      zeroByteAt, Option.map_some', Option.some_bind,
      off_len, off_type, off_seq, off_sentid, off_rcvdid, off_reply, off_time, off_data_datalen,
      off_data_sendseq, off_oc_data, off_oc_sendseq, off_oc_magic, off_payloadsize,
      off_requestreply, off_requesttype, off_innerseq, off_tokrequest, off_token, off_username,
      off_password, off_name, CONTROL_SIZE]
    simp (disch := omega) only [getElem?_writeU32_out, getElem?_writeU16_out,
      getElem?_writeU8_out, getElem?_memcpy_out, getElem?_EncodePassword_out]

theorem CreateTokenRenewPacket_zeroOutside (authSeq tokenRequest token ourId theirId : Nat) :
    zeroOutside (CreateTokenRenewPacket authSeq tokenRequest token ourId theirId) tokenFields := by
  constructor
  · simp [CreateTokenRenewPacket, IcomPacket.store, IcomPacket.zeroed]
  · intro j h
    simp only [tokenFields, List.cons_append, List.nil_append, inFields_cons,
      inFields_nil, off_len, off_type, off_seq, off_sentid, off_rcvdid, off_reply, off_time, off_data_datalen,
      off_data_sendseq, off_oc_data, off_oc_sendseq, off_oc_magic, off_payloadsize,
      off_requestreply, off_requesttype, off_innerseq, off_tokrequest, off_token, off_username,
      off_password, off_name, CONTROL_SIZE] at h
    simp only [CreateTokenRenewPacket, IcomPacket.store, IcomPacket.zeroed, IcomPacket.byteAt,
      zeroByteAt, Option.map_some', Option.some_bind,
      off_len, off_type, off_seq, off_sentid, off_rcvdid, off_reply, off_time, off_data_datalen,
      off_data_sendseq, off_oc_data, off_oc_sendseq, off_oc_magic, off_payloadsize,
      off_requestreply, off_requesttype, off_innerseq, off_tokrequest, off_token, off_username,
      off_password, off_name, CONTROL_SIZE]
    simp (disch := omega) only [getElem?_writeU32_out, getElem?_writeU16_out,
      getElem?_writeU8_out, getElem?_memcpy_out, getElem?_EncodePassword_out]

theorem CreateTokenRemovePacket_zeroOutside (authSeq tokenRequest token ourId theirId : Nat) :
    zeroOutside (CreateTokenRemovePacket authSeq tokenRequest token ourId theirId) tokenFields := by
  constructor
  · simp [CreateTokenRemovePacket, IcomPacket.store, IcomPacket.zeroed]
  · intro j h
    simp only [tokenFields, List.cons_append, List.nil_append, inFields_cons,
      inFields_nil, off_len, off_type, off_seq, off_sentid, off_rcvdid, off_reply, off_time, off_data_datalen,
      off_data_sendseq, off_oc_data, off_oc_sendseq, off_oc_magic, off_payloadsize,
      off_requestreply, off_requesttype, off_innerseq, off_tokrequest, off_token, off_username,
      off_password, off_name, CONTROL_SIZE] at h
    simp only [CreateTokenRemovePacket, IcomPacket.store, IcomPacket.zeroed, IcomPacket.byteAt,
      zeroByteAt, Option.map_some', Option.some_bind,
      off_len, off_type, off_seq, off_sentid, off_rcvdid, off_reply, off_time, off_data_datalen,
      off_data_sendseq, off_oc_data, off_oc_sendseq, off_oc_magic, off_payloadsize,
      off_requestreply, off_requesttype, off_innerseq, off_tokrequest, off_token, off_username,
      off_password, off_name, CONTROL_SIZE]
    simp (disch := omega) only [getElem?_writeU32_out, getElem?_writeU16_out,
      getElem?_writeU8_out, getElem?_memcpy_out, getElem?_EncodePassword_out]

theorem CreatePingPacket_zeroOutside (now pingSeq ourId theirId : Nat) :
    zeroOutside (CreatePingPacket now pingSeq ourId theirId) pingFields := by
  constructor
  · simp [CreatePingPacket, IcomPacket.store, IcomPacket.zeroed]
  · intro j h
    simp only [pingFields, controlFields, List.cons_append, List.nil_append, inFields_cons,
      inFields_nil, off_len, off_type, off_seq, off_sentid, off_rcvdid, off_reply, off_time, off_data_datalen,
      off_data_sendseq, off_oc_data, off_oc_sendseq, off_oc_magic, off_payloadsize,
      off_requestreply, off_requesttype, off_innerseq, off_tokrequest, off_token, off_username,
      off_password, off_name, CONTROL_SIZE] at h
    simp only [CreatePingPacket, IcomPacket.store, IcomPacket.zeroed, IcomPacket.byteAt,
      zeroByteAt, Option.map_some', Option.some_bind,
      off_len, off_type, off_seq, off_sentid, off_rcvdid, off_reply, off_time, off_data_datalen,
      off_data_sendseq, off_oc_data, off_oc_sendseq, off_oc_magic, off_payloadsize,
      off_requestreply, off_requesttype, off_innerseq, off_tokrequest, off_token, off_username,
      off_password, off_name, CONTROL_SIZE]
    simp (disch := omega) only [getElem?_writeU32_out, getElem?_writeU16_out,
      getElem?_writeU8_out, getElem?_memcpy_out, getElem?_EncodePassword_out]

theorem CreatePingAckPacket_zeroOutside (now theirPingSeq ourId theirId : Nat) :
    zeroOutside (CreatePingAckPacket now theirPingSeq ourId theirId) pingAckFields := by
  constructor
  · simp [CreatePingAckPacket, IcomPacket.store, IcomPacket.zeroed]
  · intro j h
    simp only [pingAckFields, controlFields, List.cons_append, List.nil_append, inFields_cons,
      inFields_nil, off_len, off_type, off_seq, off_sentid, off_rcvdid, off_reply, off_time, off_data_datalen,
      off_data_sendseq, off_oc_data, off_oc_sendseq, off_oc_magic, off_payloadsize,
      off_requestreply, off_requesttype, off_innerseq, off_tokrequest, off_token, off_username,
      off_password, off_name, CONTROL_SIZE] at h
    simp only [CreatePingAckPacket, IcomPacket.store, IcomPacket.zeroed, IcomPacket.byteAt,
      zeroByteAt, Option.map_some', Option.some_bind,
      off_len, off_type, off_seq, off_sentid, off_rcvdid, off_reply, off_time, off_data_datalen,
      off_data_sendseq, off_oc_data, off_oc_sendseq, off_oc_magic, off_payloadsize,
      off_requestreply, off_requesttype, off_innerseq, off_tokrequest, off_token, off_username,
      off_password, off_name, CONTROL_SIZE]
    simp (disch := omega) only [getElem?_writeU32_out, getElem?_writeU16_out,
      getElem?_writeU8_out, getElem?_memcpy_out, getElem?_EncodePassword_out]

theorem CreateLoginPacket_zeroOutside (uniform_dist : Nat → Nat) (authSeq ourId theirId : Nat)
    (username password computerName : List Nat) :
    zeroOutside (CreateLoginPacket uniform_dist authSeq ourId theirId username password computerName) (loginFields username password computerName) := by
  constructor
  · simp [CreateLoginPacket, IcomPacket.store, IcomPacket.zeroed]
  · intro j h
    simp only [loginFields, List.cons_append, List.nil_append, inFields_cons,
      inFields_nil, off_len, off_type, off_seq, off_sentid, off_rcvdid, off_reply, off_time, off_data_datalen,
      off_data_sendseq, off_oc_data, off_oc_sendseq, off_oc_magic, off_payloadsize,
      off_requestreply, off_requesttype, off_innerseq, off_tokrequest, off_token, off_username,
      off_password, off_name, CONTROL_SIZE] at h
    simp only [CreateLoginPacket, IcomPacket.store, IcomPacket.zeroed, IcomPacket.byteAt,
      zeroByteAt, Option.map_some', Option.some_bind,
      off_len, off_type, off_seq, off_sentid, off_rcvdid, off_reply, off_time, off_data_datalen,
      off_data_sendseq, off_oc_data, off_oc_sendseq, off_oc_magic, off_payloadsize,
      off_requestreply, off_requesttype, off_innerseq, off_tokrequest, off_token, off_username,
      off_password, off_name, CONTROL_SIZE]
    simp (disch := omega) only [getElem?_writeU32_out, getElem?_writeU16_out,
      getElem?_writeU8_out, getElem?_memcpy_out, getElem?_EncodePassword_out]

theorem CreateCIVPacket_zeroOutside (ourId theirId sendSeq : Nat) (civData : List Nat) (civLength : Nat)
    (hlen : civLength ≤ civData.length) :
    zeroOutside (CreateCIVPacket ourId theirId sendSeq civData civLength) (civFields civLength) := by
  constructor
  · simp [CreateCIVPacket, IcomPacket.store, IcomPacket.zeroed]
  · intro j h
    have hl : (civData.take civLength).length = civLength := by simp [hlen]
    simp only [civFields, List.cons_append, List.nil_append, inFields_cons,
      inFields_nil, off_len, off_type, off_seq, off_sentid, off_rcvdid, off_reply, off_time, off_data_datalen,
      off_data_sendseq, off_oc_data, off_oc_sendseq, off_oc_magic, off_payloadsize,
      off_requestreply, off_requesttype, off_innerseq, off_tokrequest, off_token, off_username,
      off_password, off_name, CONTROL_SIZE] at h
    simp only [CreateCIVPacket, IcomPacket.store, IcomPacket.zeroed, IcomPacket.byteAt,
      zeroByteAt, Option.map_some', Option.some_bind,
      off_len, off_type, off_seq, off_sentid, off_rcvdid, off_reply, off_time, off_data_datalen,
      off_data_sendseq, off_oc_data, off_oc_sendseq, off_oc_magic, off_payloadsize,
      off_requestreply, off_requesttype, off_innerseq, off_tokrequest, off_token, off_username,
      off_password, off_name, CONTROL_SIZE]
    simp (disch := omega) only [getElem?_writeU32_out, getElem?_writeU16_out,
      getElem?_writeU8_out, getElem?_memcpy_out, getElem?_EncodePassword_out]

theorem CreateCIVOpenClosePacket_zeroOutside (civSeq ourId theirId : Nat) (close : Bool) :
    zeroOutside (CreateCIVOpenClosePacket civSeq ourId theirId close) openCloseFields := by
  constructor
  · simp [CreateCIVOpenClosePacket, IcomPacket.store, IcomPacket.zeroed]
  · intro j h
    simp only [openCloseFields, List.cons_append, List.nil_append, inFields_cons,
      inFields_nil, off_len, off_type, off_seq, off_sentid, off_rcvdid, off_reply, off_time, off_data_datalen,
      off_data_sendseq, off_oc_data, off_oc_sendseq, off_oc_magic, off_payloadsize,
      off_requestreply, off_requesttype, off_innerseq, off_tokrequest, off_token, off_username,
      off_password, off_name, CONTROL_SIZE] at h
    simp only [CreateCIVOpenClosePacket, IcomPacket.store, IcomPacket.zeroed, IcomPacket.byteAt,
      zeroByteAt, Option.map_some', Option.some_bind,
      off_len, off_type, off_seq, off_sentid, off_rcvdid, off_reply, off_time, off_data_datalen,
      off_data_sendseq, off_oc_data, off_oc_sendseq, off_oc_magic, off_payloadsize,
      off_requestreply, off_requesttype, off_innerseq, off_tokrequest, off_token, off_username,
      off_password, off_name, CONTROL_SIZE]
    simp (disch := omega) only [getElem?_writeU32_out, getElem?_writeU16_out,
      getElem?_writeU8_out, getElem?_memcpy_out, getElem?_EncodePassword_out]

theorem CreateAudioPacket_zeroOutside (audioSeq ourId theirId : Nat) (audio : List Int) (len : Nat)
    (hlen : len ≤ audio.length) :
    zeroOutside (CreateAudioPacket audioSeq ourId theirId audio len) (audioFields len) := by
  constructor
  · simp [CreateAudioPacket, IcomPacket.store, IcomPacket.zeroed]
  · intro j h
    have hl : ((audioBytes audio).take (len * 2)).length = len * 2 := by
      simp [length_audioBytes]; omega
    simp only [audioFields, List.cons_append, List.nil_append, inFields_cons,
      inFields_nil, off_len, off_type, off_seq, off_sentid, off_rcvdid, off_reply, off_time, off_data_datalen,
      off_data_sendseq, off_oc_data, off_oc_sendseq, off_oc_magic, off_payloadsize,
      off_requestreply, off_requesttype, off_innerseq, off_tokrequest, off_token, off_username,
      off_password, off_name, CONTROL_SIZE] at h
    simp only [CreateAudioPacket, IcomPacket.store, IcomPacket.zeroed, IcomPacket.byteAt,
      zeroByteAt, Option.map_some', Option.some_bind,
      off_len, off_type, off_seq, off_sentid, off_rcvdid, off_reply, off_time, off_data_datalen,
      off_data_sendseq, off_oc_data, off_oc_sendseq, off_oc_magic, off_payloadsize,
      off_requestreply, off_requesttype, off_innerseq, off_tokrequest, off_token, off_username,
      off_password, off_name, CONTROL_SIZE]
    simp (disch := omega) only [getElem?_writeU32_out, getElem?_writeU16_out,
      getElem?_writeU8_out, getElem?_memcpy_out, getElem?_EncodePassword_out]

theorem CreateRetransmitRequest_zeroOutside (ourId theirId : Nat) (ids : List Nat) :
    zeroOutside (CreateRetransmitRequest ourId theirId ids) (retransmitFields ids) := by
  by_cases h1 : ids.length = 1
  · constructor
    · simp [CreateRetransmitRequest, IcomPacket.store, IcomPacket.zeroed, h1]
    · intro j h
      simp only [retransmitFields, h1, if_true, controlFields, List.cons_append,
        List.nil_append, List.append_nil, inFields_cons, inFields_nil,
        off_len, off_type, off_seq, off_sentid, off_rcvdid, off_reply, off_time, off_data_datalen,
      off_data_sendseq, off_oc_data, off_oc_sendseq, off_oc_magic, off_payloadsize,
      off_requestreply, off_requesttype, off_innerseq, off_tokrequest, off_token, off_username,
      off_password, off_name, CONTROL_SIZE] at h
      simp only [CreateRetransmitRequest, h1, if_true, IcomPacket.store, IcomPacket.zeroed,
        IcomPacket.byteAt, zeroByteAt, Option.map_some', Option.some_bind,
        off_len, off_type, off_seq, off_sentid, off_rcvdid, off_reply, off_time, off_data_datalen,
      off_data_sendseq, off_oc_data, off_oc_sendseq, off_oc_magic, off_payloadsize,
      off_requestreply, off_requesttype, off_innerseq, off_tokrequest, off_token, off_username,
      off_password, off_name, CONTROL_SIZE]
      simp (disch := omega) only [getElem?_writeU32_out, getElem?_writeU16_out]
  · constructor
    · simp [CreateRetransmitRequest, IcomPacket.store, IcomPacket.zeroed, h1]
    · intro j h
      simp only [retransmitFields, h1, if_false, controlFields, List.cons_append,
        List.nil_append, inFields_cons, inFields_nil,
        off_len, off_type, off_seq, off_sentid, off_rcvdid, off_reply, off_time, off_data_datalen,
      off_data_sendseq, off_oc_data, off_oc_sendseq, off_oc_magic, off_payloadsize,
      off_requestreply, off_requesttype, off_innerseq, off_tokrequest, off_token, off_username,
      off_password, off_name, CONTROL_SIZE] at h
      simp only [CreateRetransmitRequest, h1, if_false, IcomPacket.store, IcomPacket.zeroed,
        IcomPacket.byteAt, zeroByteAt, Option.map_some', Option.some_bind,
        off_len, off_type, off_seq, off_sentid, off_rcvdid, off_reply, off_time, off_data_datalen,
      off_data_sendseq, off_oc_data, off_oc_sendseq, off_oc_magic, off_payloadsize,
      off_requestreply, off_requesttype, off_innerseq, off_tokrequest, off_token, off_username,
      off_password, off_name, CONTROL_SIZE]
      simp (disch := omega) only [getElem?_writeU32_out, getElem?_writeU16_out,
        getElem?_writeRetransmitIds_out]

/-- C20: every factory of the codec returns an all-zero buffer of the packet's
length in which only the fields that factory assigns are overwritten: the
buffer has `size_` bytes and every byte outside those fields is 0.  For a login
packet the fields are the header length and identifiers, the request bytes and,
of the credentials, the first `min(length, 16)` bytes each, so the rest of
`username` and `password` is zero; for an audio packet bytes `0x14`..`0x15` and
the header type and sequence fields are outside the fields and zero.  (The
copies made by the factories stay inside their source and target buffers.) -/
theorem factories_zero_outside_fields (ourId theirId : Nat) (uniform_dist : Nat → Nat)
    (authSeq tokenRequest token now pingSeq ourSeq sendSeq civSeq audioSeq : Nat)
    (username password computerName ids civData : List Nat) (civLength : Nat)
    (close : Bool) (audio : List Int) (len : Nat)
    (_hname : computerName.length ≤ 32) (hciv : civLength ≤ civData.length)
    (haud : len ≤ audio.length) :
    zeroOutside (CreateAreYouTherePacket ourId theirId) controlFields ∧
    zeroOutside (CreateAreYouReadyPacket ourId theirId) controlFields ∧
    zeroOutside
      (CreateLoginPacket uniform_dist authSeq ourId theirId username password computerName)
      (loginFields username password computerName) ∧
    zeroOutside (CreateTokenAckPacket authSeq tokenRequest token ourId theirId) tokenFields ∧
    zeroOutside (CreateTokenRenewPacket authSeq tokenRequest token ourId theirId) tokenFields ∧
    zeroOutside (CreateTokenRemovePacket authSeq tokenRequest token ourId theirId) tokenFields ∧
    zeroOutside (CreatePingPacket now pingSeq ourId theirId) pingFields ∧
    zeroOutside (CreatePingAckPacket now pingSeq ourId theirId) pingAckFields ∧
    zeroOutside (CreateIdlePacket ourSeq ourId theirId) controlFields ∧
    zeroOutside (CreateRetransmitRequest ourId theirId ids) (retransmitFields ids) ∧
    zeroOutside (CreateDisconnectPacket ourId theirId) controlFields ∧
    zeroOutside (CreateCIVPacket ourId theirId sendSeq civData civLength)
      (civFields civLength) ∧
    zeroOutside (CreateCIVOpenClosePacket civSeq ourId theirId close) openCloseFields ∧
    zeroOutside (CreateAudioPacket audioSeq ourId theirId audio len) (audioFields len) :=
  ⟨CreateAreYouTherePacket_zeroOutside ourId theirId,
    CreateAreYouReadyPacket_zeroOutside ourId theirId,
    CreateLoginPacket_zeroOutside uniform_dist authSeq ourId theirId username password
      computerName,
    CreateTokenAckPacket_zeroOutside authSeq tokenRequest token ourId theirId,
    CreateTokenRenewPacket_zeroOutside authSeq tokenRequest token ourId theirId,
    CreateTokenRemovePacket_zeroOutside authSeq tokenRequest token ourId theirId,
    CreatePingPacket_zeroOutside now pingSeq ourId theirId,
    CreatePingAckPacket_zeroOutside now pingSeq ourId theirId,
    CreateIdlePacket_zeroOutside ourSeq ourId theirId,
    CreateRetransmitRequest_zeroOutside ourId theirId ids,
    CreateDisconnectPacket_zeroOutside ourId theirId,
    CreateCIVPacket_zeroOutside ourId theirId sendSeq civData civLength hciv,
    CreateCIVOpenClosePacket_zeroOutside civSeq ourId theirId close,
    CreateAudioPacket_zeroOutside audioSeq ourId theirId audio len haud⟩

/-- C20, at `ourId = 0x0A0B0C0D`, `theirId = 0x01020304`, the credentials
`"admin"` and `"secret"`, a three-byte CIV payload and four samples. -/
theorem factories_zero_outside_fields_witness :
    zeroOutside (CreateAreYouTherePacket 0x0A0B0C0D 0x01020304) controlFields ∧
    zeroOutside (CreateAreYouReadyPacket 0x0A0B0C0D 0x01020304) controlFields ∧
    zeroOutside
      (CreateLoginPacket (fun s => 48271 * s) 4 0x0A0B0C0D 0x01020304 [97, 100, 109, 105, 110]
        [115, 101, 99, 114, 101, 116] [101, 122, 68, 86])
      (loginFields [97, 100, 109, 105, 110] [115, 101, 99, 114, 101, 116] [101, 122, 68, 86]) ∧
    zeroOutside (CreateTokenAckPacket 4 5 6 0x0A0B0C0D 0x01020304) tokenFields ∧
    zeroOutside (CreateTokenRenewPacket 4 5 6 0x0A0B0C0D 0x01020304) tokenFields ∧
    zeroOutside (CreateTokenRemovePacket 4 5 6 0x0A0B0C0D 0x01020304) tokenFields ∧
    zeroOutside (CreatePingPacket 1700000000 9 0x0A0B0C0D 0x01020304) pingFields ∧
    zeroOutside (CreatePingAckPacket 1700000000 9 0x0A0B0C0D 0x01020304) pingAckFields ∧
    zeroOutside (CreateIdlePacket 10 0x0A0B0C0D 0x01020304) controlFields ∧
    zeroOutside (CreateRetransmitRequest 0x0A0B0C0D 0x01020304 [7])
      (retransmitFields [7]) ∧
    zeroOutside (CreateDisconnectPacket 0x0A0B0C0D 0x01020304) controlFields ∧
    zeroOutside (CreateCIVPacket 0x0A0B0C0D 0x01020304 11 [0xFE, 0xFE, 0xFD] 3)
      (civFields 3) ∧
    zeroOutside (CreateCIVOpenClosePacket 12 0x0A0B0C0D 0x01020304 false) openCloseFields ∧
    zeroOutside (CreateAudioPacket 13 0x0A0B0C0D 0x01020304 [1, -2, 3, 4] 4)
      (audioFields 4) :=
  factories_zero_outside_fields 0x0A0B0C0D 0x01020304 (fun s => 48271 * s)
    4 5 6 1700000000 9 10 11 12 13 [97, 100, 109, 105, 110]
    [115, 101, 99, 114, 101, 116] [101, 122, 68, 86] [7] [0xFE, 0xFE, 0xFD] 3
    false [1, -2, 3, 4] 4 (by decide) (by decide) (by decide)

/-! ## Ping packets -/

theorem CreatePingPacket_reads (now pingSeq ourId theirId : Nat) (h : pingSeq < 65536) :
    (CreatePingPacket now pingSeq ourId theirId).size_ = PING_SIZE ∧
    (CreatePingPacket now pingSeq ourId theirId).loadU8 off_reply = some 0 ∧
    (CreatePingPacket now pingSeq ourId theirId).loadU16 off_seq = some pingSeq := by
  refine ⟨rfl, ?_, ?_⟩
  · simp only [CreatePingPacket, IcomPacket.store, IcomPacket.zeroed, IcomPacket.loadU8,
      Option.map_some', Option.some_bind, PING_SIZE]
    simp only [readU8, writeU32, writeU16, writeU8, List.getElem?_set, List.length_set,
      List.length_replicate, List.getElem?_replicate, off_len, off_type, off_seq, off_sentid,
      off_rcvdid, off_time, off_reply]
    simp
  · simp only [CreatePingPacket, IcomPacket.store, IcomPacket.zeroed, IcomPacket.loadU16,
      Option.map_some', Option.some_bind, PING_SIZE]
    simp only [readU16, writeU32, writeU16, writeU8, List.getElem?_set, List.length_set,
      List.length_replicate, List.getElem?_replicate, off_len, off_type, off_seq, off_sentid,
      off_rcvdid, off_time, off_reply]
    simp
    omega

theorem CreatePingAckPacket_reads (now theirPingSeq ourId theirId : Nat)
    (h : theirPingSeq < 65536) :
    (CreatePingAckPacket now theirPingSeq ourId theirId).size_ = PING_SIZE ∧
    (CreatePingAckPacket now theirPingSeq ourId theirId).loadU8 off_reply = some 1 ∧
    (CreatePingAckPacket now theirPingSeq ourId theirId).loadU16 off_seq
      = some theirPingSeq := by
  refine ⟨rfl, ?_, ?_⟩
  · simp only [CreatePingAckPacket, IcomPacket.store, IcomPacket.zeroed, IcomPacket.loadU8,
      Option.map_some', Option.some_bind, PING_SIZE]
    simp only [readU8, writeU32, writeU16, writeU8, List.getElem?_set, List.length_set,
      List.length_replicate, List.getElem?_replicate, off_len, off_type, off_seq, off_sentid,
      off_rcvdid, off_time, off_reply]
    simp
  · simp only [CreatePingAckPacket, IcomPacket.store, IcomPacket.zeroed, IcomPacket.loadU16,
      Option.map_some', Option.some_bind, PING_SIZE]
    simp only [readU16, writeU32, writeU16, writeU8, List.getElem?_set, List.length_set,
      List.length_replicate, List.getElem?_replicate, off_len, off_type, off_seq, off_sentid,
      off_rcvdid, off_time, off_reply]
    simp
    omega

/-- C21: for every 16-bit `pingSeq` and every `ourId` and `theirId`, on the
buffer of `CreatePingPacket` `isPingRequest` returns true with
`pingSequence = pingSeq` and `isPingResponse` returns false; on the buffer of
`CreatePingAckPacket` `isPingResponse` returns true with `pingSequence` the
given sequence and `isPingRequest` returns false. -/
theorem ping_round_trip (now pingSeq ourId theirId pingSequence : Nat)
    (h : pingSeq < 65536) :
    isPingRequest (CreatePingPacket now pingSeq ourId theirId) pingSequence
      = some { result := true, value := pingSeq } ∧
    (isPingResponse (CreatePingPacket now pingSeq ourId theirId) pingSequence).map
        (fun r => r.result) = some false ∧
    isPingResponse (CreatePingAckPacket now pingSeq ourId theirId) pingSequence
      = some { result := true, value := pingSeq } ∧
    (isPingRequest (CreatePingAckPacket now pingSeq ourId theirId) pingSequence).map
        (fun r => r.result) = some false := by
  obtain ⟨s1, r1, q1⟩ := CreatePingPacket_reads now pingSeq ourId theirId h
  obtain ⟨s2, r2, q2⟩ := CreatePingAckPacket_reads now pingSeq ourId theirId h
  refine ⟨?_, ?_, ?_, ?_⟩
  · simp only [isPingRequest, s1, r1, q1, if_true, Option.bind_eq_bind, Option.some_bind]
    rfl
  · simp only [isPingResponse, s1, r1, q1, if_true, Option.bind_eq_bind, Option.some_bind]
    rfl
  · simp only [isPingResponse, s2, r2, q2, if_true, Option.bind_eq_bind, Option.some_bind]
    rfl
  · simp only [isPingRequest, s2, r2, q2, if_true, Option.bind_eq_bind, Option.some_bind]
    rfl

/-- C21, at `pingSeq = 9`. -/
theorem ping_round_trip_witness :
    isPingRequest (CreatePingPacket 1700000000 9 0x0A0B0C0D 0x01020304) 0
      = some { result := true, value := 9 } ∧
    (isPingResponse (CreatePingPacket 1700000000 9 0x0A0B0C0D 0x01020304) 0).map
        (fun r => r.result) = some false ∧
    isPingResponse (CreatePingAckPacket 1700000000 9 0x0A0B0C0D 0x01020304) 0
      = some { result := true, value := 9 } ∧
    (isPingRequest (CreatePingAckPacket 1700000000 9 0x0A0B0C0D 0x01020304) 0).map
        (fun r => r.result) = some false :=
  ping_round_trip 1700000000 9 0x0A0B0C0D 0x01020304 0 (by decide)

/-- C23: a received buffer of ping size whose type marker is `0x00`, not `0x07`:
`isPingRequest` returns true on it (reply flag 0), and on the same buffer with
reply flag 1 `isPingResponse` returns true.  Neither predicate looks at the
type field. -/
theorem ping_predicates_ignore_type :
    (IcomPacket.ofBytes
        [0x15, 0, 0, 0, 0, 0, 5, 0, 1, 2, 3, 4, 5, 6, 7, 8, 0, 0, 0, 0, 0] 21).loadU16 off_type
      = some 0x00 ∧
    isPingRequest
        (IcomPacket.ofBytes
          [0x15, 0, 0, 0, 0, 0, 5, 0, 1, 2, 3, 4, 5, 6, 7, 8, 0, 0, 0, 0, 0] 21) 0
      = some { result := true, value := 5 } ∧
    isPingResponse
        (IcomPacket.ofBytes
          [0x15, 0, 0, 0, 0, 0, 5, 0, 1, 2, 3, 4, 5, 6, 7, 8, 1, 0, 0, 0, 0] 21) 0
      = some { result := true, value := 5 } := by
  decide

/-! ## The token request of a login packet -/

theorem readU16_memcpy_of_le (buf src : List Nat) (off o : Nat) (h : o + 2 ≤ off) :
    readU16 (memcpy buf off src) o = readU16 buf o := by
  unfold readU16
  rw [getElem?_memcpy_of_lt _ _ _ _ (by omega), getElem?_memcpy_of_lt _ _ _ _ (by omega)]

theorem readU16_EncodePassword_of_le (buf str : List Nat) (output o : Nat)
    (h : o + 2 ≤ output) :
    readU16 (EncodePassword_ str buf output) o = readU16 buf o := by
  unfold readU16 EncodePassword_
  rw [getElem?_encodePasswordLoop_of_lt _ _ _ _ _ (by omega),
    getElem?_encodePasswordLoop_of_lt _ _ _ _ _ (by omega)]

theorem CreateLoginPacket_tokrequest (uniform_dist : Nat → Nat) (authSeq ourId theirId : Nat)
    (username password computerName : List Nat) :
    (CreateLoginPacket uniform_dist authSeq ourId theirId username password
      computerName).loadU16 off_tokrequest
      = some (uniform_dist minstd_rand_default_seed % 65536) := by
  simp only [CreateLoginPacket, IcomPacket.store, IcomPacket.zeroed, IcomPacket.loadU16,
    Option.map_some', Option.some_bind]
  rw [readU16_memcpy_of_le _ _ _ _ (by decide),
    readU16_EncodePassword_of_le _ _ _ _ (by decide),
    readU16_EncodePassword_of_le _ _ _ _ (by decide)]
  simp only [readU16, writeU32, writeU16, writeU8, List.getElem?_set, List.length_set,
    List.length_replicate, List.getElem?_replicate, LOGIN_SIZE, off_len, off_sentid,
    off_rcvdid, off_requesttype, off_requestreply, off_innerseq, off_tokrequest]
  simp
  omega

/-- C22: the token-request value of a login packet is the same in every
packet.  The generator is constructed afresh, with its default seed, in each
call, so the value drawn is that of the distribution on a generator in its
initial state: two login packets, whatever their arguments, carry the same
token request. -/
theorem token_request_is_constant (uniform_dist : Nat → Nat)
    (authSeq ourId theirId authSeq' ourId' theirId' : Nat)
    (username password computerName username' password' computerName' : List Nat) :
    (CreateLoginPacket uniform_dist authSeq ourId theirId username password
      computerName).loadU16 off_tokrequest
      = some (uniform_dist minstd_rand_default_seed % 65536) ∧
    (CreateLoginPacket uniform_dist authSeq ourId theirId username password
      computerName).loadU16 off_tokrequest
      = (CreateLoginPacket uniform_dist authSeq' ourId' theirId' username' password'
          computerName').loadU16 off_tokrequest := by
  rw [CreateLoginPacket_tokrequest, CreateLoginPacket_tokrequest]
  exact ⟨rfl, rfl⟩

/-! ## Teardown order and the retry loop -/

theorem onSendPacket_closed_socket (sm : IcomStateMachine) (env : SendEnv) (fuel : Nat)
    (message : SendPacketMessage) (h : sm.socket_ = 0) :
    onSendPacket_ sm env fuel message = ({ sends := 0, finished := true, deleted := 1 }, sm) := by
  have hg : ¬ (sm.socket_ > 0 ∧
      Int.tdiv (env.now 0 - message.sendTime) 1000 ≤ EXPIRE_TIME_MS) := by
    intro hc
    have := hc.1
    omega
  simp only [onSendPacket_, hg, if_false]

/-- C24: when a transition completes with no current state and an open socket,
`onTransitionComplete_` posts exactly two messages, `CloseSocketMessage` and
then `DisconnectedRadioMessage`, and changes nothing else, the socket included;
the socket becomes 0 when `onCloseSocket_` handles the `CloseSocketMessage`, and
from then on `onSendPacket_` calls `send` for no message and leaves the state
of the machine as it is, so the same holds for every later `onSendPacket_`. -/
theorem teardown_is_deferred (sm : IcomStateMachine) (env : SendEnv) (fuel : Nat)
    (message : SendPacketMessage) (hstate : sm.currentState = none) (hsock : sm.socket_ ≠ 0) :
    onTransitionComplete_ sm
      = { sm with posted := sm.posted ++
            [IcomMessage.CLOSE_SOCKET, IcomMessage.DISCONNECTED_RADIO] } ∧
    (onTransitionComplete_ sm).socket_ = sm.socket_ ∧
    (onCloseSocket_ (onTransitionComplete_ sm)).socket_ = 0 ∧
    (onSendPacket_ (onCloseSocket_ (onTransitionComplete_ sm)) env fuel message).1.sends = 0 ∧
    (onSendPacket_ (onCloseSocket_ (onTransitionComplete_ sm)) env fuel message).2
      = onCloseSocket_ (onTransitionComplete_ sm) := by
  have h1 : onTransitionComplete_ sm
      = { sm with posted := sm.posted ++
            [IcomMessage.CLOSE_SOCKET, IcomMessage.DISCONNECTED_RADIO] } := by
    simp [onTransitionComplete_, hstate, hsock]
  have h3 : (onCloseSocket_ (onTransitionComplete_ sm)).socket_ = 0 := rfl
  have h4 := onSendPacket_closed_socket (onCloseSocket_ (onTransitionComplete_ sm)) env fuel
    message h3
  refine ⟨h1, ?_, h3, ?_, ?_⟩
  · rw [h1]
  · rw [h4]
  · rw [h4]

/-- C24, at a machine in the terminal state with socket 3. -/
theorem teardown_is_deferred_witness :
    onTransitionComplete_ { IcomStateMachine.init with socket_ := 3 }
      = { ({ IcomStateMachine.init with socket_ := 3 } : IcomStateMachine) with
          posted := ({ IcomStateMachine.init with socket_ := 3 } : IcomStateMachine).posted ++
            [IcomMessage.CLOSE_SOCKET, IcomMessage.DISCONNECTED_RADIO] } ∧
    (onTransitionComplete_ { IcomStateMachine.init with socket_ := 3 }).socket_
      = ({ IcomStateMachine.init with socket_ := 3 } : IcomStateMachine).socket_ ∧
    (onCloseSocket_ (onTransitionComplete_
      { IcomStateMachine.init with socket_ := 3 })).socket_ = 0 ∧
    (onSendPacket_ (onCloseSocket_ (onTransitionComplete_
        { IcomStateMachine.init with socket_ := 3 }))
      { now := fun _ => 0, sendRv := fun _ => 16, sendErrno := fun _ => 0,
        recvBuffer := [], recvRv := -1 }
      8 { packet := CreateIdlePacket 1 2 3, sendTime := 0 }).1.sends = 0 ∧
    (onSendPacket_ (onCloseSocket_ (onTransitionComplete_
        { IcomStateMachine.init with socket_ := 3 }))
      { now := fun _ => 0, sendRv := fun _ => 16, sendErrno := fun _ => 0,
        recvBuffer := [], recvRv := -1 }
      8 { packet := CreateIdlePacket 1 2 3, sendTime := 0 }).2
      = onCloseSocket_ (onTransitionComplete_ { IcomStateMachine.init with socket_ := 3 }) :=
  teardown_is_deferred { IcomStateMachine.init with socket_ := 3 }
    { now := fun _ => 0, sendRv := fun _ => 16, sendErrno := fun _ => 0,
      recvBuffer := [], recvRv := -1 }
    8 { packet := CreateIdlePacket 1 2 3, sendTime := 0 } rfl (by decide)

/-- The retry loop entered after `tries` calls of `send`, the last of which
ended at the clock reading `env.now (tries + 1)`: when the call number `k`
ends `MAX_RETRY_TIME_MS` or more after `startTime`, at most `k` calls are made
and `k - tries` iterations are enough for the loop to end. -/
theorem retryLoop_budget (env : SendEnv) (startTime : Int) (k : Nat)
    (hk : MAX_RETRY_TIME_MS ≤ Int.tdiv (env.now (k + 1) - startTime) 1000) :
    ∀ (fuel tries : Nat) (rv : Int), tries ≤ k →
      (retryLoop env startTime fuel tries rv
          (Int.tdiv (env.now (tries + 1) - startTime) 1000)).tries ≤ k ∧
      (k - tries ≤ fuel →
        (retryLoop env startTime fuel tries rv
          (Int.tdiv (env.now (tries + 1) - startTime) 1000)).finished = true) := by
  intro fuel
  induction fuel with
  | zero =>
      intro tries rv ht
      refine ⟨by simpa [retryLoop] using ht, ?_⟩
      intro hf
      have : tries = k := by omega
      subst this
      have hc : ¬ (rv = -1 ∧
          Int.tdiv (env.now (tries + 1) - startTime) 1000 < MAX_RETRY_TIME_MS) := by
        intro hc
        have := hc.2
        omega
      simp [retryLoop, hc]
  | succ n ih =>
      intro tries rv ht
      unfold retryLoop
      split
      · rename_i hc
        have hlt : tries < k := by
          rcases Nat.lt_or_ge tries k with h | h
          · exact h
          · have : tries = k := by omega
            subst this
            have := hc.2
            omega
        simp only
        split
        · have := ih (tries + 1) (env.sendRv tries) (by omega)
          exact ⟨this.1, fun hf => this.2 (by omega)⟩
        · exact ⟨ht, fun _ => rfl⟩
      · exact ⟨ht, fun _ => rfl⟩

theorem retryLoop_no_retry (env : SendEnv) (startTime : Int) (fuel : Nat) (total : Int)
    (herr : env.sendErrno 0 ≠ ENOMEM) :
    (retryLoop env startTime fuel 1 (env.sendRv 0) total).tries = 1 ∧
    (1 ≤ fuel → (retryLoop env startTime fuel 1 (env.sendRv 0) total).finished = true) := by
  cases fuel with
  | zero => exact ⟨rfl, fun h => absurd h (by decide)⟩
  | succ n =>
      unfold retryLoop
      split
      · simp [herr]
      · exact ⟨rfl, fun _ => rfl⟩

/-- C25: `onSendPacket_` for a packet that is not stale, on an open socket.  If
the first `send` fails with an `errno` other than `ENOMEM`, `send` is called
exactly once.  If the call number `k` of `send` ends 25 ms or more after the
first call started, at most `k` calls are made, whatever the results of `send`
are, and the loop has ended after at most `k` iterations.  The packet is
deleted once. -/
theorem onSendPacket_retry_budget (sm : IcomStateMachine) (env : SendEnv) (fuel k : Nat)
    (message : SendPacketMessage) (hsock : 0 < sm.socket_)
    (hfresh : Int.tdiv (env.now 0 - message.sendTime) 1000 ≤ EXPIRE_TIME_MS)
    (hk1 : 1 ≤ k)
    (hk : MAX_RETRY_TIME_MS ≤ Int.tdiv (env.now (k + 1) - env.now 1) 1000) :
    (env.sendRv 0 = -1 → env.sendErrno 0 ≠ ENOMEM →
      (onSendPacket_ sm env fuel message).1.sends = 1 ∧
      (1 ≤ fuel → (onSendPacket_ sm env fuel message).1.finished = true)) ∧
    (onSendPacket_ sm env fuel message).1.sends ≤ k ∧
    (k ≤ fuel → (onSendPacket_ sm env fuel message).1.finished = true) ∧
    (onSendPacket_ sm env fuel message).1.deleted = 1 := by
  have hg : sm.socket_ > 0 ∧
      Int.tdiv (env.now 0 - message.sendTime) 1000 ≤ EXPIRE_TIME_MS := ⟨hsock, hfresh⟩
  have hb := retryLoop_budget env (env.now 1) k hk fuel 1 (env.sendRv 0) hk1
  simp only [onSendPacket_, hg, and_self, if_true]
  refine ⟨?_, hb.1, fun hf => hb.2 (by omega), trivial⟩
  intro _ herr
  exact retryLoop_no_retry env (env.now 1) fuel _ herr

/-- C25, at a run in which every `send` fails with `ENOMEM` and each call takes
10 ms: the third call ends 30 ms after the first one started, and three calls
are made. -/
theorem onSendPacket_retry_budget_witness :
    (onSendPacket_ { IcomStateMachine.init with socket_ := 3 }
      { now := fun n => 10000 * ((n : Int) - 1), sendRv := fun _ => -1,
        sendErrno := fun _ => 12, recvBuffer := [], recvRv := -1 }
      8 { packet := CreateIdlePacket 1 2 3, sendTime := -10000 }).1.sends ≤ 3 ∧
    (onSendPacket_ { IcomStateMachine.init with socket_ := 3 }
      { now := fun n => 10000 * ((n : Int) - 1), sendRv := fun _ => -1,
        sendErrno := fun _ => 12, recvBuffer := [], recvRv := -1 }
      8 { packet := CreateIdlePacket 1 2 3, sendTime := -10000 }).1.finished = true ∧
    (onSendPacket_ { IcomStateMachine.init with socket_ := 3 }
      { now := fun n => 10000 * ((n : Int) - 1), sendRv := fun _ => -1,
        sendErrno := fun _ => 12, recvBuffer := [], recvRv := -1 }
      8 { packet := CreateIdlePacket 1 2 3, sendTime := -10000 }).1.deleted = 1 :=
  ⟨(onSendPacket_retry_budget { IcomStateMachine.init with socket_ := 3 }
      { now := fun n => 10000 * ((n : Int) - 1), sendRv := fun _ => -1,
        sendErrno := fun _ => 12, recvBuffer := [], recvRv := -1 }
      8 3 { packet := CreateIdlePacket 1 2 3, sendTime := -10000 }
      (by decide) (by decide) (by decide) (by decide)).2.1,
    (onSendPacket_retry_budget { IcomStateMachine.init with socket_ := 3 }
      { now := fun n => 10000 * ((n : Int) - 1), sendRv := fun _ => -1,
        sendErrno := fun _ => 12, recvBuffer := [], recvRv := -1 }
      8 3 { packet := CreateIdlePacket 1 2 3, sendTime := -10000 }
      (by decide) (by decide) (by decide) (by decide)).2.2.1 (by decide),
    (onSendPacket_retry_budget { IcomStateMachine.init with socket_ := 3 }
      { now := fun n => 10000 * ((n : Int) - 1), sendRv := fun _ => -1,
        sendErrno := fun _ => 12, recvBuffer := [], recvRv := -1 }
      8 3 { packet := CreateIdlePacket 1 2 3, sendTime := -10000 }
      (by decide) (by decide) (by decide) (by decide)).2.2.2⟩

/-- C26: `start` called with `localPort = 0` binds the remote port
(`localPort_ = port_`), and with a non-zero `localPort` binds that value; in
both cases the low 16 bits of `ourIdentifier_` are the low 16 bits of the chosen
local port, hence the port itself when it is a port number (0..65535). -/
theorem start_local_port (sm : IcomStateMachine) (s_addr : Nat) (fd : Int) (port : Nat)
    (localPort : Int) :
    (localPort = 0 → (start sm s_addr fd port localPort).localPort_ = ((port % 65536 : Nat) : Int)) ∧
    (localPort ≠ 0 → (start sm s_addr fd port localPort).localPort_ = localPort) ∧
    ((start sm s_addr fd port localPort).ourIdentifier_ % 65536 : Nat)
      = ((start sm s_addr fd port localPort).localPort_ % 65536).toNat ∧
    (0 ≤ (start sm s_addr fd port localPort).localPort_ →
      (start sm s_addr fd port localPort).localPort_ < 65536 →
      (((start sm s_addr fd port localPort).ourIdentifier_ % 65536 : Nat) : Int)
        = (start sm s_addr fd port localPort).localPort_) := by
  have hid : ∀ s : IcomStateMachine,
      ({ completeTransition (openSocket_ s s_addr fd) (some ARE_YOU_THERE) with
          packetReadTimerRunning := true } : IcomStateMachine).ourIdentifier_
        = (openSocket_ s s_addr fd).ourIdentifier_ ∧
      ({ completeTransition (openSocket_ s s_addr fd) (some ARE_YOU_THERE) with
          packetReadTimerRunning := true } : IcomStateMachine).localPort_ = s.localPort_ := by
    intro s
    simp [completeTransition, onTransitionComplete_, openSocket_]
  by_cases h0 : localPort = 0
  · have hs : start sm s_addr fd port localPort
        = { completeTransition
              (openSocket_ { sm with port_ := port % 65536,
                                     localPort_ := ((port % 65536 : Nat) : Int) } s_addr fd)
              (some ARE_YOU_THERE) with packetReadTimerRunning := true } := by
      simp [start, h0]
    have h := hid { sm with port_ := port % 65536, localPort_ := ((port % 65536 : Nat) : Int) }
    have ho := (openSocket_ourIdentifier
      { sm with port_ := port % 65536, localPort_ := ((port % 65536 : Nat) : Int) }
      s_addr fd).2.2.2
    rw [hs, h.1, h.2, ho]
    refine ⟨fun _ => rfl, fun hne => absurd h0 hne, rfl, ?_⟩
    intro h1 h2
    simp only at h1 h2 ⊢
    omega
  · have hs : start sm s_addr fd port localPort
        = { completeTransition
              (openSocket_ { sm with port_ := port % 65536, localPort_ := localPort } s_addr fd)
              (some ARE_YOU_THERE) with packetReadTimerRunning := true } := by
      simp [start, h0]
    have h := hid { sm with port_ := port % 65536, localPort_ := localPort }
    have ho := (openSocket_ourIdentifier
      { sm with port_ := port % 65536, localPort_ := localPort } s_addr fd).2.2.2
    rw [hs, h.1, h.2, ho]
    refine ⟨fun h => absurd h h0, fun _ => rfl, rfl, ?_⟩
    intro h1 h2
    simp only at h1 h2 ⊢
    omega

/-! ## CIV packets seen by the audio predicate -/

theorem CreateCIVPacket_seq (ourId theirId sendSeq : Nat) (civData : List Nat)
    (civLength : Nat) (hlen : civLength ≤ civData.length) :
    (CreateCIVPacket ourId theirId sendSeq civData civLength).loadU16 off_seq = some 0 := by
  rw [IcomPacket.loadU16, CreateCIVPacket_bytes _ _ _ _ _ hlen, Option.some_bind,
    readU16_append_left _ _ _ (by simp [off_seq])]
  simp [readU16, writeU32, writeU16, writeU8, List.getElem?_set, off_len, off_sentid,
    off_rcvdid, off_reply, off_data_datalen, off_data_sendseq, off_seq]

/-- C29, counterexample: for a CIV payload of 11 bytes the buffer of
`CreateCIVPacket` is 0x20 bytes long with type 0, and `isAudioPacket` returns
true on it. -/
theorem isAudioPacket_accepts_civ_packet :
    isAudioPacket
        (CreateCIVPacket 0x0A0B0C0D 0x01020304 7 [1, 2, 3, 4, 5, 6, 7, 8, 9, 10, 11] 11) 0 0
      = some { result := true, seq := 0, dataStart := 0x18 } := by
  decide

/-- C29, amended: on the buffer returned by `CreateCIVPacket`, for every
`ourId`, `theirId` and `sendSeq`, `isAudioPacket` returns false when the CIV
payload has at most 10 bytes (the packet is then shorter than `0x20`), leaving
its output parameters as they were, and returns true when the payload has 11
bytes or more. -/
theorem isAudioPacket_CreateCIVPacket (ourId theirId sendSeq : Nat) (civData : List Nat)
    (civLength : Nat) (hlen : civLength ≤ civData.length) (hmax : civLength ≤ 65535)
    (seq dataStart : Nat) :
    (civLength ≤ 10 →
      isAudioPacket (CreateCIVPacket ourId theirId sendSeq civData civLength) seq dataStart
        = some { result := false, seq := seq, dataStart := dataStart }) ∧
    (11 ≤ civLength →
      isAudioPacket (CreateCIVPacket ourId theirId sendSeq civData civLength) seq dataStart
        = some { result := true, seq := 0, dataStart := 0x18 }) := by
  have h1 := CreateCIVPacket_len ourId theirId sendSeq civData civLength hlen hmax
  have h2 := CreateCIVPacket_type ourId theirId sendSeq civData civLength hlen
  have h3 := CreateCIVPacket_seq ourId theirId sendSeq civData civLength hlen
  constructor
  · intro h
    have h4 : ¬ (0x15 + civLength ≥ 0x20) := by omega
    simp only [isAudioPacket, h1, h2, h3, Option.bind_eq_bind, Option.some_bind, h4,
      if_true, if_false, ne_eq]
    rfl
  · intro h
    have h4 : 0x15 + civLength ≥ 0x20 := by omega
    simp only [isAudioPacket, h1, h2, h3, Option.bind_eq_bind, Option.some_bind, h4,
      if_true, ne_eq]
    rfl

/-- C29, amended, at the three-byte payload `[0xFE, 0xFE, 0xFD]`. -/
theorem isAudioPacket_CreateCIVPacket_witness :
    isAudioPacket (CreateCIVPacket 0x0A0B0C0D 0x01020304 7 [0xFE, 0xFE, 0xFD] 3) 5 6
      = some { result := false, seq := 5, dataStart := 6 } :=
  (isAudioPacket_CreateCIVPacket 0x0A0B0C0D 0x01020304 7 [0xFE, 0xFE, 0xFD] 3
    (by decide) (by decide) 5 6).1 (by decide)

/-! ## Decoding retransmit requests -/

theorem readU16_at (pre : List Nat) (a b : Nat) (suf : List Nat) :
    readU16 (pre ++ a :: b :: suf) pre.length = some (a + 256 * b) := by
  have h0 : (pre ++ a :: b :: suf)[pre.length]? = some a := by
    rw [List.getElem?_append_right (Nat.le_refl _)]
    simp
  have h1 : (pre ++ a :: b :: suf)[pre.length + 1]? = some b := by
    rw [List.getElem?_append_right (by omega)]
    simp
  simp [readU16, h0, h1]

theorem length_flatMap_be (ids : List Nat) :
    (ids.flatMap (fun id => [id / 256 % 256, id % 256])).length = 2 * ids.length := by
  induction ids with
  | nil => rfl
  | cons a t ih =>
      simp only [List.flatMap_cons, List.length_append, ih, List.length_cons, List.length_nil]
      omega

/-- The loop of `isRetransmitPacket` on a buffer that holds, after `H`, two
bytes per id, most significant first: it appends one entry per id; each entry
is the native 16-bit value of the two bytes. -/
theorem retransmitLoop_spec (p : IcomPacket) (H : List Nat) (rest : List Nat) :
    ∀ (done acc : List Nat) (fuel : Nat),
    p.rawPacket_ = some (H ++ (done ++ rest).flatMap (fun id => [id / 256 % 256, id % 256])) →
    p.size_ = H.length + 2 * (done ++ rest).length →
    rest.length ≤ fuel →
    retransmitLoop p fuel (H.length + 2 * done.length) acc
      = some (acc ++ rest.map ToBigEndian) := by
  induction rest with
  | nil =>
      intro done acc fuel _ hs _
      have hnot : ¬ (H.length + 2 * done.length < p.size_) := by
        simp only [List.append_nil] at hs
        omega
      cases fuel with
      | zero => simp [retransmitLoop]
      | succ f => simp [retransmitLoop, hnot]
  | cons id rest ih =>
      intro done acc fuel hb hs hf
      cases fuel with
      | zero => simp at hf
      | succ f =>
          have hlt : H.length + 2 * done.length < p.size_ := by
            simp only [List.length_append, List.length_cons] at hs
            omega
          have hpre : (H ++ done.flatMap (fun id => [id / 256 % 256, id % 256])).length
              = H.length + 2 * done.length := by
            rw [List.length_append, length_flatMap_be]
          have hsplit : H ++ (done ++ id :: rest).flatMap (fun id => [id / 256 % 256, id % 256])
              = (H ++ done.flatMap (fun id => [id / 256 % 256, id % 256]))
                ++ (id / 256 % 256) :: (id % 256)
                  :: rest.flatMap (fun id => [id / 256 % 256, id % 256]) := by
            simp [List.flatMap_append, List.flatMap_cons]
          have hread : p.loadU16 (H.length + 2 * done.length) = some (ToBigEndian id) := by
            rw [IcomPacket.loadU16, hb, Option.some_bind, hsplit, ← hpre, readU16_at]
            unfold ToBigEndian
            congr 1
            omega
          have hb' : p.rawPacket_ = some (H ++ ((done ++ [id]) ++ rest).flatMap
              (fun id => [id / 256 % 256, id % 256])) := by
            rw [hb]; simp
          have hs' : p.size_ = H.length + 2 * ((done ++ [id]) ++ rest).length := by
            rw [hs]; simp
          have hrec := ih (done ++ [id]) (acc ++ [ToBigEndian id]) f hb' hs'
            (by simp only [List.length_cons] at hf; omega)
          have hidx : H.length + 2 * (done ++ [id]).length = H.length + 2 * done.length + 2 := by
            simp; omega
          rw [hidx] at hrec
          rw [retransmitLoop, if_pos hlt]
          simp only [hread, Option.bind_eq_bind, Option.some_bind]
          rw [hrec]
          simp

/-- What `isRetransmitPacket` does on a packet made of a 16-byte header `H` of
type `0x01` followed by two bytes per id, most significant first, for at least
one id: it returns true and appends one entry per id, the native 16-bit value
of the two bytes, which is the id with its bytes swapped. -/
theorem isRetransmitPacket_of_bytes (p : IcomPacket) (H ids retryPackets : List Nat)
    (hH : H.length = 16) (htype : readU16 H off_type = some 0x01)
    (hb : p.rawPacket_ = some (H ++ ids.flatMap (fun id => [id / 256 % 256, id % 256])))
    (hs : p.size_ = CONTROL_SIZE + 2 * ids.length) (hpos : 1 ≤ ids.length) :
    isRetransmitPacket p retryPackets
      = some { result := true, retryPackets := retryPackets ++ ids.map ToBigEndian } := by
  have hloop := retransmitLoop_spec p H ids [] retryPackets p.size_
    (by rw [List.nil_append]; exact hb)
    (by rw [hs, hH, List.nil_append]; simp [CONTROL_SIZE]) (by rw [hs]; omega)
  rw [hH] at hloop
  have hge : p.size_ ≥ CONTROL_SIZE := by rw [hs]; omega
  have hnc : ¬ p.size_ = CONTROL_SIZE := by rw [hs]; omega
  have hloop' : retransmitLoop p p.size_ CONTROL_SIZE retryPackets
      = some (retryPackets ++ ids.map ToBigEndian) := by
    simpa [CONTROL_SIZE] using hloop
  have ht : p.loadU16 off_type = some 0x01 := by
    rw [IcomPacket.loadU16, hb, Option.some_bind,
      readU16_append_left _ _ _ (by rw [hH]; simp [off_type])]
    exact htype
  simp only [isRetransmitPacket, hge, if_true, ht, Option.bind_eq_bind, Option.some_bind,
    hnc, if_false, hloop']
  rfl

/-- The decoder on a request for two ids or more: every id comes back with its
two bytes swapped. -/
theorem isRetransmitPacket_CreateRetransmitRequest_list (ourId theirId : Nat)
    (ids retryPackets : List Nat) (hn : 2 ≤ ids.length) :
    isRetransmitPacket (CreateRetransmitRequest ourId theirId ids) retryPackets
      = some { result := true, retryPackets := retryPackets ++ ids.map ToBigEndian } := by
  have hne : ids.length ≠ 1 := by omega
  have hb := CreateRetransmitRequest_list_bytes ourId theirId ids hne
  have hsz : (CreateRetransmitRequest ourId theirId ids).size_
      = CONTROL_SIZE + 2 * ids.length := by
    simp [CreateRetransmitRequest, IcomPacket.store, IcomPacket.zeroed, hne]
  exact isRetransmitPacket_of_bytes _ _ ids retryPackets (by simp)
    (by simp [readU16, writeU32, writeU16, List.getElem?_set, off_len, off_type, off_seq,
      off_sentid, off_rcvdid]) hb hsz (by omega)

/-- The decoder on a request for one id: the packet is two bytes longer than a
control packet, so the id is taken from the two zero bytes after the header and
the sequence field, where the id is, is not read. -/
theorem isRetransmitPacket_CreateRetransmitRequest_single (ourId theirId id : Nat)
    (retryPackets : List Nat) :
    isRetransmitPacket (CreateRetransmitRequest ourId theirId [id]) retryPackets
      = some { result := true, retryPackets := retryPackets ++ [0] } := by
  have hb := CreateRetransmitRequest_single_bytes ourId theirId id
  have hsz : (CreateRetransmitRequest ourId theirId [id]).size_
      = CONTROL_SIZE + 2 * [0].length := rfl
  exact isRetransmitPacket_of_bytes _ _ [0] retryPackets (by simp)
    (by simp [readU16, writeU32, writeU16, List.getElem?_set, off_len, off_type, off_seq,
      off_sentid, off_rcvdid]) hb hsz (by simp)

/-- The decoder on a request for no id: the packet is a bare control packet with
sequence field 0, read as the inlined form for the single id 0. -/
theorem isRetransmitPacket_CreateRetransmitRequest_nil (ourId theirId : Nat)
    (retryPackets : List Nat) :
    isRetransmitPacket (CreateRetransmitRequest ourId theirId []) retryPackets
      = some { result := true, retryPackets := retryPackets ++ [0] } := by
  have hb := CreateRetransmitRequest_list_bytes ourId theirId [] (by simp)
  have hsz : (CreateRetransmitRequest ourId theirId []).size_ = CONTROL_SIZE := rfl
  have ht : (CreateRetransmitRequest ourId theirId []).loadU16 off_type = some 0x01 := by
    rw [IcomPacket.loadU16, hb, Option.some_bind]
    simp [readU16, writeU32, writeU16, List.getElem?_set, off_len, off_type, off_seq,
      off_sentid, off_rcvdid]
  have hq : (CreateRetransmitRequest ourId theirId []).loadU16 off_seq = some 0 := by
    rw [IcomPacket.loadU16, hb, Option.some_bind]
    simp [readU16, writeU32, writeU16, List.getElem?_set, off_len, off_type, off_seq,
      off_sentid, off_rcvdid]
  simp only [isRetransmitPacket, hsz, ge_iff_le, le_refl, if_true, ht, hq,
    Option.bind_eq_bind, Option.some_bind]
  rfl

/-- C27: decoding does not undo encoding for retransmit requests.  For every
`ourId` and `theirId`, on the buffer of `CreateRetransmitRequest`
`isRetransmitPacket` returns true and appends: for a list of two ids or more,
every id with its two bytes swapped (the encoder stores the ids with
`ToBigEndian`, the decoder reads them back as they lie); for a list of one id,
whatever the id, the single entry 0 (the packet is 18 bytes long, not
`CONTROL_SIZE`, so the id in the sequence field is never read); for the empty
list, the single entry 0.  So `[7, 9, 11]` comes back as
`[0x0700, 0x0900, 0x0B00]` and `[7]` as `[0]`. -/
theorem retransmit_round_trip_fails (ourId theirId : Nat) (ids retryPackets : List Nat) :
    (2 ≤ ids.length →
      isRetransmitPacket (CreateRetransmitRequest ourId theirId ids) retryPackets
        = some { result := true, retryPackets := retryPackets ++ ids.map ToBigEndian }) ∧
    (∀ id : Nat,
      isRetransmitPacket (CreateRetransmitRequest ourId theirId [id]) retryPackets
        = some { result := true, retryPackets := retryPackets ++ [0] }) ∧
    isRetransmitPacket (CreateRetransmitRequest ourId theirId []) retryPackets
      = some { result := true, retryPackets := retryPackets ++ [0] } ∧
    isRetransmitPacket (CreateRetransmitRequest 0x0A0B0C0D 0x01020304 [7, 9, 11]) []
      = some { result := true, retryPackets := [0x0700, 0x0900, 0x0B00] } ∧
    isRetransmitPacket (CreateRetransmitRequest 0x0A0B0C0D 0x01020304 [7]) []
      = some { result := true, retryPackets := [0] } ∧
    [7, 9, 11].map ToBigEndian = [0x0700, 0x0900, 0x0B00] :=
  ⟨isRetransmitPacket_CreateRetransmitRequest_list ourId theirId ids retryPackets,
    fun id => isRetransmitPacket_CreateRetransmitRequest_single ourId theirId id retryPackets,
    isRetransmitPacket_CreateRetransmitRequest_nil ourId theirId retryPackets,
    by decide, by decide, by decide⟩

/-! ## Injectivity of the credential obfuscation -/

theorem sequence_indexOf :
    ∀ p < 127, 32 ≤ p → sequence.indexOf (sequence.getD p 0) = p := by
  decide

set_option maxRecDepth 8000 in
theorem sequence_onto :
    ∀ b < 127, 32 ≤ b →
      (32 ≤ sequence.indexOf b ∧ sequence.indexOf b ≤ 126 ∧
        sequence.getD (sequence.indexOf b) 0 = b) := by
  decide

theorem sequence_injective (p q : Nat) (hp : 32 ≤ p) (hp' : p ≤ 126) (hq : 32 ≤ q)
    (hq' : q ≤ 126) (h : sequence.getD p 0 = sequence.getD q 0) : p = q := by
  have h1 := sequence_indexOf p (by omega) hp
  have h2 := sequence_indexOf q (by omega) hq
  rw [← h1, ← h2, h]

theorem passwordIndex_injective (c c' i : Nat) (hc : 32 ≤ c ∧ c ≤ 126) (hc' : 32 ≤ c' ∧ c' ≤ 126)
    (hi : i < 16) (h : passwordIndex c i = passwordIndex c' i) : c = c' := by
  rw [passwordIndex_eq, passwordIndex_eq] at h
  split at h <;> split at h <;> omega

theorem passwordIndex_onto (p i : Nat) (hp : 32 ≤ p ∧ p ≤ 126) (hi : i < 16) :
    ∃ c, 32 ≤ c ∧ c ≤ 126 ∧ passwordIndex c i = p := by
  by_cases h : 32 + i ≤ p
  · refine ⟨p - i, by omega, by omega, ?_⟩
    rw [passwordIndex_eq]
    split <;> omega
  · refine ⟨p + 95 - i, by omega, by omega, ?_⟩
    rw [passwordIndex_eq]
    split <;> omega

theorem passwordIndex_range (c i : Nat) (hc : 32 ≤ c ∧ c ≤ 126) (hi : i < 16) :
    32 ≤ passwordIndex c i ∧ passwordIndex c i ≤ 126 := by
  rw [passwordIndex_eq]
  split <;> omega

theorem eq_of_getD_eq (s : List Nat) : ∀ (t : List Nat), s.length = t.length →
    (∀ j, j < s.length → s.getD j 0 = t.getD j 0) → s = t := by
  induction s with
  | nil =>
      intro t hl _
      exact (List.length_eq_zero.mp hl.symm).symm
  | cons a s ih =>
      intro t hl h
      cases t with
      | nil => simp at hl
      | cons b t =>
          have h0 := h 0 (by simp)
          simp only [List.getD_cons_zero] at h0
          have ht := ih t (by simpa using hl) (fun j hj => by
            have := h (j + 1) (by simp; omega)
            simpa using this)
          rw [h0, ht]

/-- C28: `EncodePassword_` is injective on printable credentials: two distinct
strings of the same length at most 16 made of printable ASCII characters are
encoded to different bytes.  The table entries at indices 32..126 are pairwise
different and are all the values `0x20`..`0x7E`, and at each position the shift
with wrap maps 32..126 one-to-one onto 32..126. -/
theorem EncodePassword_injective (s t buf : List Nat) (output : Nat)
    (hlen : s.length = t.length) (hn : s.length ≤ 16)
    (hs : ∀ c ∈ s, 0x20 ≤ c ∧ c ≤ 0x7E) (ht : ∀ c ∈ t, 0x20 ≤ c ∧ c ≤ 0x7E)
    (hne : s ≠ t) (hroom : output + s.length ≤ buf.length) :
    EncodePassword_ s buf output ≠ EncodePassword_ t buf output ∧
    (∀ p q, 32 ≤ p → p ≤ 126 → 32 ≤ q → q ≤ 126 →
      sequence.getD p 0 = sequence.getD q 0 → p = q) ∧
    (∀ b, 0x20 ≤ b → b ≤ 0x7E → ∃ p, 32 ≤ p ∧ p ≤ 126 ∧ sequence.getD p 0 = b) ∧
    (∀ i c c', i < 16 → 32 ≤ c → c ≤ 126 → 32 ≤ c' → c' ≤ 126 →
      passwordIndex c i = passwordIndex c' i → c = c') ∧
    (∀ i p, i < 16 → 32 ≤ p → p ≤ 126 → ∃ c, 32 ≤ c ∧ c ≤ 126 ∧ passwordIndex c i = p) := by
  refine ⟨?_, ?_, ?_, ?_, ?_⟩
  · intro heq
    apply hne
    apply eq_of_getD_eq s t hlen
    intro j hj
    have hjs : j < min s.length (16 - 0) := by simp; omega
    have hjt : j < min t.length (16 - 0) := by simp; omega
    have es := getElem?_encodePasswordLoop s 0 buf output j hjs (by omega)
    have et := getElem?_encodePasswordLoop t 0 buf output j hjt (by omega)
    have hcs : 0x20 ≤ s.getD j 0 ∧ s.getD j 0 ≤ 0x7E := by
      have hg : s.getD j 0 = s[j] := by
        simp [List.getD_eq_getElem?_getD, List.getElem?_eq_getElem hj]
      rw [hg]
      exact hs _ (List.getElem_mem hj)
    have hct : 0x20 ≤ t.getD j 0 ∧ t.getD j 0 ≤ 0x7E := by
      have hj' : j < t.length := by omega
      have hg : t.getD j 0 = t[j] := by
        simp [List.getD_eq_getElem?_getD, List.getElem?_eq_getElem hj']
      rw [hg]
      exact ht _ (List.getElem_mem hj')
    have hj16 : j < 16 := by omega
    have rs := passwordIndex_range (s.getD j 0) j hcs hj16
    have rt := passwordIndex_range (t.getD j 0) j hct hj16
    have ps := sequence_printable (passwordIndex (s.getD j 0) j) (by omega) rs.1
    have pt := sequence_printable (passwordIndex (t.getD j 0) j) (by omega) rt.1
    unfold EncodePassword_ at heq
    rw [heq, et, Nat.zero_add, Nat.mod_eq_of_lt (by omega), Nat.mod_eq_of_lt (by omega)] at es
    have hseq : sequence.getD (passwordIndex (t.getD j 0) j) 0
        = sequence.getD (passwordIndex (s.getD j 0) j) 0 := Option.some.inj es
    have hidx := sequence_injective _ _ rt.1 rt.2 rs.1 rs.2 hseq
    exact (passwordIndex_injective _ _ j hct hcs hj16 hidx).symm
  · intro p q hp hp' hq hq' h
    exact sequence_injective p q hp hp' hq hq' h
  · intro b hb hb'
    have := sequence_onto b (by omega) hb
    exact ⟨_, this.1, this.2.1, this.2.2⟩
  · intro i c c' hi hc hc' hd hd' h
    exact passwordIndex_injective c c' i ⟨hc, hc'⟩ ⟨hd, hd'⟩ hi h
  · intro i p hi hp hp'
    exact passwordIndex_onto p i ⟨hp, hp'⟩ hi

/-- C28, at the strings `"ab"` and `"ac"`. -/
theorem EncodePassword_injective_witness :
    EncodePassword_ [97, 98] (List.replicate 16 0) 0
      ≠ EncodePassword_ [97, 99] (List.replicate 16 0) 0 :=
  (EncodePassword_injective [97, 98] [97, 99] (List.replicate 16 0) 0
    (by decide) (by decide) (by decide) (by decide) (by decide) (by decide)).1

end ezdv.network.icom

namespace ezdv.task

/-! ## Changing the interval of a timer -/

/-- C30: what `changeInterval` does to a timer.  The running flag is as before
the call and a stopped timer stays stopped, with `once_` and the ESP timer
untouched.  A running timer, one-shot or not, is restarted as a periodic timer
with `once_` false: `stop()` clears `once_` before `start(once_)` reads it.  In
particular a timer running as one-shot with interval 1000 comes out of
`changeInterval(5000)` running, periodic, with `once_` false. -/
theorem changeInterval_restarts_periodic (t : DVTimer) (intervalInMicroseconds : Nat) :
    (t.changeInterval intervalInMicroseconds).running_ = t.running_ ∧
    (t.changeInterval intervalInMicroseconds).intervalInMicroseconds_
      = intervalInMicroseconds ∧
    (t.running_ = false →
      (t.changeInterval intervalInMicroseconds).once_ = t.once_ ∧
      (t.changeInterval intervalInMicroseconds).timerHandle_ = t.timerHandle_) ∧
    (t.running_ = true →
      (t.changeInterval intervalInMicroseconds).once_ = false ∧
      (t.changeInterval intervalInMicroseconds).timerHandle_
        = EspTimer.periodic intervalInMicroseconds) ∧
    DVTimer.changeInterval
        { intervalInMicroseconds_ := 1000, running_ := true, once_ := true,
          timerHandle_ := EspTimer.once 1000 } 5000
      = { intervalInMicroseconds_ := 5000, running_ := true, once_ := false,
          timerHandle_ := EspTimer.periodic 5000 } := by
  refine ⟨?_, ?_, ?_, ?_, by decide⟩
  · cases h : t.running_ <;> simp [DVTimer.changeInterval, DVTimer.stop, DVTimer.start, h]
  · cases h : t.running_ <;> simp [DVTimer.changeInterval, DVTimer.stop, DVTimer.start, h]
  · intro h
    simp [DVTimer.changeInterval, h]
  · intro h
    simp [DVTimer.changeInterval, DVTimer.stop, DVTimer.start, h]

end ezdv.task
